import Mathlib

/-!
# NVDECODE experiments (v0, v1, v2): a shallow embedding

The three programs `test-nvidia-decode-v0.cpp`, `test-nvidia-decode-v1.cpp` and
`test-nvidia-decode-v2.cpp` are sequential drivers of a vendor SDK.  The SDK is
not part of the repository, so it is an environment here: an oracle `Sdk` gives,
for the n-th call of every entry point, the status and the values the entry
point stores.  A run of a program is a function from the environment to an
`Outcome` (the value returned, or the exit code) and a final `State` holding
the global variables, the bytes appended to `out.nv12` and the log of the SDK
calls and `printf` calls made, in order.

Machine integers: `int` is an `Int` in `[-2^31, 2^31)`, `unsigned int` a `Nat`
below `2^32`; every conversion and every unsigned product is written with an
explicit reduction (`u32`, `i32`, `u64`).
-/

namespace NvDecode

/-! ## Machine integers -/

/-- Value of an integer converted to `unsigned int` (reduction modulo `2^32`). -/
@[irreducible] def u32 (z : Int) : Nat := (z % 4294967296).toNat

/-- Value of an integer converted to `int` (two's complement, 32 bits). -/
@[irreducible] def i32 (z : Int) : Int :=
  if z % 4294967296 < 2147483648 then z % 4294967296 else z % 4294967296 - 4294967296

/-- Value of an integer converted to `size_t` (reduction modulo `2^64`). -/
@[irreducible] def u64 (z : Int) : Nat := (z % 18446744073709551616).toNat

/-- Conversion to `int` of a non-negative `double` whose integral part is `x`: the value when it
fits, else the x86-64 result of `cvttsd2si` (the standard leaves that case undefined). -/
@[irreducible] def double_to_int (x : Nat) : Int := if x < 2147483648 then (x : Int) else -2147483648

/-! ## SDK types (the vendor headers are not part of the repository) -/

abbrev CUresult := Nat
abbrev CUDA_SUCCESS : CUresult := 0
abbrev EXIT_FAILURE : Int := 1

/-- Pointers and SDK handles; `nullptr` is `0`. -/
abbrev Handle := Nat
abbrev nullptr : Handle := 0

/-- Codec enumeration of the SDK header; only the enumerator the programs name is told apart. -/
inductive cudaVideoCodec where
  | cudaVideoCodec_H264
  | other (n : Nat)
  deriving DecidableEq, Repr

/-- Chroma format enumeration of the SDK header. -/
inductive cudaVideoChromaFormat where
  | cudaVideoChromaFormat_420
  | other (n : Nat)
  deriving DecidableEq, Repr

/-- Output surface formats the programs name. -/
inductive cudaVideoSurfaceFormat where
  | cudaVideoSurfaceFormat_NV12
  | cudaVideoSurfaceFormat_P016
  deriving DecidableEq, Repr

/-- Deinterlace modes the programs name. -/
inductive cudaVideoDeinterlaceMode where
  | cudaVideoDeinterlaceMode_Weave
  deriving DecidableEq, Repr

/-- Creation flags the programs name. -/
inductive cudaVideoCreateFlags where
  | cudaVideoCreate_PreferCUVID
  deriving DecidableEq, Repr

open cudaVideoCodec cudaVideoChromaFormat cudaVideoSurfaceFormat cudaVideoDeinterlaceMode
  cudaVideoCreateFlags

/-- The fields of `CUVIDEOFORMAT` the programs read (the printed ones apart). -/
structure CUVIDEOFORMAT where
  codec : cudaVideoCodec
  chroma_format : cudaVideoChromaFormat
  bit_depth_luma_minus8 : Nat
  coded_width : Nat
  coded_height : Nat
  deriving DecidableEq, Repr

/-- The input fields of `CUVIDDECODECAPS`; `bIsSupported` is what the SDK answers. -/
structure CUVIDDECODECAPS where
  eCodecType : cudaVideoCodec
  eChromaFormat : cudaVideoChromaFormat
  nBitDepthMinus8 : Nat
  deriving DecidableEq, Repr

/-- The fields of `CUVIDDECODECREATEINFO` the programs assign. -/
structure CUVIDDECODECREATEINFO where
  CodecType : cudaVideoCodec
  ChromaFormat : cudaVideoChromaFormat
  OutputFormat : cudaVideoSurfaceFormat
  bitDepthMinus8 : Nat
  DeinterlaceMode : cudaVideoDeinterlaceMode
  ulNumOutputSurfaces : Nat
  ulNumDecodeSurfaces : Nat
  ulCreationFlags : cudaVideoCreateFlags
  vidLock : Handle
  ulIntraDecodeOnly : Nat
  ulTargetWidth : Nat
  ulTargetHeight : Nat
  ulWidth : Nat
  ulHeight : Nat
  deriving DecidableEq, Repr

/-- The three callback functions every program defines. -/
inductive CallbackFn where
  | parser_sequence_callback
  | parser_decode_picture_callback
  | parser_display_picture_callback
  deriving DecidableEq, Repr

/-- The fields of `CUVIDPARSERPARAMS`; a callback pointer is `none` when null. -/
structure CUVIDPARSERPARAMS where
  CodecType : cudaVideoCodec
  ulMaxNumDecodeSurfaces : Nat
  ulClockRate : Nat
  ulErrorThreshold : Nat
  ulMaxDisplayDelay : Nat
  pUserData : Handle
  pfnSequenceCallback : Option CallbackFn
  pfnDecodePicture : Option CallbackFn
  pfnDisplayPicture : Option CallbackFn
  deriving DecidableEq, Repr

/-- The packet given to `cuvidParseVideoData`. -/
structure CUVIDSOURCEDATAPACKET where
  flags : Nat
  payload_size : Nat
  payload : Handle
  timestamp : Int
  deriving DecidableEq, Repr

/-- Picture parameters: passed through to `cuvidDecodePicture` untouched. -/
structure CUVIDPICPARAMS where
  PicWidthInMbs : Int
  FrameHeightInMbs : Int
  CurrPicIdx : Int
  deriving DecidableEq, Repr

/-- The fields of `CUVIDPARSERDISPINFO` the programs read. -/
structure CUVIDPARSERDISPINFO where
  picture_index : Int
  progressive_frame : Int
  top_field_first : Int
  repeat_first_field : Int
  deriving DecidableEq, Repr

/-- The fields of `CUVIDPROCPARAMS` the programs assign. -/
structure CUVIDPROCPARAMS where
  progressive_frame : Int
  second_field : Int
  top_field_first : Int
  unpaired_field : Int
  output_stream : Handle
  deriving DecidableEq, Repr

/-- What the parser asks the program to do while it parses a packet. -/
inductive ParserCallback where
  | sequence (fmt : CUVIDEOFORMAT)
  | decode (pic : CUVIDPICPARAMS)
  | display (disp : CUVIDPARSERDISPINFO)
  deriving DecidableEq, Repr

/-! ## The log of a run -/

/-- The SDK entry points the programs call, and `printf`. -/
inductive Api where
  | printf | cuGetErrorString
  | cuInit | cuDeviceGetCount | cuDeviceGet | cuDeviceGetName | cuCtxCreate
  | cuvidGetDecoderCaps | cuvidCreateDecoder | cuvidCreateVideoParser
  | cuvidParseVideoData | cuvidParseVideoData_returned
  | cuCtxPushCurrent | cuCtxPopCurrent
  | cuvidDecodePicture | cuvidMapVideoFrame | cuvidUnmapVideoFrame
  | cuMemAllocHost | cuMemcpyDtoH
  | cuCtxDestroy | cuvidDestroyDecoder | cuvidDestroyVideoParser
  deriving DecidableEq, Repr

/-- One call, with the arguments given and what the SDK answered.  `cuvidParseVideoData` is
logged when it is entered and again when it returns, the callbacks in between. -/
inductive Event where
  | printf (fmt : String)
  | cuGetErrorString (r : CUresult)
  | cuInit (flags : Nat) (r : CUresult)
  | cuDeviceGetCount (r : CUresult) (count : Int)
  | cuDeviceGet (ordinal : Int) (r : CUresult) (dev : Int)
  | cuDeviceGetName (len : Nat) (dev : Int) (r : CUresult)
  | cuCtxCreate (flags : Nat) (dev : Int) (r : CUresult) (ctx : Handle)
  | cuvidGetDecoderCaps (caps : CUVIDDECODECAPS) (r : CUresult) (bIsSupported : Nat)
  | cuvidCreateDecoder (info : CUVIDDECODECREATEINFO) (r : CUresult) (dec : Handle)
  | cuvidCreateVideoParser (params : CUVIDPARSERPARAMS) (r : CUresult) (parser : Handle)
  | cuvidParseVideoData (parser : Handle) (pkt : CUVIDSOURCEDATAPACKET)
  | cuvidParseVideoData_returned (r : CUresult)
  | cuCtxPushCurrent (ctx : Handle)
  | cuCtxPopCurrent
  | cuvidDecodePicture (dec : Handle) (pic : CUVIDPICPARAMS) (r : CUresult)
  | cuvidMapVideoFrame (dec : Handle) (idx : Int) (vpp : CUVIDPROCPARAMS) (r : CUresult)
      (devptr : Nat) (pitch : Nat)
  | cuvidUnmapVideoFrame (dec : Handle) (devptr : Nat) (r : CUresult)
  | cuMemAllocHost (bytesize : Nat) (r : CUresult) (p : Handle)
  | cuMemcpyDtoH (dst : Handle) (src : Nat) (bytes : Nat) (r : CUresult)
  | cuCtxDestroy (ctx : Handle) (r : CUresult)
  | cuvidDestroyDecoder (dec : Handle) (r : CUresult)
  | cuvidDestroyVideoParser (parser : Handle) (r : CUresult)
  deriving DecidableEq, Repr

/-- The entry point an event is a call of. -/
def Event.api : Event → Api
  | .printf _ => .printf
  | .cuGetErrorString _ => .cuGetErrorString
  | .cuInit _ _ => .cuInit
  | .cuDeviceGetCount _ _ => .cuDeviceGetCount
  | .cuDeviceGet _ _ _ => .cuDeviceGet
  | .cuDeviceGetName _ _ _ => .cuDeviceGetName
  | .cuCtxCreate _ _ _ _ => .cuCtxCreate
  | .cuvidGetDecoderCaps _ _ _ => .cuvidGetDecoderCaps
  | .cuvidCreateDecoder _ _ _ => .cuvidCreateDecoder
  | .cuvidCreateVideoParser _ _ _ => .cuvidCreateVideoParser
  | .cuvidParseVideoData _ _ => .cuvidParseVideoData
  | .cuvidParseVideoData_returned _ => .cuvidParseVideoData_returned
  | .cuCtxPushCurrent _ => .cuCtxPushCurrent
  | .cuCtxPopCurrent => .cuCtxPopCurrent
  | .cuvidDecodePicture _ _ _ => .cuvidDecodePicture
  | .cuvidMapVideoFrame _ _ _ _ _ _ => .cuvidMapVideoFrame
  | .cuvidUnmapVideoFrame _ _ _ => .cuvidUnmapVideoFrame
  | .cuMemAllocHost _ _ _ => .cuMemAllocHost
  | .cuMemcpyDtoH _ _ _ _ => .cuMemcpyDtoH
  | .cuCtxDestroy _ _ => .cuCtxDestroy
  | .cuvidDestroyDecoder _ _ => .cuvidDestroyDecoder
  | .cuvidDestroyVideoParser _ _ => .cuvidDestroyVideoParser

/-- The status an SDK call returned to the program (`cuvidParseVideoData` returns it in its
second event); `none` for `printf`, for the entry of `cuvidParseVideoData` and for the calls
whose status the SDK returns but no program reads. -/
def Event.status : Event → Option CUresult
  | .printf _ => none
  | .cuGetErrorString _ => none
  | .cuInit _ r => some r
  | .cuDeviceGetCount r _ => some r
  | .cuDeviceGet _ r _ => some r
  | .cuDeviceGetName _ _ r => some r
  | .cuCtxCreate _ _ r _ => some r
  | .cuvidGetDecoderCaps _ r _ => some r
  | .cuvidCreateDecoder _ r _ => some r
  | .cuvidCreateVideoParser _ r _ => some r
  | .cuvidParseVideoData _ _ => none
  | .cuvidParseVideoData_returned r => some r
  | .cuCtxPushCurrent _ => none
  | .cuCtxPopCurrent => none
  | .cuvidDecodePicture _ _ r => some r
  | .cuvidMapVideoFrame _ _ _ r _ _ => some r
  | .cuvidUnmapVideoFrame _ _ r => some r
  | .cuMemAllocHost _ r _ => some r
  | .cuMemcpyDtoH _ _ _ r => some r
  | .cuCtxDestroy _ r => some r
  | .cuvidDestroyDecoder _ r => some r
  | .cuvidDestroyVideoParser _ r => some r

/-- Number of calls of entry point `k` already in the log. -/
def calls (k : Api) (log : List Event) : Nat := log.countP (fun e => e.api == k)

/-! ## The environment -/

/-- The SDK as an oracle: the answer of every entry point to its n-th call (n from 0).
`cuvidParseVideoData` answers with the callbacks it makes, in order, and its status. -/
structure Sdk where
  cuInit : Nat → CUresult
  cuDeviceGetCount : Nat → CUresult × Int
  cuDeviceGet : Nat → CUresult × Int
  cuDeviceGetName : Nat → CUresult
  cuCtxCreate : Nat → CUresult × Handle
  cuvidGetDecoderCaps : Nat → CUresult × Nat
  cuvidCreateDecoder : Nat → CUresult × Handle
  cuvidCreateVideoParser : Nat → CUresult × Handle
  cuvidParseVideoData : Nat → List ParserCallback × CUresult
  cuvidDecodePicture : Nat → CUresult
  cuvidMapVideoFrame : Nat → CUresult × Nat × Nat
  cuvidUnmapVideoFrame : Nat → CUresult
  cuMemAllocHost : Nat → CUresult × Handle
  cuMemcpyDtoH : Nat → CUresult × (Nat → Nat)
  cuCtxDestroy : Nat → CUresult
  cuvidDestroyDecoder : Nat → CUresult
  cuvidDestroyVideoParser : Nat → CUresult

/-- The SDK and the file system: whether `out.nv12` can be opened for writing, whether
`./moonlight.264` can be opened, its size, the buffer `malloc` returns for it, and the host
memory as it is before the run (seen from the address `cuMemAllocHost` will return). -/
structure Env where
  sdk : Sdk
  ofs_open_ok : Bool
  ifs_is_open : Bool
  ifs_size : Nat
  ifs_buf : Handle
  heap : Nat → Nat

/-! ## Program state and the program monad -/

/-- The global variables of the three programs (`v0` and `v1` have the first three only), the
parameters the SDK keeps for the parser it created, the host memory at `yuv_buffer`, the bytes
appended to `out.nv12` and the log. -/
structure State where
  context : Handle
  decoder : Handle
  device : Int
  ofs_is_open : Bool
  yuv_buffer : Handle
  yuv_nbytes_needed : Int
  coded_width : Int
  coded_height : Int
  registered : Option CUVIDPARSERPARAMS
  host : Nat → Nat
  out_nv12 : List Nat
  log : List Event

/-- The globals as their initialisers leave them. -/
def State.init (env : Env) : State :=
  { context := nullptr, decoder := nullptr, device := 0, ofs_is_open := false,
    yuv_buffer := nullptr, yuv_nbytes_needed := 0, coded_width := 0, coded_height := 0,
    registered := none, host := env.heap, out_nv12 := [], log := [] }

/-- How a piece of program ends: it returns a value, or the process exits. -/
inductive Outcome (α : Type) where
  | ret (a : α) (s : State)
  | exit (code : Int) (s : State)

/-- The state a piece of program ends in. -/
def Outcome.state {α : Type} : Outcome α → State
  | .ret _ s => s
  | .exit _ s => s

/-- The value returned, if the process did not exit. -/
def Outcome.value {α : Type} : Outcome α → Option α
  | .ret a _ => some a
  | .exit _ _ => none

/-- The exit code, if the process exited. -/
def Outcome.exitCode {α : Type} : Outcome α → Option Int
  | .ret _ _ => none
  | .exit c _ => some c

/-- A piece of program. -/
def Prog (α : Type) : Type := State → Outcome α

/-- What follows a piece of program that ended: nothing runs after `exit`. -/
def Outcome.andThen {α β : Type} (o : Outcome α) (f : α → Prog β) : Outcome β :=
  match o with
  | .ret a s1 => f a s1
  | .exit c s1 => .exit c s1

/-- Sequencing. -/
def Prog.bind {α β : Type} (x : Prog α) (f : α → Prog β) : Prog β := fun s =>
  (x s).andThen f

instance : Monad Prog where
  pure a := fun s => .ret a s
  bind := Prog.bind

/-- Process exit. -/
def exit {α : Type} (code : Int) : Prog α := fun s => .exit code s

/-- Read the globals. -/
def getState : Prog State := fun s => .ret s s

/-- Assign to globals. -/
def modifyState (f : State → State) : Prog Unit := fun s => .ret () (f s)

/-- Append an event to the log. -/
def emit (e : Event) : Prog Unit := fun s => .ret () { s with log := s.log ++ [e] }

/-- A `printf` call; only the format string is kept. -/
def printf (fmt : String) : Prog Unit := emit (.printf fmt)

/-! ## SDK entry points, answered by the oracle -/

def cuGetErrorString (r : CUresult) : Prog Unit := emit (.cuGetErrorString r)

def cuInit (sdk : Sdk) (flags : Nat) : Prog CUresult := fun s =>
  let r := sdk.cuInit (calls .cuInit s.log)
  .ret r { s with log := s.log ++ [.cuInit flags r] }

def cuDeviceGetCount (sdk : Sdk) : Prog (CUresult × Int) := fun s =>
  let a := sdk.cuDeviceGetCount (calls .cuDeviceGetCount s.log)
  .ret a { s with log := s.log ++ [.cuDeviceGetCount a.1 a.2] }

/-- The call `cuDeviceGet(&device, ordinal)`: stores into the global `device`. -/
def cuDeviceGet (sdk : Sdk) (ordinal : Int) : Prog CUresult := fun s =>
  let a := sdk.cuDeviceGet (calls .cuDeviceGet s.log)
  .ret a.1 { s with device := a.2, log := s.log ++ [.cuDeviceGet ordinal a.1 a.2] }

def cuDeviceGetName (sdk : Sdk) (len : Nat) (dev : Int) : Prog CUresult := fun s =>
  let r := sdk.cuDeviceGetName (calls .cuDeviceGetName s.log)
  .ret r { s with log := s.log ++ [.cuDeviceGetName len dev r] }

/-- The call `cuCtxCreate(&context, flags, dev)`: stores into the global `context`. -/
def cuCtxCreate (sdk : Sdk) (flags : Nat) (dev : Int) : Prog CUresult := fun s =>
  let a := sdk.cuCtxCreate (calls .cuCtxCreate s.log)
  .ret a.1 { s with context := a.2, log := s.log ++ [.cuCtxCreate flags dev a.1 a.2] }

/-- Returns the status and the `bIsSupported` the SDK filled in. -/
def cuvidGetDecoderCaps (sdk : Sdk) (caps : CUVIDDECODECAPS) : Prog (CUresult × Nat) := fun s =>
  let a := sdk.cuvidGetDecoderCaps (calls .cuvidGetDecoderCaps s.log)
  .ret a { s with log := s.log ++ [.cuvidGetDecoderCaps caps a.1 a.2] }

/-- The call `cuvidCreateDecoder(&decoder, &create_info)`: stores into the global `decoder`. -/
def cuvidCreateDecoder (sdk : Sdk) (info : CUVIDDECODECREATEINFO) : Prog CUresult := fun s =>
  let a := sdk.cuvidCreateDecoder (calls .cuvidCreateDecoder s.log)
  .ret a.1 { s with decoder := a.2, log := s.log ++ [.cuvidCreateDecoder info a.1 a.2] }

/-- The call `cuvidCreateVideoParser(&parser, &parser_params)`: returns the status and the
handle stored into the local `parser`; on success the SDK keeps the parameters. -/
def cuvidCreateVideoParser (sdk : Sdk) (params : CUVIDPARSERPARAMS) :
    Prog (CUresult × Handle) := fun s =>
  let a := sdk.cuvidCreateVideoParser (calls .cuvidCreateVideoParser s.log)
  .ret a { s with registered := if a.1 = CUDA_SUCCESS then some params else s.registered,
                  log := s.log ++ [.cuvidCreateVideoParser params a.1 a.2] }

def cuCtxPushCurrent (ctx : Handle) : Prog Unit := emit (.cuCtxPushCurrent ctx)

def cuCtxPopCurrent : Prog Unit := emit .cuCtxPopCurrent

def cuvidDecodePicture (sdk : Sdk) (dec : Handle) (pic : CUVIDPICPARAMS) : Prog CUresult :=
  fun s =>
  let r := sdk.cuvidDecodePicture (calls .cuvidDecodePicture s.log)
  .ret r { s with log := s.log ++ [.cuvidDecodePicture dec pic r] }

/-- Returns the status, the device pointer and the pitch (an `unsigned int`). -/
def cuvidMapVideoFrame (sdk : Sdk) (dec : Handle) (idx : Int) (vpp : CUVIDPROCPARAMS) :
    Prog (CUresult × Nat × Nat) := fun s =>
  let a := sdk.cuvidMapVideoFrame (calls .cuvidMapVideoFrame s.log)
  let pitch := u32 a.2.2
  .ret (a.1, a.2.1, pitch)
    { s with log := s.log ++ [.cuvidMapVideoFrame dec idx vpp a.1 a.2.1 pitch] }

def cuvidUnmapVideoFrame (sdk : Sdk) (dec : Handle) (devptr : Nat) : Prog CUresult := fun s =>
  let r := sdk.cuvidUnmapVideoFrame (calls .cuvidUnmapVideoFrame s.log)
  .ret r { s with log := s.log ++ [.cuvidUnmapVideoFrame dec devptr r] }

/-- The call `cuMemAllocHost((void**)&yuv_buffer, bytesize)`: stores into `yuv_buffer`. -/
def cuMemAllocHost (sdk : Sdk) (bytesize : Nat) : Prog CUresult := fun s =>
  let a := sdk.cuMemAllocHost (calls .cuMemAllocHost s.log)
  .ret a.1 { s with yuv_buffer := a.2, log := s.log ++ [.cuMemAllocHost bytesize a.1 a.2] }

/-- The call `cuMemcpyDtoH(yuv_buffer, src, bytes)`: on success the first `bytes` bytes of the
host memory at `yuv_buffer` are those of the device memory at `src`. -/
def cuMemcpyDtoH (sdk : Sdk) (dst : Handle) (src : Nat) (bytes : Nat) : Prog CUresult := fun s =>
  let a := sdk.cuMemcpyDtoH (calls .cuMemcpyDtoH s.log)
  .ret a.1 { s with host := if a.1 = CUDA_SUCCESS then
                        fun i => if i < bytes then a.2 i else s.host i
                      else s.host,
                    log := s.log ++ [.cuMemcpyDtoH dst src bytes a.1] }

def cuCtxDestroy (sdk : Sdk) (ctx : Handle) : Prog CUresult := fun s =>
  let r := sdk.cuCtxDestroy (calls .cuCtxDestroy s.log)
  .ret r { s with log := s.log ++ [.cuCtxDestroy ctx r] }

def cuvidDestroyDecoder (sdk : Sdk) (dec : Handle) : Prog CUresult := fun s =>
  let r := sdk.cuvidDestroyDecoder (calls .cuvidDestroyDecoder s.log)
  .ret r { s with log := s.log ++ [.cuvidDestroyDecoder dec r] }

def cuvidDestroyVideoParser (sdk : Sdk) (parser : Handle) : Prog CUresult := fun s =>
  let r := sdk.cuvidDestroyVideoParser (calls .cuvidDestroyVideoParser s.log)
  .ret r { s with log := s.log ++ [.cuvidDestroyVideoParser parser r] }

/-- The three callbacks of one program. -/
structure Callbacks where
  parser_sequence_callback : CUVIDEOFORMAT → Prog Int
  parser_decode_picture_callback : CUVIDPICPARAMS → Prog Int
  parser_display_picture_callback : CUVIDPARSERDISPINFO → Prog Int

/-- The parser makes one callback, through the pointer registered for it (none if null); the
value returned goes to the SDK. -/
def run_callback (cbs : Callbacks) (c : ParserCallback) : Prog Unit := fun s =>
  match c with
  | .sequence fmt =>
    match s.registered.bind (fun p => p.pfnSequenceCallback) with
    | some _ => (cbs.parser_sequence_callback fmt >>= fun _ => pure ()) s
    | none => .ret () s
  | .decode pic =>
    match s.registered.bind (fun p => p.pfnDecodePicture) with
    | some _ => (cbs.parser_decode_picture_callback pic >>= fun _ => pure ()) s
    | none => .ret () s
  | .display disp =>
    match s.registered.bind (fun p => p.pfnDisplayPicture) with
    | some _ => (cbs.parser_display_picture_callback disp >>= fun _ => pure ()) s
    | none => .ret () s

/-- The callbacks of one `cuvidParseVideoData` call, in order. -/
def run_callbacks (cbs : Callbacks) : List ParserCallback → Prog Unit
  | [] => pure ()
  | c :: cs => run_callback cbs c >>= fun _ => run_callbacks cbs cs

/-- The call `cuvidParseVideoData(parser, &pkt)`: the SDK makes its callbacks, then returns. -/
def cuvidParseVideoData (sdk : Sdk) (cbs : Callbacks) (parser : Handle)
    (pkt : CUVIDSOURCEDATAPACKET) : Prog CUresult := fun s =>
  let a := sdk.cuvidParseVideoData (calls .cuvidParseVideoData s.log)
  (do emit (.cuvidParseVideoData parser pkt)
      run_callbacks cbs a.1
      emit (.cuvidParseVideoData_returned a.2)
      pure a.2) s

/-- The call `cuvidParseVideoData(parser, &pkt)` seen right after the first `k` callbacks the
SDK makes in it. -/
def parse_upto (sdk : Sdk) (cbs : Callbacks) (parser : Handle) (pkt : CUVIDSOURCEDATAPACKET)
    (k : Nat) : Prog Unit := fun s =>
  let a := sdk.cuvidParseVideoData (calls .cuvidParseVideoData s.log)
  (do emit (.cuvidParseVideoData parser pkt)
      run_callbacks cbs (a.1.take k)) s

/-! ## test-nvidia-decode-v0.cpp -/

namespace V0

/-- `parser_sequence_callback` of v0: prints the format and returns 0. -/
def parser_sequence_callback (_fmt : CUVIDEOFORMAT) : Prog Int := do
  printf "CUVIDEOFORMAT.Coded size: %d x %d\n"
  printf "CUVIDEOFORMAT.Display area: %d %d %d %d\n"
  printf "CUVIDEOFORMAT.Bitrate: %u\n"
  return 0

/-- `parser_decode_picture_callback` of v0. -/
def parser_decode_picture_callback (sdk : Sdk) (pic : CUVIDPICPARAMS) : Prog Int := do
  if nullptr = (← getState).decoder then
    printf "decoder is nullptr. (exiting)."
    exit EXIT_FAILURE
  let r ← cuvidDecodePicture sdk (← getState).decoder pic
  if CUDA_SUCCESS ≠ r then
    printf "Failed to decode the picture."
  return 1

/-- The post-processing parameters the display callback of v0 builds (lines 268-271). -/
def vpp (disp : CUVIDPARSERDISPINFO) : CUVIDPROCPARAMS :=
  { progressive_frame := disp.progressive_frame,
    top_field_first := disp.top_field_first,
    unpaired_field := if disp.repeat_first_field < 0 then 1 else 0,
    second_field := 0,
    output_stream := nullptr }

/-- `parser_display_picture_callback` of v0.  The device pointer is stored through
`(unsigned long long*)&device` and read back as `(unsigned long long)device`: the global keeps
its low 32 bits as an `int`. -/
def parser_display_picture_callback (sdk : Sdk) (disp : CUVIDPARSERDISPINFO) : Prog Int := do
  let to_map : Int := disp.picture_index
  let vpp := vpp disp
  let (r, devptr, _pitch) ← cuvidMapVideoFrame sdk (← getState).decoder to_map vpp
  modifyState (fun s => { s with device := i32 devptr })
  if CUDA_SUCCESS ≠ r then
    cuGetErrorString r
    printf "- mapping: %u failed: %s\n"
    return 0
  printf "+ mapping: %u succeeded\n"
  let r ← cuvidUnmapVideoFrame sdk (← getState).decoder (u64 (← getState).device)
  if CUDA_SUCCESS ≠ r then
    cuGetErrorString r
    printf "- failed to unmap the video frame: %s, %d\n"
    return 0
  return 1

/-- The three callbacks v0 registers. -/
def callbacks (sdk : Sdk) : Callbacks :=
  { parser_sequence_callback := parser_sequence_callback,
    parser_decode_picture_callback := parser_decode_picture_callback sdk,
    parser_display_picture_callback := parser_display_picture_callback sdk }

/-- The creation parameters `main` of v0 builds (lines 107-135). -/
def create_info : CUVIDDECODECREATEINFO :=
  let decode_caps : CUVIDDECODECAPS :=
    { eCodecType := cudaVideoCodec_H264, eChromaFormat := cudaVideoChromaFormat_420,
      nBitDepthMinus8 := 0 }
  let ulWidth := 512
  let ulHeight := 384
  { CodecType := decode_caps.eCodecType,
    ChromaFormat := decode_caps.eChromaFormat,
    OutputFormat := cudaVideoSurfaceFormat_NV12,
    ulCreationFlags := cudaVideoCreate_PreferCUVID,
    DeinterlaceMode := cudaVideoDeinterlaceMode_Weave,
    bitDepthMinus8 := decode_caps.nBitDepthMinus8,
    ulNumOutputSurfaces := 2,
    ulNumDecodeSurfaces := 4,
    ulIntraDecodeOnly := 0,
    ulWidth := ulWidth,
    ulHeight := ulHeight,
    ulTargetWidth := ulWidth,
    ulTargetHeight := ulHeight,
    vidLock := nullptr }

/-- The parser parameters `main` of v0 builds (lines 149-159). -/
def parser_params : CUVIDPARSERPARAMS :=
  { CodecType := create_info.CodecType,
    ulMaxNumDecodeSurfaces := create_info.ulNumDecodeSurfaces,
    ulClockRate := 0,
    ulErrorThreshold := 0,
    ulMaxDisplayDelay := 1,
    pUserData := nullptr,
    pfnSequenceCallback := some .parser_sequence_callback,
    pfnDecodePicture := some .parser_decode_picture_callback,
    pfnDisplayPicture := some .parser_display_picture_callback }

/-- Lines 60-146 of `main`: CUDA initialisation, capabilities, and the decoder. -/
def main_init (env : Env) : Prog Unit := do
  printf "\n\nNvDecoder Test v0.\n\n"
  let r ← cuInit env.sdk 0
  if CUDA_SUCCESS ≠ r then
    cuGetErrorString r
    printf "Failed to initialize cuda: %s. (exiting).\n"
    exit EXIT_FAILURE
  let (r, _device_count) ← cuDeviceGetCount env.sdk
  if CUDA_SUCCESS ≠ r then
    cuGetErrorString r
    printf "Failed to get the cuda device count: %s. (exiting).\n"
    exit EXIT_FAILURE
  printf "We have %d cuda device(s).\n"
  let r ← cuDeviceGet env.sdk 0
  if CUDA_SUCCESS ≠ r then
    cuGetErrorString r
    printf "Failed to get a handle to the cuda device: %s. (exiting).\n"
    exit EXIT_FAILURE
  let r ← cuDeviceGetName env.sdk 80 (← getState).device
  if CUDA_SUCCESS ≠ r then
    cuGetErrorString r
    printf "Failed to get the cuda device name: %s. (exiting).\n"
    exit EXIT_FAILURE
  printf "Cuda device: %s.\n"
  let r ← cuCtxCreate env.sdk 0 (← getState).device
  if CUDA_SUCCESS ≠ r then
    cuGetErrorString r
    printf "Failed to create a cuda context: %s. (exiting).\n"
    exit EXIT_FAILURE
  let decode_caps : CUVIDDECODECAPS :=
    { eCodecType := cudaVideoCodec_H264, eChromaFormat := cudaVideoChromaFormat_420,
      nBitDepthMinus8 := 0 }
  let (r, _bIsSupported) ← cuvidGetDecoderCaps env.sdk decode_caps
  if CUDA_SUCCESS ≠ r then
    cuGetErrorString r
    printf "Failed to get decoder caps: %s (exiting).\n"
    exit EXIT_FAILURE
  let r ← cuvidCreateDecoder env.sdk create_info
  if CUDA_SUCCESS ≠ r then
    cuGetErrorString r
    printf "Failed to create the decoder: %s. (exiting).\n"
    exit EXIT_FAILURE

/-- Lines 148-193 of `main`: the parser, the input file and the packet. -/
def main_load (env : Env) : Prog (Handle × CUVIDSOURCEDATAPACKET) := do
  let (r, parser) ← cuvidCreateVideoParser env.sdk parser_params
  if CUDA_SUCCESS ≠ r then
    cuGetErrorString r
    printf "Failed to create a video parser: %s (exiting).\n"
    exit EXIT_FAILURE
  if !env.ifs_is_open then
    printf "Failed to open the input .h264 file: %s. (exiting).\n"
    exit EXIT_FAILURE
  let ifs_size := env.ifs_size
  printf "Loaded %s which holds %zu bytes.\n"
  let pkt : CUVIDSOURCEDATAPACKET :=
    { flags := 0, payload_size := ifs_size, payload := env.ifs_buf, timestamp := 0 }
  return (parser, pkt)

/-- Lines 205-230 of `main`: teardown (called from `main_run`). -/
def main_cleanup (env : Env) (parser : Handle) : Prog Unit := do
  let r ← cuCtxDestroy env.sdk (← getState).context
  if CUDA_SUCCESS ≠ r then
    cuGetErrorString r
    printf "Failed to cleanly destroy the cuda context: %s (exiting).\n"
    exit EXIT_FAILURE
  let r ← cuvidDestroyDecoder env.sdk (← getState).decoder
  if CUDA_SUCCESS ≠ r then
    cuGetErrorString r
    printf "Failed to cleanly destroy the decoder context: %s. (exiting).\n"
    exit EXIT_FAILURE
  if nullptr ≠ parser then
    let r ← cuvidDestroyVideoParser env.sdk parser
    if CUDA_SUCCESS ≠ r then
      cuGetErrorString r
      printf "Failed to the video parser context: %s. (exiting).\n"
      exit EXIT_FAILURE
  modifyState (fun s => { s with context := nullptr, decoder := nullptr })

/-- Lines 195-232 of `main`: the packet is parsed, then teardown and `return 0`. -/
def main_run (env : Env) (parser : Handle) (pkt : CUVIDSOURCEDATAPACKET) : Prog Int := do
  let r ← cuvidParseVideoData env.sdk (callbacks env.sdk) parser pkt
  if CUDA_SUCCESS ≠ r then
    cuGetErrorString r
    printf "Failed to parse h264 packet: %s (exiting).\n"
    exit EXIT_FAILURE
  main_cleanup env parser
  return 0

/-- The body of `main` of v0. -/
def main_body (env : Env) : Prog Int := do
  main_init env
  let (parser, pkt) ← main_load env
  main_run env parser pkt

/-- A run of v0. -/
def main (env : Env) : Outcome Int := main_body env (State.init env)

end V0

/-! ## test-nvidia-decode-v1.cpp -/

namespace V1

/-- The creation parameters the sequence callback of v1 builds from the format (lines 236-250). -/
def create_info (fmt : CUVIDEOFORMAT) : CUVIDDECODECREATEINFO :=
  { CodecType := fmt.codec,
    ChromaFormat := fmt.chroma_format,
    OutputFormat := if fmt.bit_depth_luma_minus8 ≠ 0 then cudaVideoSurfaceFormat_P016
                    else cudaVideoSurfaceFormat_NV12,
    bitDepthMinus8 := fmt.bit_depth_luma_minus8,
    DeinterlaceMode := cudaVideoDeinterlaceMode_Weave,
    ulNumOutputSurfaces := 2,
    ulNumDecodeSurfaces := 20,
    ulCreationFlags := cudaVideoCreate_PreferCUVID,
    vidLock := nullptr,
    ulIntraDecodeOnly := 0,
    ulTargetWidth := fmt.coded_width,
    ulTargetHeight := fmt.coded_height,
    ulWidth := fmt.coded_width,
    ulHeight := fmt.coded_height }

/-- `parser_sequence_callback` of v1. -/
def parser_sequence_callback (sdk : Sdk) (fmt : CUVIDEOFORMAT) : Prog Int := do
  if nullptr = (← getState).context then
    printf "The CUcontext is nullptr, you should initialize it before kicking off the decoder.\n"
    exit EXIT_FAILURE
  printf "CUVIDEOFORMAT.Coded size: %d x %d\n"
  printf "CUVIDEOFORMAT.Display area: %d %d %d %d\n"
  printf "CUVIDEOFORMAT.Bitrate: %u\n"
  let decode_caps : CUVIDDECODECAPS :=
    { eCodecType := fmt.codec, eChromaFormat := fmt.chroma_format,
      nBitDepthMinus8 := fmt.bit_depth_luma_minus8 }
  let (r, bIsSupported) ← cuvidGetDecoderCaps sdk decode_caps
  if CUDA_SUCCESS ≠ r then
    cuGetErrorString r
    printf "Failed to get decoder caps: %s (exiting).\n"
    exit EXIT_FAILURE
  if bIsSupported = 0 then
    printf "The video file format is not supported by NVDECODE. (exiting).\n"
    exit EXIT_FAILURE
  let create_info := create_info fmt
  cuCtxPushCurrent (← getState).context
  let r ← cuvidCreateDecoder sdk create_info
  if CUDA_SUCCESS ≠ r then
    cuGetErrorString r
    printf "Failed to create the decoder: %s. (exiting).\n"
    exit EXIT_FAILURE
  cuCtxPopCurrent
  printf "Created the decoder.\n"
  return create_info.ulNumDecodeSurfaces

/-- `parser_decode_picture_callback` of v1. -/
def parser_decode_picture_callback (sdk : Sdk) (pic : CUVIDPICPARAMS) : Prog Int := do
  if nullptr = (← getState).decoder then
    printf "decoder is nullptr. (exiting)."
    exit EXIT_FAILURE
  let r ← cuvidDecodePicture sdk (← getState).decoder pic
  if CUDA_SUCCESS ≠ r then
    printf "Failed to decode the picture."
  return 1

/-- The post-processing parameters the display callback of v1 builds (lines 292-297). -/
def vpp (disp : CUVIDPARSERDISPINFO) : CUVIDPROCPARAMS :=
  { progressive_frame := disp.progressive_frame,
    second_field := i32 (disp.repeat_first_field + 1),
    top_field_first := disp.top_field_first,
    unpaired_field := if disp.repeat_first_field < 0 then 1 else 0,
    output_stream := nullptr }

/-- `parser_display_picture_callback` of v1. -/
def parser_display_picture_callback (sdk : Sdk) (disp : CUVIDPARSERDISPINFO) : Prog Int := do
  let vpp := vpp disp
  let (r, src_frame, _pitch) ←
    cuvidMapVideoFrame sdk (← getState).decoder disp.picture_index vpp
  if CUDA_SUCCESS ≠ r then
    cuGetErrorString r
    printf "- mapping: %u failed: %s\n"
    return 0
  printf "+ mapping: %u succeeded\n"
  let r ← cuvidUnmapVideoFrame sdk (← getState).decoder src_frame
  if CUDA_SUCCESS ≠ r then
    cuGetErrorString r
    printf "- failed to unmap the video frame: %s, %d\n"
    return 0
  return 1

/-- The three callbacks v1 registers. -/
def callbacks (sdk : Sdk) : Callbacks :=
  { parser_sequence_callback := parser_sequence_callback sdk,
    parser_decode_picture_callback := parser_decode_picture_callback sdk,
    parser_display_picture_callback := parser_display_picture_callback sdk }

/-- The parser parameters `main` of v1 builds (lines 107-117). -/
def parser_params : CUVIDPARSERPARAMS :=
  { CodecType := cudaVideoCodec_H264,
    ulMaxNumDecodeSurfaces := 1,
    ulMaxDisplayDelay := 0,
    ulClockRate := 0,
    ulErrorThreshold := 0,
    pUserData := nullptr,
    pfnSequenceCallback := some .parser_sequence_callback,
    pfnDecodePicture := some .parser_decode_picture_callback,
    pfnDisplayPicture := some .parser_display_picture_callback }

/-- Lines 59-104 of `main`: CUDA initialisation. -/
def main_init (env : Env) : Prog Unit := do
  printf "\n\nnvidia decode test v1.\n\n"
  let r ← cuInit env.sdk 0
  if CUDA_SUCCESS ≠ r then
    cuGetErrorString r
    printf "Failed to initialize cuda: %s. (exiting).\n"
    exit EXIT_FAILURE
  let (r, _device_count) ← cuDeviceGetCount env.sdk
  if CUDA_SUCCESS ≠ r then
    cuGetErrorString r
    printf "Failed to get the cuda device count: %s. (exiting).\n"
    exit EXIT_FAILURE
  printf "We have %d cuda device(s).\n"
  let r ← cuDeviceGet env.sdk 0
  if CUDA_SUCCESS ≠ r then
    cuGetErrorString r
    printf "Failed to get a handle to the cuda device: %s. (exiting).\n"
    exit EXIT_FAILURE
  let r ← cuDeviceGetName env.sdk 80 (← getState).device
  if CUDA_SUCCESS ≠ r then
    cuGetErrorString r
    printf "Failed to get the cuda device name: %s. (exiting).\n"
    exit EXIT_FAILURE
  printf "Cuda device: %s.\n"
  let r ← cuCtxCreate env.sdk 0 (← getState).device
  if CUDA_SUCCESS ≠ r then
    cuGetErrorString r
    printf "Failed to create a cuda context: %s. (exiting).\n"
    exit EXIT_FAILURE

/-- Lines 106-151 of `main`: the parser, the input file and the packet. -/
def main_load (env : Env) : Prog (Handle × CUVIDSOURCEDATAPACKET) := do
  let (r, parser) ← cuvidCreateVideoParser env.sdk parser_params
  if CUDA_SUCCESS ≠ r then
    cuGetErrorString r
    printf "Failed to create a video parser: %s (exiting).\n"
    exit EXIT_FAILURE
  if !env.ifs_is_open then
    printf "Failed to open the input .h264 file: %s. (exiting).\n"
    exit EXIT_FAILURE
  let ifs_size := env.ifs_size
  printf "Loaded %s which holds %zu bytes.\n"
  let pkt : CUVIDSOURCEDATAPACKET :=
    { flags := 0, payload_size := ifs_size, payload := env.ifs_buf, timestamp := 0 }
  return (parser, pkt)

/-- Lines 168-197 of `main`: teardown (called from `main_run`). -/
def main_cleanup (env : Env) (parser : Handle) : Prog Unit := do
  if nullptr ≠ (← getState).context then
    let r ← cuCtxDestroy env.sdk (← getState).context
    if CUDA_SUCCESS ≠ r then
      cuGetErrorString r
      printf "Failed to cleanly destroy the cuda context: %s (exiting).\n"
      exit EXIT_FAILURE
  if nullptr ≠ (← getState).decoder then
    let r ← cuvidDestroyDecoder env.sdk (← getState).decoder
    if CUDA_SUCCESS ≠ r then
      cuGetErrorString r
      printf "Failed to cleanly destroy the decoder context: %s. (exiting).\n"
      exit EXIT_FAILURE
  if nullptr ≠ parser then
    let r ← cuvidDestroyVideoParser env.sdk parser
    if CUDA_SUCCESS ≠ r then
      cuGetErrorString r
      printf "Failed to the video parser context: %s. (exiting).\n"
      exit EXIT_FAILURE
  modifyState (fun s => { s with context := nullptr, decoder := nullptr })

/-- Lines 153-199 of `main`: the packet is parsed, then teardown and `return 0`. -/
def main_run (env : Env) (parser : Handle) (pkt : CUVIDSOURCEDATAPACKET) : Prog Int := do
  let r ← cuvidParseVideoData env.sdk (callbacks env.sdk) parser pkt
  if CUDA_SUCCESS ≠ r then
    cuGetErrorString r
    printf "Failed to parse h264 packet: %s (exiting).\n"
    exit EXIT_FAILURE
  if nullptr = (← getState).decoder then
    printf "Error: no decoder created yet, should have been done inside the sequence callback. (exiting).\n"
    exit EXIT_FAILURE
  main_cleanup env parser
  return 0

/-- The body of `main` of v1. -/
def main_body (env : Env) : Prog Int := do
  main_init env
  let (parser, pkt) ← main_load env
  main_run env parser pkt

/-- A run of v1. -/
def main (env : Env) : Outcome Int := main_body env (State.init env)

end V1

/-! ## test-nvidia-decode-v2.cpp -/

namespace V2

/-- The creation parameters the sequence callback of v2 builds from the format (lines 274-288). -/
def create_info (fmt : CUVIDEOFORMAT) : CUVIDDECODECREATEINFO :=
  { CodecType := fmt.codec,
    ChromaFormat := fmt.chroma_format,
    OutputFormat := if fmt.bit_depth_luma_minus8 ≠ 0 then cudaVideoSurfaceFormat_P016
                    else cudaVideoSurfaceFormat_NV12,
    bitDepthMinus8 := fmt.bit_depth_luma_minus8,
    DeinterlaceMode := cudaVideoDeinterlaceMode_Weave,
    ulNumOutputSurfaces := 1,
    ulNumDecodeSurfaces := 20,
    ulCreationFlags := cudaVideoCreate_PreferCUVID,
    vidLock := nullptr,
    ulIntraDecodeOnly := 0,
    ulTargetWidth := fmt.coded_width,
    ulTargetHeight := fmt.coded_height,
    ulWidth := fmt.coded_width,
    ulHeight := fmt.coded_height }

/-- `parser_sequence_callback` of v2. -/
def parser_sequence_callback (sdk : Sdk) (fmt : CUVIDEOFORMAT) : Prog Int := do
  if nullptr = (← getState).context then
    printf "The CUcontext is nullptr, you should initialize it before kicking off the decoder.\n"
    exit EXIT_FAILURE
  modifyState (fun s => { s with coded_width := i32 fmt.coded_width })
  modifyState (fun s => { s with coded_height := i32 fmt.coded_height })
  printf "CUVIDEOFORMAT.Coded size: %d x %d\n"
  printf "CUVIDEOFORMAT.Display area: %d %d %d %d\n"
  printf "CUVIDEOFORMAT.Bitrate: %u\n"
  let decode_caps : CUVIDDECODECAPS :=
    { eCodecType := fmt.codec, eChromaFormat := fmt.chroma_format,
      nBitDepthMinus8 := fmt.bit_depth_luma_minus8 }
  let (r, bIsSupported) ← cuvidGetDecoderCaps sdk decode_caps
  if CUDA_SUCCESS ≠ r then
    cuGetErrorString r
    printf "Failed to get decoder caps: %s (exiting).\n"
    exit EXIT_FAILURE
  if bIsSupported = 0 then
    printf "The video file format is not supported by NVDECODE. (exiting).\n"
    exit EXIT_FAILURE
  let create_info := create_info fmt
  cuCtxPushCurrent (← getState).context
  let r ← cuvidCreateDecoder sdk create_info
  if CUDA_SUCCESS ≠ r then
    cuGetErrorString r
    printf "Failed to create the decoder: %s. (exiting).\n"
    exit EXIT_FAILURE
  cuCtxPopCurrent
  printf "Created the decoder.\n"
  return 0

/-- `parser_decode_picture_callback` of v2. -/
def parser_decode_picture_callback (sdk : Sdk) (pic : CUVIDPICPARAMS) : Prog Int := do
  if nullptr = (← getState).decoder then
    printf "decoder is nullptr. (exiting)."
    exit EXIT_FAILURE
  let r ← cuvidDecodePicture sdk (← getState).decoder pic
  if CUDA_SUCCESS ≠ r then
    printf "Failed to decode the picture."
  return 1

/-- The post-processing parameters the display callback of v2 builds (lines 327-335). -/
def vpp (disp : CUVIDPARSERDISPINFO) : CUVIDPROCPARAMS :=
  { progressive_frame := disp.progressive_frame,
    top_field_first := disp.top_field_first,
    unpaired_field := if disp.repeat_first_field < 0 then 1 else 0,
    second_field := 0,
    output_stream := nullptr }

/-- The call `ofs.write(yuv_buffer + off, n)`: appends the `n` bytes of host memory from offset
`off` to `out.nv12` (nothing for `n ≤ 0` or a closed stream); the write itself does not fail. -/
def ofs_write (off : Nat) (n : Int) : Prog Unit := fun s =>
  .ret () { s with out_nv12 :=
    if s.ofs_is_open then s.out_nv12 ++ (List.range n.toNat).map (fun i => s.host (off + i))
    else s.out_nv12 }

/-- The loop `for (int j = 0; j < bound; ++j) body`; `js` are the values of `j` still to
come (`List.range bound.toNat` at the start). -/
def for_j (body : Int → Prog Unit) : List Nat → Prog Unit
  | [] => pure ()
  | j :: js => body (j : Int) >>= fun _ => for_j body js

/-- The value `(pitch * coded_height) + (pitch * coded_height * 0.5)` assigned to the `int`
`yuv_nbytes_needed`: the product is an `unsigned int`, the sum a `double`. -/
def yuv_nbytes (pitch : Nat) (coded_height : Int) : Int :=
  double_to_int (3 * u32 (pitch * coded_height) / 2)

/-- The offset `j * pitch` of the luma row `j`: an `unsigned int` product. -/
def luma_offset (pitch : Nat) (j : Int) : Nat := u32 (j * pitch)

/-- The offset `(coded_height * pitch) + j * pitch` of the chroma row `j`: two `unsigned int`
products, added one after the other to the pointer. -/
def chroma_offset (coded_height : Int) (pitch : Nat) (j : Int) : Nat :=
  u32 (coded_height * pitch) + u32 (j * pitch)

/-- `parser_display_picture_callback` of v2. -/
def parser_display_picture_callback (sdk : Sdk) (disp : CUVIDPARSERDISPINFO) : Prog Int := do
  let to_map : Int := disp.picture_index
  let vpp := vpp disp
  let (r, device_ptr, pitch) ← cuvidMapVideoFrame sdk (← getState).decoder to_map vpp
  if CUDA_SUCCESS ≠ r then
    cuGetErrorString r
    printf "- mapping: %u failed: %s\n"
    return 0
  if nullptr = (← getState).yuv_buffer then
    printf "Allocating yuv buffer.\n"
    modifyState (fun s => { s with yuv_nbytes_needed := yuv_nbytes pitch s.coded_height })
    let r ← cuMemAllocHost sdk (u64 (← getState).yuv_nbytes_needed)
    if CUDA_SUCCESS ≠ r then
      printf "Failed to allocate the buffer for the decoded yuv frames. (exiting).\n"
      exit EXIT_FAILURE
  if nullptr = (← getState).yuv_buffer ∨ 0 = (← getState).yuv_nbytes_needed then
    printf "No valid yuf buffer. (exiting).\n"
    exit EXIT_FAILURE
  let r ← cuMemcpyDtoH sdk (← getState).yuv_buffer device_ptr
    (u64 (← getState).yuv_nbytes_needed)
  if CUDA_SUCCESS ≠ r then
    printf "Failed to copy the decode frame into our (cpu) buffer. (exiting).\n"
    exit EXIT_FAILURE
  if false = (← getState).ofs_is_open then
    printf "The output file is not opened. (exiting).\n"
    exit EXIT_FAILURE
  let coded_height := (← getState).coded_height
  let coded_width := (← getState).coded_width
  for_j (fun j => ofs_write (luma_offset pitch j) coded_width) (List.range coded_height.toNat)
  let half_height : Int := Int.tdiv coded_height 2
  for_j (fun j => ofs_write (chroma_offset coded_height pitch j) coded_width)
    (List.range half_height.toNat)
  printf "+ mapping: %u succeeded, device_ptr: %d\n"
  let r ← cuvidUnmapVideoFrame sdk (← getState).decoder device_ptr
  if CUDA_SUCCESS ≠ r then
    cuGetErrorString r
    printf "- failed to unmap the video frame: %s, %d\n"
    return 0
  return 1

/-- The three callbacks v2 registers. -/
def callbacks (sdk : Sdk) : Callbacks :=
  { parser_sequence_callback := parser_sequence_callback sdk,
    parser_decode_picture_callback := parser_decode_picture_callback sdk,
    parser_display_picture_callback := parser_display_picture_callback sdk }

/-- The parser parameters `main` of v2 builds (lines 121-131). -/
def parser_params : CUVIDPARSERPARAMS :=
  { CodecType := cudaVideoCodec_H264,
    ulMaxNumDecodeSurfaces := 4,
    ulClockRate := 0,
    ulErrorThreshold := 0,
    ulMaxDisplayDelay := 1,
    pUserData := nullptr,
    pfnSequenceCallback := some .parser_sequence_callback,
    pfnDecodePicture := some .parser_decode_picture_callback,
    pfnDisplayPicture := some .parser_display_picture_callback }

/-- Lines 67-118 of `main`: the output file and CUDA initialisation. -/
def main_init (env : Env) : Prog Unit := do
  printf "\n\nnvidia decode test v1.\n\n"
  modifyState (fun s => { s with ofs_is_open := env.ofs_open_ok })
  if !(← getState).ofs_is_open then
    printf "Failed to open output file. (exiting).\n"
    exit EXIT_FAILURE
  let r ← cuInit env.sdk 0
  if CUDA_SUCCESS ≠ r then
    cuGetErrorString r
    printf "Failed to initialize cuda: %s. (exiting).\n"
    exit EXIT_FAILURE
  let (r, _device_count) ← cuDeviceGetCount env.sdk
  if CUDA_SUCCESS ≠ r then
    cuGetErrorString r
    printf "Failed to get the cuda device count: %s. (exiting).\n"
    exit EXIT_FAILURE
  printf "We have %d cuda device(s).\n"
  let r ← cuDeviceGet env.sdk 0
  if CUDA_SUCCESS ≠ r then
    cuGetErrorString r
    printf "Failed to get a handle to the cuda device: %s. (exiting).\n"
    exit EXIT_FAILURE
  let r ← cuDeviceGetName env.sdk 80 (← getState).device
  if CUDA_SUCCESS ≠ r then
    cuGetErrorString r
    printf "Failed to get the cuda device name: %s. (exiting).\n"
    exit EXIT_FAILURE
  printf "Cuda device: %s.\n"
  let r ← cuCtxCreate env.sdk 0 (← getState).device
  if CUDA_SUCCESS ≠ r then
    cuGetErrorString r
    printf "Failed to create a cuda context: %s. (exiting).\n"
    exit EXIT_FAILURE

/-- Lines 120-165 of `main`: the parser, the input file and the packet. -/
def main_load (env : Env) : Prog (Handle × CUVIDSOURCEDATAPACKET) := do
  let (r, parser) ← cuvidCreateVideoParser env.sdk parser_params
  if CUDA_SUCCESS ≠ r then
    cuGetErrorString r
    printf "Failed to create a video parser: %s (exiting).\n"
    exit EXIT_FAILURE
  if !env.ifs_is_open then
    printf "Failed to open the file: %s. (exiting).\n"
    exit EXIT_FAILURE
  let ifs_size := env.ifs_size
  printf "Loaded %s which holds %zu bytes.\n"
  let pkt : CUVIDSOURCEDATAPACKET :=
    { flags := 0, payload_size := ifs_size, payload := env.ifs_buf, timestamp := 0 }
  return (parser, pkt)

/-- Lines 177-232 of `main`: teardown (called from `main_run`). -/
def main_cleanup (env : Env) (parser : Handle) : Prog Unit := do
  printf "Cleaning up.\n"
  if nullptr ≠ parser then
    printf "Destroying video parser.\n"
    let r ← cuvidDestroyVideoParser env.sdk parser
    if CUDA_SUCCESS ≠ r then
      cuGetErrorString r
      printf "Failed to the video parser context: %s. (exiting).\n"
      exit EXIT_FAILURE
  if nullptr ≠ (← getState).decoder then
    printf "Destroying decoder.\n"
    let r ← cuvidDestroyDecoder env.sdk (← getState).decoder
    if CUDA_SUCCESS ≠ r then
      cuGetErrorString r
      printf "Failed to cleanly destroy the decoder context: %s. (exiting).\n"
      exit EXIT_FAILURE
  if nullptr ≠ (← getState).context then
    printf "Destroying context.\n"
    let r ← cuCtxDestroy env.sdk (← getState).context
    if CUDA_SUCCESS ≠ r then
      cuGetErrorString r
      printf "Failed to cleanly destroy the cuda context: %s (exiting).\n"
      exit EXIT_FAILURE
    printf "Context destroyed.\n"
  printf "Playback with: "
  printf "ffplay -f rawvideo -pix_fmt nv12 -s %dx%d -i out.nv12\n"
  printf "Resetting state.\n"
  modifyState (fun s => { s with context := nullptr, decoder := nullptr,
                                 coded_width := 0, coded_height := 0 })
  if (← getState).ofs_is_open then
    modifyState (fun s => { s with ofs_is_open := false })

/-- Lines 167-234 of `main`: the packet is parsed, then teardown and `return 0`. -/
def main_run (env : Env) (parser : Handle) (pkt : CUVIDSOURCEDATAPACKET) : Prog Int := do
  let r ← cuvidParseVideoData env.sdk (callbacks env.sdk) parser pkt
  if CUDA_SUCCESS ≠ r then
    cuGetErrorString r
    printf "Failed to parse h264 packet: %s (exiting).\n"
    exit EXIT_FAILURE
  main_cleanup env parser
  return 0

/-- The body of `main` of v2. -/
def main_body (env : Env) : Prog Int := do
  main_init env
  let (parser, pkt) ← main_load env
  main_run env parser pkt

/-- A run of v2. -/
def main (env : Env) : Outcome Int := main_body env (State.init env)

end V2

/-! ## Vocabulary of the statements -/

/-- Error reporting: `cuGetErrorString` and `printf`. -/
def isReport (e : Event) : Bool :=
  match e with
  | .printf _ => true
  | .cuGetErrorString _ => true
  | _ => false

/-- A `printf` call. -/
def isPrintf (e : Event) : Bool :=
  match e with
  | .printf _ => true
  | _ => false

/-- The entry points whose failure the callbacks survive. -/
def tolerated (k : Api) : Bool :=
  match k with
  | .cuvidDecodePicture => true
  | .cuvidMapVideoFrame => true
  | .cuvidUnmapVideoFrame => true
  | _ => false

/-- A call that returned a status other than `CUDA_SUCCESS`. -/
def failed (e : Event) : Bool :=
  match e.status with
  | some r => r != CUDA_SUCCESS
  | none => false

/-- A failed call of an entry point other than the three tolerated ones. -/
def fatal (e : Event) : Bool := failed e && !tolerated e.api

/-- A segment of log obeys the fail-stop discipline, for a piece of program that ended with
`ex`: after the first fatal call come only error reports, a `printf` among them, and the
process exited with `EXIT_FAILURE`. -/
def stopOK (ex : Option Int) : List Event → Bool
  | [] => true
  | e :: rest =>
    if fatal e then ex == some EXIT_FAILURE && rest.all isReport && rest.any isPrintf
    else stopOK ex rest

/-- A segment obeys the discipline and all its events satisfy `P`. -/
def SegOK (P : Event → Bool) (ex : Option Int) (seg : List Event) : Bool :=
  stopOK ex seg && seg.all P

/-- An outcome `o` reached from state `s`: the log only grew, by a segment that is `SegOK`;
a returned value and state satisfy `R`; an exit is with `EXIT_FAILURE` and only when `E`. -/
def Spec {α : Type} (P : Event → Bool) (R : α → State → Prop) (E : Prop) (s : State)
    (o : Outcome α) : Prop :=
  (∃ seg, o.state.log = s.log ++ seg ∧ SegOK P o.exitCode seg = true) ∧
  (match o with
   | .ret a s1 => R a s1
   | .exit c _ => c = EXIT_FAILURE ∧ E)

/-- A piece of program meets `Spec` from every state, with no claim on what it returns. -/
def Sound {α : Type} (P : Event → Bool) (x : Prog α) : Prop :=
  ∀ s, Spec P (fun _ _ => True) True s (x s)

/-- What the callbacks leave alone in every version: the context and the registration. -/
def Kept (s s1 : State) : Prop :=
  s1.context = s.context ∧ s1.registered = s.registered

/-- What the decode and display callbacks leave alone: also the decoder. -/
def Rel (s s1 : State) : Prop := Kept s s1 ∧ s1.decoder = s.decoder

/-- The decoders created with success, in order. -/
def created_decoders : List Event → List Handle
  | [] => []
  | .cuvidCreateDecoder _ r dec :: rest =>
    if r = CUDA_SUCCESS then dec :: created_decoders rest else created_decoders rest
  | _ :: rest => created_decoders rest

/-- The decoders destroyed with success, in order. -/
def destroyed_decoders : List Event → List Handle
  | [] => []
  | .cuvidDestroyDecoder dec r :: rest =>
    if r = CUDA_SUCCESS then dec :: destroyed_decoders rest else destroyed_decoders rest
  | _ :: rest => destroyed_decoders rest

/-- The entry points `main` itself calls and checks; `v0` says whether the two that v0 calls
from `main` are among them. -/
def mainChecked (v0 : Bool) : Api → Bool
  | .cuInit | .cuDeviceGetCount | .cuDeviceGet | .cuDeviceGetName | .cuCtxCreate
  | .cuvidCreateVideoParser | .cuvidParseVideoData_returned
  | .cuCtxDestroy | .cuvidDestroyDecoder | .cuvidDestroyVideoParser => true
  | .cuvidGetDecoderCaps | .cuvidCreateDecoder => v0
  | _ => false

/-- The value the display callback returns, in every version: 1 when both the mapping and
the unmapping succeed, else 0. -/
def display_value (sdk : Sdk) (s : State) : Int :=
  if (sdk.cuvidMapVideoFrame (calls .cuvidMapVideoFrame s.log)).1 = CUDA_SUCCESS ∧
     sdk.cuvidUnmapVideoFrame (calls .cuvidUnmapVideoFrame s.log) = CUDA_SUCCESS then 1 else 0

namespace V0

/-- The run of `main` of v0 cut right after the first `k` callbacks of its
`cuvidParseVideoData` call. -/
def main_upto (env : Env) (k : Nat) : Outcome Unit :=
  (do main_init env
      let (parser, pkt) ← main_load env
      parse_upto env.sdk (callbacks env.sdk) parser pkt k) (State.init env)

/-- What the first phase of `main` of v0 may log: every decoder is created with `create_info`. -/
def initP : Event → Bool
  | .printf _ | .cuGetErrorString _ | .cuInit _ _ | .cuDeviceGetCount _ _ | .cuDeviceGet _ _ _
  | .cuDeviceGetName _ _ _ | .cuCtxCreate _ _ _ _ | .cuvidGetDecoderCaps _ _ _ => true
  | .cuvidCreateDecoder info _ _ => decide (info = create_info)
  | _ => false

/-- What the second phase may log: the parser is created with `parser_params`. -/
def loadP : Event → Bool
  | .printf _ | .cuGetErrorString _ => true
  | .cuvidCreateVideoParser params _ _ => decide (params = parser_params)
  | _ => false

/-- What the callbacks of v0 may log. -/
def cbP : Event → Bool
  | .printf _ | .cuGetErrorString _ | .cuvidDecodePicture _ _ _
  | .cuvidMapVideoFrame _ _ _ _ _ _ | .cuvidUnmapVideoFrame _ _ _ => true
  | _ => false

/-- What the teardown may log. -/
def cleanupP : Event → Bool
  | .printf _ | .cuGetErrorString _ | .cuCtxDestroy _ _ | .cuvidDestroyDecoder _ _
  | .cuvidDestroyVideoParser _ _ => true
  | _ => false

/-- What comes after the entry of `cuvidParseVideoData`: callbacks, the return, teardown. -/
def restP (e : Event) : Bool :=
  cbP e || cleanupP e || e.api == .cuvidParseVideoData_returned

/-- The state the first phase of `main` returns in, from `s`: every call succeeded. -/
def init_state (env : Env) (s : State) : State :=
  let dev := (env.sdk.cuDeviceGet (calls .cuDeviceGet s.log)).2
  let ctx := (env.sdk.cuCtxCreate (calls .cuCtxCreate s.log)).2
  let dec := (env.sdk.cuvidCreateDecoder (calls .cuvidCreateDecoder s.log)).2
  { s with
    device := dev, context := ctx, decoder := dec,
    log := s.log ++
      [.printf "\n\nNvDecoder Test v0.\n\n",
       .cuInit 0 CUDA_SUCCESS,
       .cuDeviceGetCount CUDA_SUCCESS (env.sdk.cuDeviceGetCount (calls .cuDeviceGetCount s.log)).2,
       .printf "We have %d cuda device(s).\n",
       .cuDeviceGet 0 CUDA_SUCCESS dev,
       .cuDeviceGetName 80 dev CUDA_SUCCESS,
       .printf "Cuda device: %s.\n",
       .cuCtxCreate 0 dev CUDA_SUCCESS ctx,
       .cuvidGetDecoderCaps
         { eCodecType := cudaVideoCodec_H264, eChromaFormat := cudaVideoChromaFormat_420,
           nBitDepthMinus8 := 0 } CUDA_SUCCESS
         (env.sdk.cuvidGetDecoderCaps (calls .cuvidGetDecoderCaps s.log)).2,
       .cuvidCreateDecoder create_info CUDA_SUCCESS dec] }

/-- Every call of the first phase succeeds, from `s`. -/
def init_ok (env : Env) (s : State) : Prop :=
  env.sdk.cuInit (calls .cuInit s.log) = CUDA_SUCCESS ∧
  (env.sdk.cuDeviceGetCount (calls .cuDeviceGetCount s.log)).1 = CUDA_SUCCESS ∧
  (env.sdk.cuDeviceGet (calls .cuDeviceGet s.log)).1 = CUDA_SUCCESS ∧
  env.sdk.cuDeviceGetName (calls .cuDeviceGetName s.log) = CUDA_SUCCESS ∧
  (env.sdk.cuCtxCreate (calls .cuCtxCreate s.log)).1 = CUDA_SUCCESS ∧
  (env.sdk.cuvidGetDecoderCaps (calls .cuvidGetDecoderCaps s.log)).1 = CUDA_SUCCESS ∧
  (env.sdk.cuvidCreateDecoder (calls .cuvidCreateDecoder s.log)).1 = CUDA_SUCCESS

/-- The packet `main` builds. -/
def packet (env : Env) : CUVIDSOURCEDATAPACKET :=
  { flags := 0, payload_size := env.ifs_size, payload := env.ifs_buf, timestamp := 0 }

/-- The state the second phase returns in, from `s`. -/
def load_state (env : Env) (s : State) : State :=
  { s with
    registered := some parser_params,
    log := s.log ++
      [.cuvidCreateVideoParser parser_params CUDA_SUCCESS
         (env.sdk.cuvidCreateVideoParser (calls .cuvidCreateVideoParser s.log)).2,
       .printf "Loaded %s which holds %zu bytes.\n"] }

/-- The parser is created and the input file opened, from `s`. -/
def load_ok (env : Env) (s : State) : Prop :=
  (env.sdk.cuvidCreateVideoParser (calls .cuvidCreateVideoParser s.log)).1 = CUDA_SUCCESS ∧
  env.ifs_is_open = true

/-- The state the teardown returns in, from `s`: every destroy call made succeeded. -/
def cleanup_state (parser : Handle) (s : State) : State :=
  { s with
    context := nullptr, decoder := nullptr,
    log := s.log ++
      ([.cuCtxDestroy s.context CUDA_SUCCESS, .cuvidDestroyDecoder s.decoder CUDA_SUCCESS] ++
       if parser = nullptr then [] else [.cuvidDestroyVideoParser parser CUDA_SUCCESS]) }

/-- Every destroy call the teardown makes succeeds, from `s`. -/
def cleanup_ok (env : Env) (parser : Handle) (s : State) : Prop :=
  env.sdk.cuCtxDestroy (calls .cuCtxDestroy s.log) = CUDA_SUCCESS ∧
  env.sdk.cuvidDestroyDecoder (calls .cuvidDestroyDecoder s.log) = CUDA_SUCCESS ∧
  (parser = nullptr ∨
    env.sdk.cuvidDestroyVideoParser (calls .cuvidDestroyVideoParser s.log) = CUDA_SUCCESS)

/-- What the third phase may log: the only packet is `pkt`. -/
def runP (pkt : CUVIDSOURCEDATAPACKET) (e : Event) : Bool :=
  restP e ||
  (match e with
   | .cuvidParseVideoData _ p => decide (p = pkt)
   | _ => false)

/-- What a whole run of v0 may log. -/
def mainP (env : Env) (e : Event) : Bool :=
  initP e || loadP e || runP (packet env) e

end V0

namespace V1

/-- The run of `main` of v1 cut right after the first `k` callbacks of its
`cuvidParseVideoData` call. -/
def main_upto (env : Env) (k : Nat) : Outcome Unit :=
  (do main_init env
      let (parser, pkt) ← main_load env
      parse_upto env.sdk (callbacks env.sdk) parser pkt k) (State.init env)

/-- What the first phase of `main` of v1 may log. -/
def initP : Event → Bool
  | .printf _ | .cuGetErrorString _ | .cuInit _ _ | .cuDeviceGetCount _ _ | .cuDeviceGet _ _ _
  | .cuDeviceGetName _ _ _ | .cuCtxCreate _ _ _ _ => true
  | _ => false

/-- What the second phase may log: the parser is created with `parser_params`. -/
def loadP : Event → Bool
  | .printf _ | .cuGetErrorString _ => true
  | .cuvidCreateVideoParser params _ _ => decide (params = parser_params)
  | _ => false

/-- What the decode and display callbacks of v1 may log. -/
def picP : Event → Bool
  | .printf _ | .cuGetErrorString _ | .cuvidDecodePicture _ _ _
  | .cuvidMapVideoFrame _ _ _ _ _ _ | .cuvidUnmapVideoFrame _ _ _ => true
  | _ => false

/-- What the sequence callback of v1 may log for the format `fmt`: the capabilities are asked
for the format and the decoder is created with `create_info fmt`. -/
def seqP (fmt : CUVIDEOFORMAT) : Event → Bool
  | .printf _ | .cuGetErrorString _ | .cuCtxPushCurrent _ | .cuCtxPopCurrent => true
  | .cuvidGetDecoderCaps caps _ _ =>
    decide (caps = { eCodecType := fmt.codec, eChromaFormat := fmt.chroma_format,
                     nBitDepthMinus8 := fmt.bit_depth_luma_minus8 })
  | .cuvidCreateDecoder info _ _ => decide (info = create_info fmt)
  | _ => false

/-- What a sequence callback may log, whatever the format. -/
def seqAnyP : Event → Bool
  | .printf _ | .cuGetErrorString _ | .cuCtxPushCurrent _ | .cuCtxPopCurrent
  | .cuvidGetDecoderCaps _ _ _ | .cuvidCreateDecoder _ _ _ => true
  | _ => false

/-- What the teardown may log. -/
def cleanupP : Event → Bool
  | .printf _ | .cuGetErrorString _ | .cuCtxDestroy _ _ | .cuvidDestroyDecoder _ _
  | .cuvidDestroyVideoParser _ _ => true
  | _ => false

/-- What the callbacks may log; `seq` says whether sequence callbacks are made. -/
def cbP (seq : Bool) (e : Event) : Bool := picP e || (seq && seqAnyP e)

/-- What comes after the entry of `cuvidParseVideoData`: callbacks, the return, teardown. -/
def restP (seq : Bool) (e : Event) : Bool :=
  cbP seq e || cleanupP e || e.api == .cuvidParseVideoData_returned

/-- What the third phase may log: the only packet is `pkt`. -/
def runP (seq : Bool) (pkt : CUVIDSOURCEDATAPACKET) (e : Event) : Bool :=
  restP seq e ||
  (match e with
   | .cuvidParseVideoData _ p => decide (p = pkt)
   | _ => false)

/-- The state the first phase of `main` returns in, from `s`: every call succeeded. -/
def init_state (env : Env) (s : State) : State :=
  let dev := (env.sdk.cuDeviceGet (calls .cuDeviceGet s.log)).2
  let ctx := (env.sdk.cuCtxCreate (calls .cuCtxCreate s.log)).2
  { s with
    device := dev, context := ctx,
    log := s.log ++
      [.printf "\n\nnvidia decode test v1.\n\n",
       .cuInit 0 CUDA_SUCCESS,
       .cuDeviceGetCount CUDA_SUCCESS (env.sdk.cuDeviceGetCount (calls .cuDeviceGetCount s.log)).2,
       .printf "We have %d cuda device(s).\n",
       .cuDeviceGet 0 CUDA_SUCCESS dev,
       .cuDeviceGetName 80 dev CUDA_SUCCESS,
       .printf "Cuda device: %s.\n",
       .cuCtxCreate 0 dev CUDA_SUCCESS ctx] }

/-- Every call of the first phase succeeds, from `s`. -/
def init_ok (env : Env) (s : State) : Prop :=
  env.sdk.cuInit (calls .cuInit s.log) = CUDA_SUCCESS ∧
  (env.sdk.cuDeviceGetCount (calls .cuDeviceGetCount s.log)).1 = CUDA_SUCCESS ∧
  (env.sdk.cuDeviceGet (calls .cuDeviceGet s.log)).1 = CUDA_SUCCESS ∧
  env.sdk.cuDeviceGetName (calls .cuDeviceGetName s.log) = CUDA_SUCCESS ∧
  (env.sdk.cuCtxCreate (calls .cuCtxCreate s.log)).1 = CUDA_SUCCESS

/-- The packet `main` builds. -/
def packet (env : Env) : CUVIDSOURCEDATAPACKET :=
  { flags := 0, payload_size := env.ifs_size, payload := env.ifs_buf, timestamp := 0 }

/-- The state the second phase returns in, from `s`. -/
def load_state (env : Env) (s : State) : State :=
  { s with
    registered := some parser_params,
    log := s.log ++
      [.cuvidCreateVideoParser parser_params CUDA_SUCCESS
         (env.sdk.cuvidCreateVideoParser (calls .cuvidCreateVideoParser s.log)).2,
       .printf "Loaded %s which holds %zu bytes.\n"] }

/-- The parser is created and the input file opened, from `s`. -/
def load_ok (env : Env) (s : State) : Prop :=
  (env.sdk.cuvidCreateVideoParser (calls .cuvidCreateVideoParser s.log)).1 = CUDA_SUCCESS ∧
  env.ifs_is_open = true

/-- The state the teardown returns in, from `s`: every destroy call made succeeded. -/
def cleanup_state (parser : Handle) (s : State) : State :=
  { s with
    context := nullptr, decoder := nullptr,
    log := s.log ++
      ((if s.context = nullptr then [] else [.cuCtxDestroy s.context CUDA_SUCCESS]) ++
       ((if s.decoder = nullptr then [] else [.cuvidDestroyDecoder s.decoder CUDA_SUCCESS]) ++
        (if parser = nullptr then [] else [.cuvidDestroyVideoParser parser CUDA_SUCCESS]))) }

/-- Every destroy call the teardown makes succeeds, from `s`. -/
def cleanup_ok (env : Env) (parser : Handle) (s : State) : Prop :=
  (s.context = nullptr ∨ env.sdk.cuCtxDestroy (calls .cuCtxDestroy s.log) = CUDA_SUCCESS) ∧
  (s.decoder = nullptr ∨
    env.sdk.cuvidDestroyDecoder (calls .cuvidDestroyDecoder s.log) = CUDA_SUCCESS) ∧
  (parser = nullptr ∨
    env.sdk.cuvidDestroyVideoParser (calls .cuvidDestroyVideoParser s.log) = CUDA_SUCCESS)

/-- The state the sequence callback returns in, from `s`. -/
def sequence_state (sdk : Sdk) (fmt : CUVIDEOFORMAT) (s : State) : State :=
  { s with
    decoder := (sdk.cuvidCreateDecoder (calls .cuvidCreateDecoder s.log)).2,
    log := s.log ++
      [.printf "CUVIDEOFORMAT.Coded size: %d x %d\n",
       .printf "CUVIDEOFORMAT.Display area: %d %d %d %d\n",
       .printf "CUVIDEOFORMAT.Bitrate: %u\n",
       .cuvidGetDecoderCaps
         { eCodecType := fmt.codec, eChromaFormat := fmt.chroma_format,
           nBitDepthMinus8 := fmt.bit_depth_luma_minus8 } CUDA_SUCCESS
         (sdk.cuvidGetDecoderCaps (calls .cuvidGetDecoderCaps s.log)).2,
       .cuCtxPushCurrent s.context,
       .cuvidCreateDecoder (create_info fmt) CUDA_SUCCESS
         (sdk.cuvidCreateDecoder (calls .cuvidCreateDecoder s.log)).2,
       .cuCtxPopCurrent,
       .printf "Created the decoder.\n"] }

/-- The sequence callback goes through, from `s`: there is a context, the capabilities are
answered, the format is supported and the decoder is created. -/
def sequence_ok (sdk : Sdk) (s : State) : Prop :=
  s.context ≠ nullptr ∧
  (sdk.cuvidGetDecoderCaps (calls .cuvidGetDecoderCaps s.log)).1 = CUDA_SUCCESS ∧
  (sdk.cuvidGetDecoderCaps (calls .cuvidGetDecoderCaps s.log)).2 ≠ 0 ∧
  (sdk.cuvidCreateDecoder (calls .cuvidCreateDecoder s.log)).1 = CUDA_SUCCESS

/-- What a whole run of v1 may log. -/
def mainP (seq : Bool) (env : Env) (e : Event) : Bool :=
  initP e || loadP e || runP seq (packet env) e

end V1

namespace V2

/-- The run of `main` of v2 cut right after the first `k` callbacks of its
`cuvidParseVideoData` call. -/
def main_upto (env : Env) (k : Nat) : Outcome Unit :=
  (do main_init env
      let (parser, pkt) ← main_load env
      parse_upto env.sdk (callbacks env.sdk) parser pkt k) (State.init env)

/-- What the first phase of `main` of v2 may log. -/
def initP : Event → Bool
  | .printf _ | .cuGetErrorString _ | .cuInit _ _ | .cuDeviceGetCount _ _ | .cuDeviceGet _ _ _
  | .cuDeviceGetName _ _ _ | .cuCtxCreate _ _ _ _ => true
  | _ => false

/-- What the second phase may log: the parser is created with `parser_params`. -/
def loadP : Event → Bool
  | .printf _ | .cuGetErrorString _ => true
  | .cuvidCreateVideoParser params _ _ => decide (params = parser_params)
  | _ => false

/-- What the decode and display callbacks of v2 may log. -/
def picP : Event → Bool
  | .printf _ | .cuGetErrorString _ | .cuvidDecodePicture _ _ _
  | .cuvidMapVideoFrame _ _ _ _ _ _ | .cuvidUnmapVideoFrame _ _ _
  | .cuMemAllocHost _ _ _ | .cuMemcpyDtoH _ _ _ _ => true
  | _ => false

/-- What the sequence callback of v2 may log for the format `fmt`: the capabilities are asked
for the format and the decoder is created with `create_info fmt`. -/
def seqP (fmt : CUVIDEOFORMAT) : Event → Bool
  | .printf _ | .cuGetErrorString _ | .cuCtxPushCurrent _ | .cuCtxPopCurrent => true
  | .cuvidGetDecoderCaps caps _ _ =>
    decide (caps = { eCodecType := fmt.codec, eChromaFormat := fmt.chroma_format,
                     nBitDepthMinus8 := fmt.bit_depth_luma_minus8 })
  | .cuvidCreateDecoder info _ _ => decide (info = create_info fmt)
  | _ => false

/-- What a sequence callback may log, whatever the format. -/
def seqAnyP : Event → Bool
  | .printf _ | .cuGetErrorString _ | .cuCtxPushCurrent _ | .cuCtxPopCurrent
  | .cuvidGetDecoderCaps _ _ _ | .cuvidCreateDecoder _ _ _ => true
  | _ => false

/-- What the teardown may log. -/
def cleanupP : Event → Bool
  | .printf _ | .cuGetErrorString _ | .cuCtxDestroy _ _ | .cuvidDestroyDecoder _ _
  | .cuvidDestroyVideoParser _ _ => true
  | _ => false

/-- What the callbacks may log; `seq` says whether sequence callbacks are made. -/
def cbP (seq : Bool) (e : Event) : Bool := picP e || (seq && seqAnyP e)

/-- What comes after the entry of `cuvidParseVideoData`: callbacks, the return, teardown. -/
def restP (seq : Bool) (e : Event) : Bool :=
  cbP seq e || cleanupP e || e.api == .cuvidParseVideoData_returned

/-- What the third phase may log: the only packet is `pkt`. -/
def runP (seq : Bool) (pkt : CUVIDSOURCEDATAPACKET) (e : Event) : Bool :=
  restP seq e ||
  (match e with
   | .cuvidParseVideoData _ p => decide (p = pkt)
   | _ => false)

/-- The state the first phase of `main` returns in, from `s`: every call succeeded. -/
def init_state (env : Env) (s : State) : State :=
  let dev := (env.sdk.cuDeviceGet (calls .cuDeviceGet s.log)).2
  let ctx := (env.sdk.cuCtxCreate (calls .cuCtxCreate s.log)).2
  { s with
    device := dev, context := ctx, ofs_is_open := true,
    log := s.log ++
      [.printf "\n\nnvidia decode test v1.\n\n",
       .cuInit 0 CUDA_SUCCESS,
       .cuDeviceGetCount CUDA_SUCCESS (env.sdk.cuDeviceGetCount (calls .cuDeviceGetCount s.log)).2,
       .printf "We have %d cuda device(s).\n",
       .cuDeviceGet 0 CUDA_SUCCESS dev,
       .cuDeviceGetName 80 dev CUDA_SUCCESS,
       .printf "Cuda device: %s.\n",
       .cuCtxCreate 0 dev CUDA_SUCCESS ctx] }

/-- The output file opens and every call of the first phase succeeds, from `s`. -/
def init_ok (env : Env) (s : State) : Prop :=
  env.ofs_open_ok = true ∧
  env.sdk.cuInit (calls .cuInit s.log) = CUDA_SUCCESS ∧
  (env.sdk.cuDeviceGetCount (calls .cuDeviceGetCount s.log)).1 = CUDA_SUCCESS ∧
  (env.sdk.cuDeviceGet (calls .cuDeviceGet s.log)).1 = CUDA_SUCCESS ∧
  env.sdk.cuDeviceGetName (calls .cuDeviceGetName s.log) = CUDA_SUCCESS ∧
  (env.sdk.cuCtxCreate (calls .cuCtxCreate s.log)).1 = CUDA_SUCCESS

/-- The packet `main` builds. -/
def packet (env : Env) : CUVIDSOURCEDATAPACKET :=
  { flags := 0, payload_size := env.ifs_size, payload := env.ifs_buf, timestamp := 0 }

/-- The state the second phase returns in, from `s`. -/
def load_state (env : Env) (s : State) : State :=
  { s with
    registered := some parser_params,
    log := s.log ++
      [.cuvidCreateVideoParser parser_params CUDA_SUCCESS
         (env.sdk.cuvidCreateVideoParser (calls .cuvidCreateVideoParser s.log)).2,
       .printf "Loaded %s which holds %zu bytes.\n"] }

/-- The parser is created and the input file opened, from `s`. -/
def load_ok (env : Env) (s : State) : Prop :=
  (env.sdk.cuvidCreateVideoParser (calls .cuvidCreateVideoParser s.log)).1 = CUDA_SUCCESS ∧
  env.ifs_is_open = true

/-- The state the teardown returns in, from `s`: every destroy call made succeeded. -/
def cleanup_state (parser : Handle) (s : State) : State :=
  { s with
    context := nullptr, decoder := nullptr, coded_width := 0, coded_height := 0,
    ofs_is_open := false,
    log := s.log ++
      (.printf "Cleaning up.\n" ::
       ((if parser = nullptr then []
         else [.printf "Destroying video parser.\n",
               .cuvidDestroyVideoParser parser CUDA_SUCCESS]) ++
        ((if s.decoder = nullptr then []
          else [.printf "Destroying decoder.\n",
                .cuvidDestroyDecoder s.decoder CUDA_SUCCESS]) ++
         ((if s.context = nullptr then []
           else [.printf "Destroying context.\n", .cuCtxDestroy s.context CUDA_SUCCESS,
                 .printf "Context destroyed.\n"]) ++
          [.printf "Playback with: ",
           .printf "ffplay -f rawvideo -pix_fmt nv12 -s %dx%d -i out.nv12\n",
           .printf "Resetting state.\n"])))) }

/-- Every destroy call the teardown makes succeeds, from `s`. -/
def cleanup_ok (env : Env) (parser : Handle) (s : State) : Prop :=
  (s.context = nullptr ∨ env.sdk.cuCtxDestroy (calls .cuCtxDestroy s.log) = CUDA_SUCCESS) ∧
  (s.decoder = nullptr ∨
    env.sdk.cuvidDestroyDecoder (calls .cuvidDestroyDecoder s.log) = CUDA_SUCCESS) ∧
  (parser = nullptr ∨
    env.sdk.cuvidDestroyVideoParser (calls .cuvidDestroyVideoParser s.log) = CUDA_SUCCESS)

/-- The state the sequence callback returns in, from `s`. -/
def sequence_state (sdk : Sdk) (fmt : CUVIDEOFORMAT) (s : State) : State :=
  { s with
    decoder := (sdk.cuvidCreateDecoder (calls .cuvidCreateDecoder s.log)).2,
    coded_width := i32 fmt.coded_width, coded_height := i32 fmt.coded_height,
    log := s.log ++
      [.printf "CUVIDEOFORMAT.Coded size: %d x %d\n",
       .printf "CUVIDEOFORMAT.Display area: %d %d %d %d\n",
       .printf "CUVIDEOFORMAT.Bitrate: %u\n",
       .cuvidGetDecoderCaps
         { eCodecType := fmt.codec, eChromaFormat := fmt.chroma_format,
           nBitDepthMinus8 := fmt.bit_depth_luma_minus8 } CUDA_SUCCESS
         (sdk.cuvidGetDecoderCaps (calls .cuvidGetDecoderCaps s.log)).2,
       .cuCtxPushCurrent s.context,
       .cuvidCreateDecoder (create_info fmt) CUDA_SUCCESS
         (sdk.cuvidCreateDecoder (calls .cuvidCreateDecoder s.log)).2,
       .cuCtxPopCurrent,
       .printf "Created the decoder.\n"] }

/-- The sequence callback goes through, from `s`: there is a context, the capabilities are
answered, the format is supported and the decoder is created. -/
def sequence_ok (sdk : Sdk) (s : State) : Prop :=
  s.context ≠ nullptr ∧
  (sdk.cuvidGetDecoderCaps (calls .cuvidGetDecoderCaps s.log)).1 = CUDA_SUCCESS ∧
  (sdk.cuvidGetDecoderCaps (calls .cuvidGetDecoderCaps s.log)).2 ≠ 0 ∧
  (sdk.cuvidCreateDecoder (calls .cuvidCreateDecoder s.log)).1 = CUDA_SUCCESS

/-- The pitch the SDK reports to the display callback called in state `s`. -/
def pitch_of (sdk : Sdk) (s : State) : Nat :=
  u32 (sdk.cuvidMapVideoFrame (calls .cuvidMapVideoFrame s.log)).2.2

/-- The buffer size the display callback called in state `s` works with: computed if the
buffer is yet to be allocated, else the one of the allocation. -/
def nbytes_of (sdk : Sdk) (s : State) : Int :=
  if s.yuv_buffer = nullptr then yuv_nbytes (pitch_of sdk s) s.coded_height
  else s.yuv_nbytes_needed

/-- The buffer the display callback called in state `s` works with: the one allocated now if
there is none yet. -/
def buffer_of (sdk : Sdk) (s : State) : Handle :=
  if s.yuv_buffer = nullptr then (sdk.cuMemAllocHost (calls .cuMemAllocHost s.log)).2
  else s.yuv_buffer

/-- After a successful mapping the display callback called in state `s` gets to the write
loops: the allocation (if made) and the copy succeed, the buffer is valid, the file is open. -/
def display_ok (sdk : Sdk) (s : State) : Prop :=
  (s.yuv_buffer = nullptr →
    (sdk.cuMemAllocHost (calls .cuMemAllocHost s.log)).1 = CUDA_SUCCESS) ∧
  buffer_of sdk s ≠ nullptr ∧ nbytes_of sdk s ≠ 0 ∧
  (sdk.cuMemcpyDtoH (calls .cuMemcpyDtoH s.log)).1 = CUDA_SUCCESS ∧
  s.ofs_is_open = true

/-- The host memory at `yuv_buffer` after the copy the display callback makes in state `s`. -/
def host_of (sdk : Sdk) (s : State) : Nat → Nat := fun i =>
  if i < u64 (nbytes_of sdk s) then (sdk.cuMemcpyDtoH (calls .cuMemcpyDtoH s.log)).2 i
  else s.host i

/-- The `n` bytes of `host` from offset `off`. -/
def row (host : Nat → Nat) (off : Nat) (n : Nat) : List Nat :=
  (List.range n).map (fun i => host (off + i))

/-- The bytes the two loops of the display callback called in state `s` append to `out.nv12`,
with the offsets as the program computes them. -/
def written (sdk : Sdk) (s : State) : List Nat :=
  (List.range s.coded_height.toNat).flatMap
      (fun j => row (host_of sdk s) (luma_offset (pitch_of sdk s) j) s.coded_width.toNat) ++
  (List.range (Int.tdiv s.coded_height 2).toNat).flatMap
      (fun j => row (host_of sdk s) (chroma_offset s.coded_height (pitch_of sdk s) j)
        s.coded_width.toNat)

/-- A raw NV12 picture of `w` by `h` pixels read from a surface with the given pitch: the `h`
luma rows, then the `h / 2` rows of interleaved chroma that start at row `h`. -/
def nv12_picture (host : Nat → Nat) (pitch w h : Nat) : List Nat :=
  (List.range h).flatMap (fun j => row host (j * pitch) w) ++
  (List.range (h / 2)).flatMap (fun j => row host (h * pitch + j * pitch) w)

/-- What the display callback of v2 called in state `s` does, whichever way it ends (in `o`):
it first maps the picture `disp.picture_index`; it allocates once if the mapping succeeded and
there was no buffer, else not; it unmaps once, the frame it mapped, if the mapping succeeded
and it returns; if it exits nothing was written; a buffer that was there is kept with its
size; and if the mapping fails it returns 0 having only reported that. -/
def display_frame (sdk : Sdk) (disp : CUVIDPARSERDISPINFO) (s : State) (o : Outcome Int) :
    Prop :=
  (∃ tail, o.state.log =
      s.log ++ .cuvidMapVideoFrame s.decoder disp.picture_index (vpp disp)
        (sdk.cuvidMapVideoFrame (calls .cuvidMapVideoFrame s.log)).1
        (sdk.cuvidMapVideoFrame (calls .cuvidMapVideoFrame s.log)).2.1
        (pitch_of sdk s) :: tail ∧
    calls .cuvidMapVideoFrame tail = 0 ∧
    calls .cuMemAllocHost tail =
      (if (sdk.cuvidMapVideoFrame (calls .cuvidMapVideoFrame s.log)).1 = CUDA_SUCCESS ∧
          s.yuv_buffer = nullptr then 1 else 0) ∧
    calls .cuvidUnmapVideoFrame tail =
      (if (sdk.cuvidMapVideoFrame (calls .cuvidMapVideoFrame s.log)).1 = CUDA_SUCCESS ∧
          o.exitCode = none then 1 else 0) ∧
    ∀ dec p r, Event.cuvidUnmapVideoFrame dec p r ∈ tail →
      dec = s.decoder ∧ p = (sdk.cuvidMapVideoFrame (calls .cuvidMapVideoFrame s.log)).2.1) ∧
  (o.exitCode ≠ none → o.state.out_nv12 = s.out_nv12) ∧
  (s.yuv_buffer ≠ nullptr →
    o.state.yuv_buffer = s.yuv_buffer ∧ o.state.yuv_nbytes_needed = s.yuv_nbytes_needed) ∧
  ((sdk.cuvidMapVideoFrame (calls .cuvidMapVideoFrame s.log)).1 ≠ CUDA_SUCCESS →
    o = .ret 0 { s with log := s.log ++
      [.cuvidMapVideoFrame s.decoder disp.picture_index (vpp disp)
        (sdk.cuvidMapVideoFrame (calls .cuvidMapVideoFrame s.log)).1
        (sdk.cuvidMapVideoFrame (calls .cuvidMapVideoFrame s.log)).2.1
        (pitch_of sdk s),
       .cuGetErrorString (sdk.cuvidMapVideoFrame (calls .cuvidMapVideoFrame s.log)).1,
       .printf "- mapping: %u failed: %s\n"] })

/-- The state of the buffer along a run: at most one allocation was made, and if one was
made there is a buffer. -/
def AllocInv (s : State) : Prop :=
  calls .cuMemAllocHost s.log ≤ 1 ∧ (calls .cuMemAllocHost s.log = 1 → s.yuv_buffer ≠ nullptr)

/-- What a whole run of v2 may log. -/
def mainP (seq : Bool) (env : Env) (e : Event) : Bool :=
  initP e || loadP e || runP seq (packet env) e

end V2

/-! ## Concrete inputs -/

/-- A video format: H.264, 4:2:0, 8 bits, 4 by 2 pixels. -/
def fmt_demo : CUVIDEOFORMAT :=
  { codec := cudaVideoCodec_H264, chroma_format := cudaVideoChromaFormat_420,
    bit_depth_luma_minus8 := 0, coded_width := 4, coded_height := 2 }

/-- Picture parameters. -/
def pic_demo : CUVIDPICPARAMS := { PicWidthInMbs := 1, FrameHeightInMbs := 1, CurrPicIdx := 0 }

/-- Display information: picture 3, progressive. -/
def disp_demo : CUVIDPARSERDISPINFO :=
  { picture_index := 3, progressive_frame := 1, top_field_first := 0, repeat_first_field := 0 }

/-- An SDK whose every call succeeds: the context is 5, the n-th decoder is `7 + n`, the parser
is 9, frames are mapped at device address 100 with pitch 4, the buffer is at 11, the surface
copied holds the byte `i` at offset `i`; the parser makes the callbacks of `script`. -/
def sdk_success (script : List ParserCallback) : Sdk :=
  { cuInit := fun _ => CUDA_SUCCESS,
    cuDeviceGetCount := fun _ => (CUDA_SUCCESS, 1),
    cuDeviceGet := fun _ => (CUDA_SUCCESS, 0),
    cuDeviceGetName := fun _ => CUDA_SUCCESS,
    cuCtxCreate := fun _ => (CUDA_SUCCESS, 5),
    cuvidGetDecoderCaps := fun _ => (CUDA_SUCCESS, 1),
    cuvidCreateDecoder := fun n => (CUDA_SUCCESS, 7 + n),
    cuvidCreateVideoParser := fun _ => (CUDA_SUCCESS, 9),
    cuvidParseVideoData := fun _ => (script, CUDA_SUCCESS),
    cuvidDecodePicture := fun _ => CUDA_SUCCESS,
    cuvidMapVideoFrame := fun _ => (CUDA_SUCCESS, 100, 4),
    cuvidUnmapVideoFrame := fun _ => CUDA_SUCCESS,
    cuMemAllocHost := fun _ => (CUDA_SUCCESS, 11),
    cuMemcpyDtoH := fun _ => (CUDA_SUCCESS, fun i => i),
    cuCtxDestroy := fun _ => CUDA_SUCCESS,
    cuvidDestroyDecoder := fun _ => CUDA_SUCCESS,
    cuvidDestroyVideoParser := fun _ => CUDA_SUCCESS }

/-- The environment of `sdk_success`: both files open, the input holds 1000 bytes. -/
def env_success (script : List ParserCallback) : Env :=
  { sdk := sdk_success script, ofs_open_ok := true, ifs_is_open := true, ifs_size := 1000,
    ifs_buf := 13, heap := fun _ => 0 }

/-- An SDK whose `cuvidDecodePicture` fails with status 1, every other call succeeding; the
parser makes a sequence callback, then a decode callback. -/
def sdk_decode_fails : Sdk :=
  { sdk_success [.sequence fmt_demo, .decode pic_demo] with cuvidDecodePicture := fun _ => 1 }

/-- The environment of `sdk_decode_fails`. -/
def env_decode_fails : Env :=
  { env_success [] with sdk := sdk_decode_fails }

/-- An SDK whose `cuInit` fails with status 1. -/
def sdk_init_fails : Sdk :=
  { sdk_success [] with cuInit := fun _ => 1 }

/-- The environment of `sdk_init_fails`. -/
def env_init_fails : Env :=
  { env_success [] with sdk := sdk_init_fails }
/-- An SDK whose `cuvidCreateVideoParser` fails with status 2. -/
def sdk_parser_fails : Sdk :=
  { sdk_success [] with cuvidCreateVideoParser := fun _ => (2, 0) }

/-- The environment of `sdk_parser_fails`. -/
def env_parser_fails : Env :=
  { env_success [] with sdk := sdk_parser_fails }

/-- A state in which the callbacks can run: the context is 5, the decoder 7, the coded size 4
by 2, the output file open, the parser created by v2. -/
def state_ready : State :=
  { State.init (env_success []) with
    context := 5, decoder := 7, coded_width := 4, coded_height := 2, ofs_is_open := true,
    registered := some V2.parser_params }

/-- The state `state_ready` with a coded size of 2 by 3: an odd height. -/
def state_odd_height : State :=
  { state_ready with coded_width := 2, coded_height := 3 }

/-- The state `state_ready` after a first frame: the buffer 11 of 12 bytes is allocated. -/
def state_buffered : State :=
  { state_ready with yuv_buffer := 11, yuv_nbytes_needed := 12 }

/-- An SDK whose `cuvidMapVideoFrame` fails with status 3. -/
def sdk_map_fails : Sdk :=
  { sdk_success [] with cuvidMapVideoFrame := fun _ => (3, 0, 0) }

/-! ## Running a program symbolically -/

section exec
variable {α β : Type}

theorem bind_apply (x : Prog α) (f : α → Prog β) (s : State) :
    (x >>= f) s = (x s).andThen f := rfl

theorem pure_apply (a : α) (s : State) : (pure a : Prog α) s = .ret a s := rfl

theorem andThen_ret (a : α) (s : State) (f : α → Prog β) :
    (Outcome.ret a s).andThen f = f a s := rfl

theorem andThen_exit (c : Int) (s : State) (f : α → Prog β) :
    (Outcome.exit c s : Outcome α).andThen f = .exit c s := rfl

theorem andThen_ite (c : Prop) [Decidable c] (a b : Outcome α) (f : α → Prog β) :
    (if c then a else b).andThen f = if c then a.andThen f else b.andThen f := by
  split <;> rfl

theorem andThen_assoc {γ : Type} (o : Outcome α) (f : α → Prog β) (g : β → Prog γ) :
    (o.andThen f).andThen g = o.andThen (fun a s => (f a s).andThen g) := by
  cases o <;> rfl

theorem prog_ite_apply (c : Prop) [Decidable c] (x y : Prog α) (s : State) :
    (if c then x else y) s = if c then x s else y s := by
  split <;> rfl

theorem exit_bind (c : Int) (f : α → Prog β) : (exit c >>= f) = exit c := rfl

theorem pure_bind_prog (a : α) (f : α → Prog β) : (pure a >>= f) = f a := rfl

theorem exit_apply (c : Int) (s : State) : (exit c : Prog α) s = .exit c s := rfl

theorem emit_apply (e : Event) (s : State) :
    emit e s = .ret () { s with log := s.log ++ [e] } := rfl

theorem getState_apply (s : State) : getState s = .ret s s := rfl

/-- The list rewrites below are stated with proofs (not by reflexivity), so that rewriting
with them leaves a proof step behind. -/
theorem singleton_append_step (x : Event) (l : List Event) : [x] ++ l = x :: l := by
  simp

theorem cons_append_step (x : Event) (l l' : List Event) : (x :: l) ++ l' = x :: (l ++ l') := by
  simp

theorem nil_append_step (l : List Event) : [] ++ l = l := by
  simp

theorem calls_append (k : Api) (l l' : List Event) :
    calls k (l ++ l') = calls k l + calls k l' := by
  simp [calls, List.countP_append]

theorem calls_cons (k : Api) (e : Event) (l : List Event) :
    calls k (e :: l) = (if e.api = k then 1 else 0) + calls k l := by
  simp [calls, List.countP_cons, Nat.add_comm]

theorem calls_nil (k : Api) : calls k [] = 0 := rfl

theorem calls_eq_zero (k : Api) (l : List Event) (h : ∀ e ∈ l, e.api ≠ k) : calls k l = 0 := by
  simp only [calls, List.countP_eq_zero]
  intro e he
  simpa using h e he

theorem success_eq (r : CUresult) : (CUDA_SUCCESS = r) = (r = CUDA_SUCCESS) :=
  propext eq_comm

theorem zero_eq_int (z : Int) : (0 = z) = (z = 0) :=
  propext eq_comm

theorem run_callbacks_append (cbs : Callbacks) (a b : List ParserCallback) (s : State) :
    run_callbacks cbs (a ++ b) s = (run_callbacks cbs a s).andThen (fun _ => run_callbacks cbs b) := by
  induction a generalizing s with
  | nil => rfl
  | cons c cs ih =>
    simp only [List.cons_append, run_callbacks, bind_apply]
    cases run_callback cbs c s with
    | ret u s1 => simp only [andThen_ret]; exact ih s1
    | exit c s1 => rfl

end exec

/-! ## The fail-stop discipline composes -/

theorem stopOK_none_clean : ∀ (seg : List Event), stopOK none seg = true →
    ∀ e ∈ seg, fatal e = false
  | [], _, e, he => by simp at he
  | x :: rest, h, e, he => by
    unfold stopOK at h
    by_cases hx : fatal x = true
    · simp [hx] at h
    · simp only [hx] at h
      rcases List.mem_cons.mp he with rfl | he
      · simpa using hx
      · exact stopOK_none_clean rest (by simpa using h) e he

theorem stopOK_append_clean (ex : Option Int) : ∀ (a b : List Event),
    (∀ e ∈ a, fatal e = false) → stopOK ex (a ++ b) = stopOK ex b
  | [], _, _ => rfl
  | x :: a, b, h => by
    have hx : fatal x = false := h x (List.mem_cons_self _ _)
    simp only [List.cons_append, stopOK, hx]
    simpa using stopOK_append_clean ex a b (fun e he => h e (List.mem_cons_of_mem _ he))

/-- What the discipline says about a fatal call anywhere in the segment. -/
theorem stopOK_spec (ex : Option Int) : ∀ (pre : List Event) (e : Event) (post : List Event),
    stopOK ex (pre ++ e :: post) = true → fatal e = true →
    ex = some EXIT_FAILURE ∧ (∀ x ∈ post, isReport x = true) ∧ ∃ msg, Event.printf msg ∈ post
  | [], e, post, h, he => by
    simp only [List.nil_append, stopOK, he, if_true, Bool.and_eq_true, beq_iff_eq,
      List.all_eq_true, List.any_eq_true] at h
    obtain ⟨⟨h1, h2⟩, x, hx, hp⟩ := h
    refine ⟨h1, h2, ?_⟩
    cases x <;> simp [isPrintf] at hp
    exact ⟨_, hx⟩
  | x :: pre, e, post, h, he => by
    simp only [List.cons_append, stopOK] at h
    by_cases hx : fatal x = true
    · simp only [hx, if_true, Bool.and_eq_true, List.all_eq_true] at h
      have hr : isReport e = true := h.1.2 e (by simp)
      cases e <;> simp [isReport, fatal, failed, Event.status] at hr he
    · simp only [hx] at h
      exact stopOK_spec ex pre e post (by simpa using h) he

theorem segOK_append {P : Event → Bool} {ex : Option Int} {a b : List Event}
    (ha : SegOK P none a = true) (hb : SegOK P ex b = true) : SegOK P ex (a ++ b) = true := by
  simp only [SegOK, Bool.and_eq_true] at ha hb ⊢
  refine ⟨?_, ?_⟩
  · rw [stopOK_append_clean ex a b (stopOK_none_clean a ha.1)]; exact hb.1
  · rw [List.all_append, ha.2, hb.2]; rfl

theorem segOK_mono {P Q : Event → Bool} (hPQ : ∀ e, P e = true → Q e = true) {ex : Option Int}
    {seg : List Event} (h : SegOK P ex seg = true) : SegOK Q ex seg = true := by
  simp only [SegOK, Bool.and_eq_true, List.all_eq_true] at h ⊢
  exact ⟨h.1, fun e he => hPQ e (h.2 e he)⟩

section spec
variable {α β : Type} {P : Event → Bool}

theorem spec_ite {R : α → State → Prop} {E : Prop} {s : State} {c : Prop} [Decidable c]
    {a b : Outcome α} (ha : c → Spec P R E s a) (hb : ¬c → Spec P R E s b) :
    Spec P R E s (if c then a else b) := by
  split
  · exact ha ‹_›
  · exact hb ‹_›

theorem spec_exit {R : α → State → Prop} {E : Prop} {s s1 : State} (seg : List Event)
    (h : s1.log = s.log ++ seg) (h1 : SegOK P (some EXIT_FAILURE) seg = true) (hE : E) :
    Spec P R E s (Outcome.exit EXIT_FAILURE s1 : Outcome α) :=
  ⟨⟨seg, h, h1⟩, rfl, hE⟩

theorem spec_ret {R : α → State → Prop} {E : Prop} {s s1 : State} {a : α} (seg : List Event)
    (h : s1.log = s.log ++ seg) (h1 : SegOK P none seg = true) (hR : R a s1) :
    Spec P R E s (Outcome.ret a s1) :=
  ⟨⟨seg, h, h1⟩, hR⟩

theorem Spec.mono {R R' : α → State → Prop} {E E' : Prop} {Q : Event → Bool} {s : State}
    {o : Outcome α} (h : Spec P R E s o) (hPQ : ∀ e, P e = true → Q e = true)
    (hR : ∀ a s1, R a s1 → R' a s1) (hE : E → E') : Spec Q R' E' s o := by
  obtain ⟨⟨seg, hl, hs⟩, h2⟩ := h
  refine ⟨⟨seg, hl, segOK_mono hPQ hs⟩, ?_⟩
  cases o with
  | ret a s1 => exact hR a s1 h2
  | exit c s1 => exact ⟨h2.1, hE h2.2⟩

/-- A piece of program that can only exit when `E` returns when `E` fails. -/
theorem Spec.ret_of_not {R : α → State → Prop} {E : Prop} {s : State} {o : Outcome α}
    (h : Spec P R E s o) (hE : ¬E) : ∃ a s1, o = .ret a s1 ∧ R a s1 := by
  cases o with
  | ret a s1 => exact ⟨a, s1, rfl, h.2⟩
  | exit c s1 => exact absurd h.2.2 hE

/-- Rebase: a clean segment may be put in front. -/
theorem Spec.rebase {R : α → State → Prop} {E : Prop} {s0 s : State} {o : Outcome α}
    (seg0 : List Event) (h0 : s.log = s0.log ++ seg0) (hs0 : SegOK P none seg0 = true)
    (h : Spec P R E s o) : Spec P R E s0 o := by
  obtain ⟨⟨seg, hl, hs⟩, h2⟩ := h
  exact ⟨⟨seg0 ++ seg, by rw [hl, h0, List.append_assoc], segOK_append hs0 hs⟩, h2⟩

/-- One clean event logged first. -/
theorem spec_after_emit {R : α → State → Prop} {E : Prop} {o : Outcome α} (e : Event)
    (s : State) (he : SegOK P none [e] = true)
    (h : Spec P R E { s with log := s.log ++ [e] } o) : Spec P R E s o :=
  Spec.rebase [e] rfl he h

/-- Sequencing: what follows a returned outcome starts from a state whose log grew cleanly. -/
theorem Spec.andThen {R : α → State → Prop} {R' : β → State → Prop} {E : Prop} {s : State}
    {o : Outcome α} {f : α → Prog β} (h : Spec P R E s o)
    (hf : ∀ a s1, R a s1 → Spec P R' E s1 (f a s1)) : Spec P R' E s (o.andThen f) := by
  obtain ⟨⟨seg, hl, hs⟩, h2⟩ := h
  cases o with
  | ret a s1 => exact Spec.rebase seg hl hs (hf a s1 h2)
  | exit c s1 => exact ⟨⟨seg, hl, hs⟩, h2⟩

/-- The log of an outcome that meets `Spec` extends the log it started from. -/
theorem Spec.log_eq {R : α → State → Prop} {E : Prop} {s : State} {o : Outcome α}
    (h : Spec P R E s o) :
    ∃ seg, o.state.log = s.log ++ seg ∧ stopOK o.exitCode seg = true ∧ ∀ e ∈ seg, P e = true := by
  obtain ⟨⟨seg, hl, hs⟩, -⟩ := h
  simp only [SegOK, Bool.and_eq_true, List.all_eq_true] at hs
  exact ⟨seg, hl, hs.1, hs.2⟩

/-- The returned state may be told how its log grew. -/
theorem Spec.with_log {R : α → State → Prop} {E : Prop} {s : State} {o : Outcome α}
    (h : Spec P R E s o) :
    Spec P (fun a s1 => R a s1 ∧ ∃ seg, s1.log = s.log ++ seg ∧ ∀ e ∈ seg, P e = true) E s o := by
  obtain ⟨seg, hl, -, hP⟩ := h.log_eq
  obtain ⟨h1, h2⟩ := h
  refine ⟨h1, ?_⟩
  cases o with
  | ret a s1 => exact ⟨h2, seg, hl, hP⟩
  | exit c s1 => exact h2

end spec

/-- The callbacks of a `cuvidParseVideoData` call meet the specification each callback of the
script meets, for a relation `Rel` between states that composes. -/
theorem run_callbacks_spec {P : Event → Bool} (Rel : State → State → Prop)
    (hrefl : ∀ s, Rel s s) (htrans : ∀ a b c, Rel a b → Rel b c → Rel a c) (cbs : Callbacks) :
    ∀ (script : List ParserCallback),
    (∀ fmt, ParserCallback.sequence fmt ∈ script →
      ∀ s, Spec P (fun _ s1 => Rel s s1) True s (cbs.parser_sequence_callback fmt s)) →
    (∀ pic, ParserCallback.decode pic ∈ script →
      ∀ s, Spec P (fun _ s1 => Rel s s1) True s (cbs.parser_decode_picture_callback pic s)) →
    (∀ disp, ParserCallback.display disp ∈ script →
      ∀ s, Spec P (fun _ s1 => Rel s s1) True s (cbs.parser_display_picture_callback disp s)) →
    ∀ s, Spec P (fun _ s1 => Rel s s1) True s (run_callbacks cbs script s)
  | [], _, _, _, s => spec_ret [] (by simp [pure_apply]) rfl (hrefl s)
  | c :: cs, h1, h2, h3, s => by
    have ih := run_callbacks_spec Rel hrefl htrans cbs cs
      (fun fmt hm => h1 fmt (List.mem_cons_of_mem _ hm))
      (fun pic hm => h2 pic (List.mem_cons_of_mem _ hm))
      (fun disp hm => h3 disp (List.mem_cons_of_mem _ hm))
    have hc : Spec P (fun _ s1 => Rel s s1) True s (run_callback cbs c s) := by
      cases c with
      | sequence fmt =>
        simp only [run_callback]
        split
        · exact Spec.andThen (h1 fmt (List.mem_cons_self _ _) s)
            (fun _ s1 hr => spec_ret [] (by simp) rfl hr)
        · exact spec_ret [] (by simp) rfl (hrefl s)
      | decode pic =>
        simp only [run_callback]
        split
        · exact Spec.andThen (h2 pic (List.mem_cons_self _ _) s)
            (fun _ s1 hr => spec_ret [] (by simp) rfl hr)
        · exact spec_ret [] (by simp) rfl (hrefl s)
      | display disp =>
        simp only [run_callback]
        split
        · exact Spec.andThen (h3 disp (List.mem_cons_self _ _) s)
            (fun _ s1 hr => spec_ret [] (by simp) rfl hr)
        · exact spec_ret [] (by simp) rfl (hrefl s)
    exact Spec.andThen hc (fun _ s1 hr => Spec.mono (ih s1) (fun _ h => h)
      (fun _ s2 hr2 => htrans s s1 s2 hr hr2) id)

theorem kept_refl (s : State) : Kept s s := ⟨rfl, rfl⟩

theorem kept_trans (a b c : State) (h1 : Kept a b) (h2 : Kept b c) : Kept a c :=
  ⟨h2.1.trans h1.1, h2.2.trans h1.2⟩

/-! ## Phases of v0 -/

namespace V0

set_option maxRecDepth 1000 in
set_option maxHeartbeats 1000000 in
theorem v0_main_init_spec (env : Env) (s : State) :
    Spec initP (fun _ s1 => s1 = init_state env s ∧ init_ok env s) (¬init_ok env s) s
      (main_init env s) := by
  unfold main_init
  simp -zeta only [exit_bind, pure_bind_prog]
  simp only [bind_apply, pure_apply, andThen_ret, andThen_exit, andThen_ite, exit_apply,
    emit_apply, getState_apply, prog_ite_apply, printf, cuGetErrorString, cuInit,
    cuDeviceGetCount, cuDeviceGet, cuDeviceGetName, cuCtxCreate, cuvidGetDecoderCaps,
    cuvidCreateDecoder, calls_append, calls_cons, calls_nil, Event.api, ne_eq, ite_not,
    reduceCtorEq, if_false, if_true, add_zero, zero_add]
  simp only [List.append_assoc, singleton_append_step, cons_append_step, nil_append_step]
  simp only [success_eq]
  repeat' refine spec_ite (fun h => ?_) (fun h => ?_)
  all_goals first
    | exact spec_exit _ rfl (by
        simp [SegOK, stopOK, fatal, failed, tolerated, Event.status, Event.api, isReport,
          isPrintf, initP, *]) (by simp [init_ok, *])
    | exact spec_ret _ rfl (by
        simp [SegOK, stopOK, fatal, failed, tolerated, Event.status, Event.api, isReport,
          isPrintf, initP, *]) (by simp [init_state, init_ok, *])

set_option maxRecDepth 1000 in
set_option maxHeartbeats 1000000 in
theorem v0_main_load_spec (env : Env) (s : State) :
    Spec loadP (fun a s1 =>
        a = ((env.sdk.cuvidCreateVideoParser (calls .cuvidCreateVideoParser s.log)).2,
             packet env) ∧
        s1 = load_state env s ∧ load_ok env s)
      (¬load_ok env s) s (main_load env s) := by
  unfold main_load
  simp -zeta only [exit_bind, pure_bind_prog]
  simp only [bind_apply, pure_apply, andThen_ret, andThen_exit, andThen_ite, exit_apply,
    emit_apply, getState_apply, prog_ite_apply, printf, cuGetErrorString,
    cuvidCreateVideoParser, calls_append, calls_cons, calls_nil, Event.api, ne_eq, ite_not,
    reduceCtorEq, if_false, if_true, add_zero, zero_add]
  simp only [List.append_assoc, singleton_append_step, cons_append_step, nil_append_step]
  simp only [success_eq]
  repeat' refine spec_ite (fun h => ?_) (fun h => ?_)
  all_goals first
    | exact spec_exit _ rfl (by
        simp [SegOK, stopOK, fatal, failed, tolerated, Event.status, Event.api, isReport,
          isPrintf, loadP, *]) (by simp_all [load_ok])
    | exact spec_ret _ rfl (by
        simp [SegOK, stopOK, fatal, failed, tolerated, Event.status, Event.api, isReport,
          isPrintf, loadP, *]) (by simp_all [load_state, load_ok, packet])

set_option maxRecDepth 1000 in
set_option maxHeartbeats 1000000 in
theorem v0_main_cleanup_spec (env : Env) (parser : Handle) (s : State) :
    Spec cleanupP (fun _ s1 => s1 = cleanup_state parser s ∧ cleanup_ok env parser s)
      (¬cleanup_ok env parser s) s (main_cleanup env parser s) := by
  unfold main_cleanup
  simp -zeta only [exit_bind, pure_bind_prog]
  simp only [bind_apply, pure_apply, andThen_ret, andThen_exit, andThen_ite, exit_apply,
    emit_apply, getState_apply, modifyState, prog_ite_apply, printf, cuGetErrorString,
    cuCtxDestroy, cuvidDestroyDecoder, cuvidDestroyVideoParser,
    calls_append, calls_cons, calls_nil, Event.api, ne_eq, ite_not,
    reduceCtorEq, if_false, if_true, add_zero, zero_add]
  simp only [List.append_assoc, singleton_append_step, cons_append_step, nil_append_step]
  simp only [success_eq]
  repeat' refine spec_ite (fun h => ?_) (fun h => ?_)
  all_goals first
    | exact spec_exit _ rfl (by
        simp [SegOK, stopOK, fatal, failed, tolerated, Event.status, Event.api, isReport,
          isPrintf, cleanupP, *]) (by simp [cleanup_ok, nullptr, *])
    | exact spec_ret _ rfl (by
        simp [SegOK, stopOK, fatal, failed, tolerated, Event.status, Event.api, isReport,
          isPrintf, cleanupP, *]) (by simp [cleanup_state, cleanup_ok, nullptr, *])

/-- The sequence callback of v0 prints three lines, returns 0 and does nothing else. -/
theorem v0_parser_sequence_callback_eq (fmt : CUVIDEOFORMAT) (s : State) :
    parser_sequence_callback fmt s =
      .ret 0 { s with log := s.log ++
        [.printf "CUVIDEOFORMAT.Coded size: %d x %d\n",
         .printf "CUVIDEOFORMAT.Display area: %d %d %d %d\n",
         .printf "CUVIDEOFORMAT.Bitrate: %u\n"] } := by
  simp only [parser_sequence_callback, bind_apply, pure_apply, andThen_ret, emit_apply, printf,
    List.append_assoc, singleton_append_step, cons_append_step, nil_append_step]

theorem v0_parser_sequence_callback_spec (fmt : CUVIDEOFORMAT) (s : State) :
    Spec cbP (fun _ s1 => Rel s s1) True s (parser_sequence_callback fmt s) := by
  rw [v0_parser_sequence_callback_eq]
  exact spec_ret _ rfl (by simp [SegOK, stopOK, fatal, failed, Event.status, cbP])
    ⟨⟨rfl, rfl⟩, rfl⟩

set_option maxRecDepth 1000 in
set_option maxHeartbeats 1000000 in
theorem v0_parser_decode_picture_callback_spec (sdk : Sdk) (pic : CUVIDPICPARAMS) (s : State) :
    Spec cbP (fun a s1 => Rel s s1 ∧ a = 1 ∧ s.decoder ≠ nullptr) (s.decoder = nullptr) s
      (parser_decode_picture_callback sdk pic s) := by
  unfold parser_decode_picture_callback
  simp -zeta only [exit_bind, pure_bind_prog]
  simp only [bind_apply, pure_apply, andThen_ret, andThen_exit, andThen_ite, exit_apply,
    emit_apply, getState_apply, prog_ite_apply, printf, cuvidDecodePicture,
    calls_append, calls_cons, calls_nil, Event.api, ne_eq, ite_not,
    reduceCtorEq, if_false, if_true, add_zero, zero_add]
  simp only [List.append_assoc, singleton_append_step, cons_append_step, nil_append_step]
  simp only [success_eq]
  repeat' refine spec_ite (fun h => ?_) (fun h => ?_)
  all_goals first
    | exact spec_exit _ rfl (by
        simp [SegOK, stopOK, fatal, failed, tolerated, Event.status, Event.api, isReport,
          isPrintf, cbP, *]) (by simp_all [nullptr])
    | exact spec_ret _ rfl (by
        simp [SegOK, stopOK, fatal, failed, tolerated, Event.status, Event.api, isReport,
          isPrintf, cbP, *]) (by simp_all [Rel, Kept, nullptr])

/-- The decode callback of v0 in closed form. -/
theorem v0_parser_decode_picture_callback_eq (sdk : Sdk) (pic : CUVIDPICPARAMS) (s : State) :
    parser_decode_picture_callback sdk pic s =
      if s.decoder = nullptr then
        .exit EXIT_FAILURE { s with log := s.log ++ [.printf "decoder is nullptr. (exiting)."] }
      else
        .ret 1 { s with log := s.log ++
          (.cuvidDecodePicture s.decoder pic
              (sdk.cuvidDecodePicture (calls .cuvidDecodePicture s.log)) ::
            if sdk.cuvidDecodePicture (calls .cuvidDecodePicture s.log) = CUDA_SUCCESS then []
            else [.printf "Failed to decode the picture."]) } := by
  unfold parser_decode_picture_callback
  simp -zeta only [exit_bind, pure_bind_prog]
  simp only [bind_apply, pure_apply, andThen_ret, andThen_exit, andThen_ite, exit_apply,
    emit_apply, getState_apply, prog_ite_apply, printf, cuvidDecodePicture,
    calls_append, calls_cons, calls_nil, Event.api, ne_eq, ite_not,
    reduceCtorEq, if_false, if_true, add_zero, zero_add]
  simp only [List.append_assoc, singleton_append_step, cons_append_step, nil_append_step]
  simp only [success_eq]
  split_ifs <;> simp_all [nullptr]

set_option maxRecDepth 1000 in
/-- The display callback of v0 in closed form: it always returns, and what it unmaps is the
device pointer as read back from the global `device`. -/
theorem v0_parser_display_picture_callback_eq (sdk : Sdk) (disp : CUVIDPARSERDISPINFO)
    (s : State) :
    parser_display_picture_callback sdk disp s =
      .ret (display_value sdk s) { s with
        device := i32 (sdk.cuvidMapVideoFrame (calls .cuvidMapVideoFrame s.log)).2.1,
        log := s.log ++
        (.cuvidMapVideoFrame s.decoder disp.picture_index (vpp disp)
            (sdk.cuvidMapVideoFrame (calls .cuvidMapVideoFrame s.log)).1
            (sdk.cuvidMapVideoFrame (calls .cuvidMapVideoFrame s.log)).2.1
            (u32 (sdk.cuvidMapVideoFrame (calls .cuvidMapVideoFrame s.log)).2.2) ::
          if (sdk.cuvidMapVideoFrame (calls .cuvidMapVideoFrame s.log)).1 = CUDA_SUCCESS then
            .printf "+ mapping: %u succeeded\n" ::
            .cuvidUnmapVideoFrame s.decoder
                (u64 (i32 (sdk.cuvidMapVideoFrame (calls .cuvidMapVideoFrame s.log)).2.1))
                (sdk.cuvidUnmapVideoFrame (calls .cuvidUnmapVideoFrame s.log)) ::
              if sdk.cuvidUnmapVideoFrame (calls .cuvidUnmapVideoFrame s.log) = CUDA_SUCCESS
              then []
              else [.cuGetErrorString
                      (sdk.cuvidUnmapVideoFrame (calls .cuvidUnmapVideoFrame s.log)),
                    .printf "- failed to unmap the video frame: %s, %d\n"]
          else [.cuGetErrorString (sdk.cuvidMapVideoFrame (calls .cuvidMapVideoFrame s.log)).1,
                .printf "- mapping: %u failed: %s\n"]) } := by
  unfold parser_display_picture_callback
  simp -zeta only [exit_bind, pure_bind_prog]
  simp only [bind_apply, pure_apply, andThen_ret, andThen_exit, andThen_ite, exit_apply,
    emit_apply, getState_apply, modifyState, prog_ite_apply, printf, cuGetErrorString,
    cuvidMapVideoFrame, cuvidUnmapVideoFrame,
    calls_append, calls_cons, calls_nil, Event.api, ne_eq, ite_not,
    reduceCtorEq, if_false, if_true, add_zero, zero_add]
  simp only [List.append_assoc, singleton_append_step, cons_append_step, nil_append_step]
  simp only [success_eq]
  split_ifs <;> simp_all [display_value]

theorem v0_parser_display_picture_callback_spec (sdk : Sdk) (disp : CUVIDPARSERDISPINFO)
    (s : State) :
    Spec cbP (fun a s1 => Rel s s1 ∧ a = display_value sdk s) False s
      (parser_display_picture_callback sdk disp s) := by
  rw [v0_parser_display_picture_callback_eq]
  refine spec_ret _ rfl ?_ ⟨⟨⟨rfl, rfl⟩, rfl⟩, rfl⟩
  split_ifs <;>
    simp [SegOK, stopOK, fatal, failed, tolerated, Event.status, Event.api, isReport,
      isPrintf, cbP, *]

theorem v0_rel_refl (s : State) : Rel s s := ⟨kept_refl s, rfl⟩

theorem v0_rel_trans (a b c : State) (h1 : Rel a b) (h2 : Rel b c) : Rel a c :=
  ⟨kept_trans a b c h1.1 h2.1, h2.2.trans h1.2⟩

theorem v0_callbacks_spec (sdk : Sdk) (script : List ParserCallback) (s : State) :
    Spec cbP (fun _ s1 => Rel s s1) True s (run_callbacks (callbacks sdk) script s) :=
  run_callbacks_spec Rel v0_rel_refl v0_rel_trans (callbacks sdk) script
    (fun fmt _ s => v0_parser_sequence_callback_spec fmt s)
    (fun pic _ s => Spec.mono (v0_parser_decode_picture_callback_spec sdk pic s) (fun _ h => h)
      (fun _ _ h => h.1) (fun _ => trivial))
    (fun disp _ s => Spec.mono (v0_parser_display_picture_callback_spec sdk disp s) (fun _ h => h)
      (fun _ _ h => h.1) (fun _ => trivial)) s

theorem v0_cbP_le_restP (e : Event) (h : cbP e = true) : restP e = true := by
  simp [restP, h]

theorem v0_cleanupP_le_restP (e : Event) (h : cleanupP e = true) : restP e = true := by
  simp [restP, h]

theorem v0_restP_le_runP (pkt : CUVIDSOURCEDATAPACKET) (e : Event) (h : restP e = true) :
    runP pkt e = true := by
  simp [runP, h]

/-- The third phase of `main` of v0, seen from the entry of `cuvidParseVideoData`: when it
returns, the callbacks have run from the entry to a state `s3`, the parse call returned
success and the teardown went through from `s3`. -/
theorem v0_main_run_tail_spec (env : Env) (parser : Handle) (pkt : CUVIDSOURCEDATAPACKET)
    (s : State) :
    Spec restP
      (fun a s1 => a = 0 ∧ ∃ s3 seg,
        s3.log = (s.log ++ [.cuvidParseVideoData parser pkt]) ++ seg ∧
        (∀ e ∈ seg, cbP e = true) ∧ Rel s s3 ∧
        s1 = cleanup_state parser
          { s3 with log := s3.log ++ [.cuvidParseVideoData_returned CUDA_SUCCESS] })
      True { s with log := s.log ++ [.cuvidParseVideoData parser pkt] }
      (main_run env parser pkt s) := by
  unfold main_run
  simp -zeta only [exit_bind, pure_bind_prog]
  simp only [bind_apply, cuvidParseVideoData, emit_apply, andThen_ret, pure_apply,
    andThen_assoc]
  refine Spec.andThen (Spec.mono (Spec.with_log (v0_callbacks_spec env.sdk _ _))
    v0_cbP_le_restP (fun _ _ h => h) id) (fun _ s3 h3 => ?_)
  obtain ⟨hk, seg, hl, hP⟩ := h3
  simp only [prog_ite_apply, bind_apply, emit_apply, andThen_ret, andThen_exit, exit_apply,
    pure_apply, printf, cuGetErrorString, ne_eq, ite_not, andThen_ite,
    List.append_assoc, singleton_append_step, cons_append_step, nil_append_step]
  simp only [success_eq]
  refine spec_ite (fun h => ?_) (fun h => ?_)
  · refine spec_after_emit (.cuvidParseVideoData_returned
        (env.sdk.cuvidParseVideoData (calls .cuvidParseVideoData s.log)).2) _
      (by simp [SegOK, stopOK, fatal, failed, Event.status, restP, Event.api, h]) ?_
    refine Spec.andThen (Spec.mono (v0_main_cleanup_spec env parser _) v0_cleanupP_le_restP
      (fun _ _ h => h) (fun _ => trivial)) (fun _ s4 h4 => ?_)
    refine spec_ret [] (by simp) (by simp [SegOK, stopOK]) ⟨rfl, s3, seg, ?_, hP, hk, ?_⟩
    · simpa using hl
    · rw [h4.1, h]
  · exact spec_exit _ rfl (by
      simp [SegOK, stopOK, fatal, failed, tolerated, Event.status, Event.api, isReport,
        isPrintf, restP, cbP, cleanupP, h]) trivial

theorem v0_main_run_spec (env : Env) (parser : Handle) (pkt : CUVIDSOURCEDATAPACKET) (s : State) :
    Spec (runP pkt) (fun a _ => a = 0) True s (main_run env parser pkt s) :=
  spec_after_emit (.cuvidParseVideoData parser pkt) s
    (by simp [SegOK, stopOK, fatal, failed, Event.status, runP])
    (Spec.mono (v0_main_run_tail_spec env parser pkt s) (v0_restP_le_runP pkt)
      (fun _ _ h => h.1) id)

theorem v0_main_eq (env : Env) :
    main env = ((main_init env (State.init env)).andThen fun _ s1 =>
      (main_load env s1).andThen fun a s2 => main_run env a.1 a.2 s2) := rfl

theorem v0_initP_le_mainP (env : Env) (e : Event) (h : initP e = true) : mainP env e = true := by
  simp [mainP, h]

theorem v0_loadP_le_mainP (env : Env) (e : Event) (h : loadP e = true) : mainP env e = true := by
  simp [mainP, h]

theorem v0_runP_le_mainP (env : Env) (e : Event) (h : runP (packet env) e = true) :
    mainP env e = true := by
  simp [mainP, h]

/-- The whole run of v0: its log obeys the discipline, `main` can only return 0 and only with
the input file open. -/
theorem v0_main_spec (env : Env) :
    Spec (mainP env) (fun a _ => a = 0 ∧ env.ifs_is_open = true) True (State.init env)
      (main env) := by
  rw [v0_main_eq]
  refine Spec.andThen (Spec.mono (v0_main_init_spec env _) (v0_initP_le_mainP env) (fun _ _ h => h)
    (fun _ => trivial)) (fun _ s1 _ => ?_)
  refine Spec.andThen (Spec.mono (v0_main_load_spec env s1) (v0_loadP_le_mainP env) (fun _ _ h => h)
    (fun _ => trivial)) (fun a s2 h2 => ?_)
  obtain ⟨ha, -, -, hopen⟩ := h2
  subst ha
  exact Spec.mono (v0_main_run_spec env _ _ s2) (v0_runP_le_mainP env)
    (fun _ _ h => ⟨h, hopen⟩) id

/-! ### The phases of v0 when every call succeeds -/

theorem v0_main_init_of_ok (env : Env) (s : State) (h : init_ok env s) :
    main_init env s = .ret () (init_state env s) := by
  obtain ⟨a, s1, he, hs, -⟩ := (v0_main_init_spec env s).ret_of_not (not_not.mpr h)
  rw [he, hs]

theorem v0_main_load_of_ok (env : Env) (s : State) (h : load_ok env s) :
    main_load env s =
      .ret ((env.sdk.cuvidCreateVideoParser (calls .cuvidCreateVideoParser s.log)).2, packet env)
        (load_state env s) := by
  obtain ⟨a, s1, he, ha, hs, -⟩ := (v0_main_load_spec env s).ret_of_not (not_not.mpr h)
  rw [he, hs, ha]

/-- A phase that does not go through exits: the first phase. -/
theorem v0_main_init_exits (env : Env) (s : State) (h : ¬init_ok env s) :
    ∃ s1 seg, main_init env s = .exit EXIT_FAILURE s1 ∧ s1.log = s.log ++ seg ∧
      ∀ e ∈ seg, initP e = true := by
  have hs := v0_main_init_spec env s
  obtain ⟨seg, hl, -, hP⟩ := hs.log_eq
  cases ho : main_init env s with
  | ret a s1 => rw [ho] at hs; exact absurd hs.2.2 h
  | exit c s1 =>
    rw [ho] at hs hl
    exact ⟨s1, seg, by rw [hs.2.1], hl, hP⟩

theorem v0_main_load_exits (env : Env) (s : State) (h : ¬load_ok env s) :
    ∃ s1 seg, main_load env s = .exit EXIT_FAILURE s1 ∧ s1.log = s.log ++ seg ∧
      ∀ e ∈ seg, loadP e = true := by
  have hs := v0_main_load_spec env s
  obtain ⟨seg, hl, -, hP⟩ := hs.log_eq
  cases ho : main_load env s with
  | ret a s1 => rw [ho] at hs; exact absurd hs.2.2.2 h
  | exit c s1 =>
    rw [ho] at hs hl
    exact ⟨s1, seg, by rw [hs.2.1], hl, hP⟩

/-- The handle of the parser `main` creates. -/
theorem v0_parser_handle (env : Env) :
    (env.sdk.cuvidCreateVideoParser
      (calls .cuvidCreateVideoParser (init_state env (State.init env)).log)).2 =
    (env.sdk.cuvidCreateVideoParser 0).2 := by
  simp [init_state, State.init, calls_cons, calls_nil, Event.api]

/-- The three ways a run of v0 goes: the first phase exits, the second phase exits, or the
packet is given to the parser. -/
theorem v0_main_cases (env : Env) :
    (¬init_ok env (State.init env) ∧
      ∃ s1, main env = .exit EXIT_FAILURE s1 ∧ ∀ e ∈ s1.log, initP e = true) ∨
    (init_ok env (State.init env) ∧ ¬load_ok env (init_state env (State.init env)) ∧
      ∃ s1 seg, main env = .exit EXIT_FAILURE s1 ∧
        s1.log = (init_state env (State.init env)).log ++ seg ∧ ∀ e ∈ seg, loadP e = true) ∨
    (init_ok env (State.init env) ∧ load_ok env (init_state env (State.init env)) ∧
      main env = main_run env (env.sdk.cuvidCreateVideoParser 0).2 (packet env)
        (load_state env (init_state env (State.init env)))) := by
  by_cases hi : init_ok env (State.init env)
  · by_cases hl : load_ok env (init_state env (State.init env))
    · refine Or.inr (Or.inr ⟨hi, hl, ?_⟩)
      rw [v0_main_eq, v0_main_init_of_ok env _ hi, andThen_ret, v0_main_load_of_ok env _ hl,
        andThen_ret, v0_parser_handle]
    · refine Or.inr (Or.inl ⟨hi, hl, ?_⟩)
      obtain ⟨s1, seg, he, hlog, hP⟩ := v0_main_load_exits env _ hl
      exact ⟨s1, seg, by rw [v0_main_eq, v0_main_init_of_ok env _ hi, andThen_ret, he,
        andThen_exit], hlog, hP⟩
  · refine Or.inl ⟨hi, ?_⟩
    obtain ⟨s1, seg, he, hlog, hP⟩ := v0_main_init_exits env _ hi
    refine ⟨s1, by rw [v0_main_eq, he, andThen_exit], ?_⟩
    intro e hm
    rw [hlog] at hm
    simpa [State.init] using hP e (by simpa [State.init] using hm)

end V0

/-! ## Phases of v1 -/

namespace V1

set_option maxRecDepth 1000 in
set_option maxHeartbeats 1000000 in
theorem v1_main_init_spec (env : Env) (s : State) :
    Spec initP (fun _ s1 => s1 = init_state env s ∧ init_ok env s) (¬init_ok env s) s
      (main_init env s) := by
  unfold main_init
  simp -zeta only [exit_bind, pure_bind_prog]
  simp only [bind_apply, pure_apply, andThen_ret, andThen_exit, andThen_ite, exit_apply,
    emit_apply, getState_apply, prog_ite_apply, printf, cuGetErrorString, cuInit,
    cuDeviceGetCount, cuDeviceGet, cuDeviceGetName, cuCtxCreate,
    calls_append, calls_cons, calls_nil, Event.api, ne_eq, ite_not,
    reduceCtorEq, if_false, if_true, add_zero, zero_add]
  simp only [List.append_assoc, singleton_append_step, cons_append_step, nil_append_step]
  simp only [success_eq]
  repeat' refine spec_ite (fun h => ?_) (fun h => ?_)
  all_goals first
    | exact spec_exit _ rfl (by
        simp [SegOK, stopOK, fatal, failed, tolerated, Event.status, Event.api, isReport,
          isPrintf, initP, *]) (by simp [init_ok, *])
    | exact spec_ret _ rfl (by
        simp [SegOK, stopOK, fatal, failed, tolerated, Event.status, Event.api, isReport,
          isPrintf, initP, *]) (by simp [init_state, init_ok, *])

set_option maxRecDepth 1000 in
set_option maxHeartbeats 1000000 in
theorem v1_main_load_spec (env : Env) (s : State) :
    Spec loadP (fun a s1 =>
        a = ((env.sdk.cuvidCreateVideoParser (calls .cuvidCreateVideoParser s.log)).2,
             packet env) ∧
        s1 = load_state env s ∧ load_ok env s)
      (¬load_ok env s) s (main_load env s) := by
  unfold main_load
  simp -zeta only [exit_bind, pure_bind_prog]
  simp only [bind_apply, pure_apply, andThen_ret, andThen_exit, andThen_ite, exit_apply,
    emit_apply, getState_apply, prog_ite_apply, printf, cuGetErrorString,
    cuvidCreateVideoParser, calls_append, calls_cons, calls_nil, Event.api, ne_eq, ite_not,
    reduceCtorEq, if_false, if_true, add_zero, zero_add]
  simp only [List.append_assoc, singleton_append_step, cons_append_step, nil_append_step]
  simp only [success_eq]
  repeat' refine spec_ite (fun h => ?_) (fun h => ?_)
  all_goals first
    | exact spec_exit _ rfl (by
        simp [SegOK, stopOK, fatal, failed, tolerated, Event.status, Event.api, isReport,
          isPrintf, loadP, *]) (by simp_all [load_ok])
    | exact spec_ret _ rfl (by
        simp [SegOK, stopOK, fatal, failed, tolerated, Event.status, Event.api, isReport,
          isPrintf, loadP, *]) (by simp_all [load_state, load_ok, packet])

set_option maxRecDepth 1000 in
set_option maxHeartbeats 1000000 in
theorem v1_main_cleanup_spec (env : Env) (parser : Handle) (s : State) :
    Spec cleanupP (fun _ s1 => s1 = cleanup_state parser s ∧ cleanup_ok env parser s)
      (¬cleanup_ok env parser s) s (main_cleanup env parser s) := by
  unfold main_cleanup
  simp -zeta only [exit_bind, pure_bind_prog]
  simp only [bind_apply, pure_apply, andThen_ret, andThen_exit, andThen_ite, exit_apply,
    emit_apply, getState_apply, modifyState, prog_ite_apply, printf, cuGetErrorString,
    cuCtxDestroy, cuvidDestroyDecoder, cuvidDestroyVideoParser,
    calls_append, calls_cons, calls_nil, Event.api, ne_eq, ite_not,
    reduceCtorEq, if_false, if_true, add_zero, zero_add]
  simp only [List.append_assoc, singleton_append_step, cons_append_step, nil_append_step]
  simp only [success_eq]
  repeat' refine spec_ite (fun h => ?_) (fun h => ?_)
  all_goals first
    | exact spec_exit _ rfl (by
        simp [SegOK, stopOK, fatal, failed, tolerated, Event.status, Event.api, isReport,
          isPrintf, cleanupP, *]) (by simp [cleanup_ok, nullptr, *])
    | exact spec_ret _ rfl (by
        simp [SegOK, stopOK, fatal, failed, tolerated, Event.status, Event.api, isReport,
          isPrintf, cleanupP, *]) (by simp [cleanup_state, cleanup_ok, nullptr, *])
    | exact spec_ret [] (List.append_nil _).symm (by simp [SegOK, stopOK])
        (by simp [cleanup_state, cleanup_ok, nullptr, *])

set_option maxRecDepth 1000 in
set_option maxHeartbeats 1000000 in
theorem v1_parser_sequence_callback_spec (sdk : Sdk) (fmt : CUVIDEOFORMAT) (s : State) :
    Spec (seqP fmt) (fun a s1 => a = 20 ∧ s1 = sequence_state sdk fmt s ∧ sequence_ok sdk s)
      (¬sequence_ok sdk s) s (parser_sequence_callback sdk fmt s) := by
  unfold parser_sequence_callback
  simp -zeta only [exit_bind, pure_bind_prog]
  simp only [bind_apply, pure_apply, andThen_ret, andThen_exit, andThen_ite, exit_apply,
    emit_apply, getState_apply, prog_ite_apply, printf, cuGetErrorString,
    cuvidGetDecoderCaps, cuvidCreateDecoder, cuCtxPushCurrent, cuCtxPopCurrent,
    calls_append, calls_cons, calls_nil, Event.api, ne_eq, ite_not,
    reduceCtorEq, if_false, if_true, add_zero, zero_add]
  simp only [List.append_assoc, singleton_append_step, cons_append_step, nil_append_step]
  simp only [success_eq]
  repeat' refine spec_ite (fun h => ?_) (fun h => ?_)
  all_goals first
    | exact spec_exit _ rfl (by
        simp [SegOK, stopOK, fatal, failed, tolerated, Event.status, Event.api, isReport,
          isPrintf, seqP, *]) (by simp [sequence_ok, nullptr, *])
    | exact spec_ret _ rfl (by
        simp [SegOK, stopOK, fatal, failed, tolerated, Event.status, Event.api, isReport,
          isPrintf, seqP, *]) (by simp [sequence_state, sequence_ok, nullptr, create_info, *])

set_option maxRecDepth 1000 in
set_option maxHeartbeats 1000000 in
theorem v1_parser_decode_picture_callback_spec (sdk : Sdk) (pic : CUVIDPICPARAMS) (s : State) :
    Spec picP (fun a s1 => Rel s s1 ∧ a = 1 ∧ s.decoder ≠ nullptr) (s.decoder = nullptr) s
      (parser_decode_picture_callback sdk pic s) := by
  unfold parser_decode_picture_callback
  simp -zeta only [exit_bind, pure_bind_prog]
  simp only [bind_apply, pure_apply, andThen_ret, andThen_exit, andThen_ite, exit_apply,
    emit_apply, getState_apply, prog_ite_apply, printf, cuvidDecodePicture,
    calls_append, calls_cons, calls_nil, Event.api, ne_eq, ite_not,
    reduceCtorEq, if_false, if_true, add_zero, zero_add]
  simp only [List.append_assoc, singleton_append_step, cons_append_step, nil_append_step]
  simp only [success_eq]
  repeat' refine spec_ite (fun h => ?_) (fun h => ?_)
  all_goals first
    | exact spec_exit _ rfl (by
        simp [SegOK, stopOK, fatal, failed, tolerated, Event.status, Event.api, isReport,
          isPrintf, picP, *]) (by simp_all [nullptr])
    | exact spec_ret _ rfl (by
        simp [SegOK, stopOK, fatal, failed, tolerated, Event.status, Event.api, isReport,
          isPrintf, picP, *]) (by simp_all [Rel, Kept, nullptr])

/-- The decode callback of v1 in closed form. -/
theorem v1_parser_decode_picture_callback_eq (sdk : Sdk) (pic : CUVIDPICPARAMS) (s : State) :
    parser_decode_picture_callback sdk pic s =
      if s.decoder = nullptr then
        .exit EXIT_FAILURE { s with log := s.log ++ [.printf "decoder is nullptr. (exiting)."] }
      else
        .ret 1 { s with log := s.log ++
          (.cuvidDecodePicture s.decoder pic
              (sdk.cuvidDecodePicture (calls .cuvidDecodePicture s.log)) ::
            if sdk.cuvidDecodePicture (calls .cuvidDecodePicture s.log) = CUDA_SUCCESS then []
            else [.printf "Failed to decode the picture."]) } := by
  unfold parser_decode_picture_callback
  simp -zeta only [exit_bind, pure_bind_prog]
  simp only [bind_apply, pure_apply, andThen_ret, andThen_exit, andThen_ite, exit_apply,
    emit_apply, getState_apply, prog_ite_apply, printf, cuvidDecodePicture,
    calls_append, calls_cons, calls_nil, Event.api, ne_eq, ite_not,
    reduceCtorEq, if_false, if_true, add_zero, zero_add]
  simp only [List.append_assoc, singleton_append_step, cons_append_step, nil_append_step]
  simp only [success_eq]
  split_ifs <;> simp_all [nullptr]

/-- The display callback of v1 in closed form: it always returns. -/
theorem v1_parser_display_picture_callback_eq (sdk : Sdk) (disp : CUVIDPARSERDISPINFO)
    (s : State) :
    parser_display_picture_callback sdk disp s =
      .ret (display_value sdk s) { s with log := s.log ++
        (.cuvidMapVideoFrame s.decoder disp.picture_index (vpp disp)
            (sdk.cuvidMapVideoFrame (calls .cuvidMapVideoFrame s.log)).1
            (sdk.cuvidMapVideoFrame (calls .cuvidMapVideoFrame s.log)).2.1
            (u32 (sdk.cuvidMapVideoFrame (calls .cuvidMapVideoFrame s.log)).2.2) ::
          if (sdk.cuvidMapVideoFrame (calls .cuvidMapVideoFrame s.log)).1 = CUDA_SUCCESS then
            .printf "+ mapping: %u succeeded\n" ::
            .cuvidUnmapVideoFrame s.decoder
                (sdk.cuvidMapVideoFrame (calls .cuvidMapVideoFrame s.log)).2.1
                (sdk.cuvidUnmapVideoFrame (calls .cuvidUnmapVideoFrame s.log)) ::
              if sdk.cuvidUnmapVideoFrame (calls .cuvidUnmapVideoFrame s.log) = CUDA_SUCCESS
              then []
              else [.cuGetErrorString
                      (sdk.cuvidUnmapVideoFrame (calls .cuvidUnmapVideoFrame s.log)),
                    .printf "- failed to unmap the video frame: %s, %d\n"]
          else [.cuGetErrorString (sdk.cuvidMapVideoFrame (calls .cuvidMapVideoFrame s.log)).1,
                .printf "- mapping: %u failed: %s\n"]) } := by
  unfold parser_display_picture_callback
  simp -zeta only [exit_bind, pure_bind_prog]
  simp only [bind_apply, pure_apply, andThen_ret, andThen_exit, andThen_ite, exit_apply,
    emit_apply, getState_apply, modifyState, prog_ite_apply, printf, cuGetErrorString,
    cuvidMapVideoFrame, cuvidUnmapVideoFrame,
    calls_append, calls_cons, calls_nil, Event.api, ne_eq, ite_not,
    reduceCtorEq, if_false, if_true, add_zero, zero_add]
  simp only [List.append_assoc, singleton_append_step, cons_append_step, nil_append_step]
  simp only [success_eq]
  split_ifs <;> simp_all [display_value]

set_option maxRecDepth 1000 in
set_option maxHeartbeats 1000000 in
theorem v1_parser_display_picture_callback_spec (sdk : Sdk) (disp : CUVIDPARSERDISPINFO)
    (s : State) :
    Spec picP (fun a s1 => Rel s s1 ∧ a = display_value sdk s) False s
      (parser_display_picture_callback sdk disp s) := by
  rw [v1_parser_display_picture_callback_eq]
  refine spec_ret _ rfl ?_ ⟨⟨⟨rfl, rfl⟩, rfl⟩, rfl⟩
  split_ifs <;>
    simp [SegOK, stopOK, fatal, failed, tolerated, Event.status, Event.api, isReport,
      isPrintf, picP, *]

theorem v1_seqP_le_seqAnyP (fmt : CUVIDEOFORMAT) (e : Event) (h : seqP fmt e = true) :
    seqAnyP e = true := by
  cases e <;> simp_all [seqP, seqAnyP]

theorem v1_sequence_state_kept (sdk : Sdk) (fmt : CUVIDEOFORMAT) (s : State) :
    Kept s (sequence_state sdk fmt s) := ⟨rfl, rfl⟩

/-- The callbacks of one parse call; with `seq = false` the script has no sequence callback
and no decoder is created. -/
theorem v1_callbacks_spec (sdk : Sdk) (seq : Bool) (script : List ParserCallback)
    (hseq : seq = false → ∀ fmt, ParserCallback.sequence fmt ∉ script) (s : State) :
    Spec (cbP seq) (fun _ s1 => Kept s s1) True s (run_callbacks (callbacks sdk) script s) :=
  run_callbacks_spec Kept kept_refl kept_trans (callbacks sdk) script
    (fun fmt hm s => by
      cases seq with
      | false => exact absurd hm (hseq rfl fmt)
      | true =>
        exact Spec.mono (v1_parser_sequence_callback_spec sdk fmt s)
          (fun e h => by simp [cbP, v1_seqP_le_seqAnyP fmt e h])
          (fun _ _ h => h.2.1 ▸ v1_sequence_state_kept sdk fmt s) (fun _ => trivial))
    (fun pic _ s => Spec.mono (v1_parser_decode_picture_callback_spec sdk pic s)
      (fun e h => by simp [cbP, h]) (fun _ _ h => h.1.1) (fun _ => trivial))
    (fun disp _ s => Spec.mono (v1_parser_display_picture_callback_spec sdk disp s)
      (fun e h => by simp [cbP, h]) (fun _ _ h => h.1.1) (fun _ => trivial)) s

theorem v1_cbP_le_restP (seq : Bool) (e : Event) (h : cbP seq e = true) :
    restP seq e = true := by
  simp [restP, h]

theorem v1_cleanupP_le_restP (seq : Bool) (e : Event) (h : cleanupP e = true) :
    restP seq e = true := by
  simp [restP, h]

theorem v1_restP_le_runP (seq : Bool) (pkt : CUVIDSOURCEDATAPACKET) (e : Event)
    (h : restP seq e = true) : runP seq pkt e = true := by
  simp [runP, h]

/-- The third phase of `main` of v1, seen from the entry of `cuvidParseVideoData`: when it
returns, the callbacks have run from the entry to a state `s3`, the parse call returned
success, a decoder is there and the teardown went through from `s3`. -/
theorem v1_main_run_tail_spec (env : Env) (seq : Bool)
    (hseq : seq = false → ∀ n fmt, ParserCallback.sequence fmt ∉ (env.sdk.cuvidParseVideoData n).1)
    (parser : Handle) (pkt : CUVIDSOURCEDATAPACKET) (s : State) :
    Spec (restP seq)
      (fun a s1 => a = 0 ∧ ∃ s3 seg,
        s3.log = (s.log ++ [.cuvidParseVideoData parser pkt]) ++ seg ∧
        (∀ e ∈ seg, cbP seq e = true) ∧ Kept s s3 ∧ s3.decoder ≠ nullptr ∧
        s1 = cleanup_state parser
          { s3 with log := s3.log ++ [.cuvidParseVideoData_returned CUDA_SUCCESS] })
      True { s with log := s.log ++ [.cuvidParseVideoData parser pkt] }
      (main_run env parser pkt s) := by
  unfold main_run
  simp -zeta only [exit_bind, pure_bind_prog]
  simp only [bind_apply, cuvidParseVideoData, emit_apply, andThen_ret, pure_apply,
    andThen_assoc]
  refine Spec.andThen (Spec.mono (Spec.with_log
    (v1_callbacks_spec env.sdk seq _ (fun h => hseq h _) _))
    (v1_cbP_le_restP seq) (fun _ _ h => h) id) (fun _ s3 h3 => ?_)
  obtain ⟨hk, seg, hl, hP⟩ := h3
  simp only [prog_ite_apply, bind_apply, emit_apply, andThen_ret, andThen_exit, exit_apply,
    pure_apply, printf, cuGetErrorString, getState_apply, ne_eq, ite_not, andThen_ite,
    List.append_assoc, singleton_append_step, cons_append_step, nil_append_step]
  simp only [success_eq]
  refine spec_ite (fun h => ?_) (fun h => ?_)
  · refine spec_ite (fun h2 => ?_) (fun h2 => ?_)
    · exact spec_exit _ rfl (by
        simp [SegOK, stopOK, fatal, failed, tolerated, Event.status, Event.api, isReport,
          isPrintf, restP, cbP, picP, h]) trivial
    · refine spec_after_emit (.cuvidParseVideoData_returned
          (env.sdk.cuvidParseVideoData (calls .cuvidParseVideoData s.log)).2) _
        (by simp [SegOK, stopOK, fatal, failed, Event.status, restP, Event.api, h]) ?_
      refine Spec.andThen (Spec.mono (v1_main_cleanup_spec env parser _)
        (v1_cleanupP_le_restP seq) (fun _ _ h => h) (fun _ => trivial)) (fun _ s4 h4 => ?_)
      refine spec_ret [] (by simp) (by simp [SegOK, stopOK]) ⟨rfl, s3, seg, ?_, hP, hk, ?_, ?_⟩
      · simpa using hl
      · simpa [nullptr, eq_comm] using h2
      · rw [h4.1, h]
  · exact spec_exit _ rfl (by
      simp [SegOK, stopOK, fatal, failed, tolerated, Event.status, Event.api, isReport,
        isPrintf, restP, cbP, picP, cleanupP, h]) trivial

theorem v1_main_run_spec (env : Env) (seq : Bool)
    (hseq : seq = false → ∀ n fmt, ParserCallback.sequence fmt ∉ (env.sdk.cuvidParseVideoData n).1)
    (parser : Handle) (pkt : CUVIDSOURCEDATAPACKET) (s : State) :
    Spec (runP seq pkt) (fun a _ => a = 0) True s (main_run env parser pkt s) :=
  spec_after_emit (.cuvidParseVideoData parser pkt) s
    (by simp [SegOK, stopOK, fatal, failed, Event.status, runP])
    (Spec.mono (v1_main_run_tail_spec env seq hseq parser pkt s) (v1_restP_le_runP seq pkt)
      (fun _ _ h => h.1) id)

theorem v1_main_eq (env : Env) :
    main env = ((main_init env (State.init env)).andThen fun _ s1 =>
      (main_load env s1).andThen fun a s2 => main_run env a.1 a.2 s2) := rfl

theorem v1_initP_le_mainP (seq : Bool) (env : Env) (e : Event) (h : initP e = true) :
    mainP seq env e = true := by
  simp [mainP, h]

theorem v1_loadP_le_mainP (seq : Bool) (env : Env) (e : Event) (h : loadP e = true) :
    mainP seq env e = true := by
  simp [mainP, h]

theorem v1_runP_le_mainP (seq : Bool) (env : Env) (e : Event)
    (h : runP seq (packet env) e = true) : mainP seq env e = true := by
  simp [mainP, h]

/-- The whole run of v1: its log obeys the discipline, `main` can only return 0 and only with
the input file open. -/
theorem v1_main_spec (env : Env) (seq : Bool)
    (hseq : seq = false →
      ∀ n fmt, ParserCallback.sequence fmt ∉ (env.sdk.cuvidParseVideoData n).1) :
    Spec (mainP seq env) (fun a _ => a = 0 ∧ env.ifs_is_open = true) True (State.init env)
      (main env) := by
  rw [v1_main_eq]
  refine Spec.andThen (Spec.mono (v1_main_init_spec env _) (v1_initP_le_mainP seq env)
    (fun _ _ h => h) (fun _ => trivial)) (fun _ s1 _ => ?_)
  refine Spec.andThen (Spec.mono (v1_main_load_spec env s1) (v1_loadP_le_mainP seq env)
    (fun _ _ h => h) (fun _ => trivial)) (fun a s2 h2 => ?_)
  obtain ⟨ha, -, -, hopen⟩ := h2
  subst ha
  exact Spec.mono (v1_main_run_spec env seq hseq _ _ s2) (v1_runP_le_mainP seq env)
    (fun _ _ h => ⟨h, hopen⟩) id

/-! ### The phases of v1 when every call succeeds -/

theorem v1_main_init_of_ok (env : Env) (s : State) (h : init_ok env s) :
    main_init env s = .ret () (init_state env s) := by
  obtain ⟨a, s1, he, hs, -⟩ := (v1_main_init_spec env s).ret_of_not (not_not.mpr h)
  rw [he, hs]

theorem v1_main_load_of_ok (env : Env) (s : State) (h : load_ok env s) :
    main_load env s =
      .ret ((env.sdk.cuvidCreateVideoParser (calls .cuvidCreateVideoParser s.log)).2, packet env)
        (load_state env s) := by
  obtain ⟨a, s1, he, ha, hs, -⟩ := (v1_main_load_spec env s).ret_of_not (not_not.mpr h)
  rw [he, hs, ha]

theorem v1_main_cleanup_of_ok (env : Env) (parser : Handle) (s : State)
    (h : cleanup_ok env parser s) :
    main_cleanup env parser s = .ret () (cleanup_state parser s) := by
  obtain ⟨a, s1, he, hs, -⟩ := (v1_main_cleanup_spec env parser s).ret_of_not (not_not.mpr h)
  rw [he, hs]

theorem v1_parser_sequence_callback_of_ok (sdk : Sdk) (fmt : CUVIDEOFORMAT) (s : State)
    (h : sequence_ok sdk s) :
    parser_sequence_callback sdk fmt s = .ret 20 (sequence_state sdk fmt s) := by
  obtain ⟨a, s1, he, ha, hs, -⟩ :=
    (v1_parser_sequence_callback_spec sdk fmt s).ret_of_not (not_not.mpr h)
  rw [he, hs, ha]

/-- A phase that does not go through exits: the first phase. -/
theorem v1_main_init_exits (env : Env) (s : State) (h : ¬init_ok env s) :
    ∃ s1 seg, main_init env s = .exit EXIT_FAILURE s1 ∧ s1.log = s.log ++ seg ∧
      ∀ e ∈ seg, initP e = true := by
  have hs := v1_main_init_spec env s
  obtain ⟨seg, hl, -, hP⟩ := hs.log_eq
  cases ho : main_init env s with
  | ret a s1 => rw [ho] at hs; exact absurd hs.2.2 h
  | exit c s1 =>
    rw [ho] at hs hl
    exact ⟨s1, seg, by rw [hs.2.1], hl, hP⟩

theorem v1_main_load_exits (env : Env) (s : State) (h : ¬load_ok env s) :
    ∃ s1 seg, main_load env s = .exit EXIT_FAILURE s1 ∧ s1.log = s.log ++ seg ∧
      ∀ e ∈ seg, loadP e = true := by
  have hs := v1_main_load_spec env s
  obtain ⟨seg, hl, -, hP⟩ := hs.log_eq
  cases ho : main_load env s with
  | ret a s1 => rw [ho] at hs; exact absurd hs.2.2.2 h
  | exit c s1 =>
    rw [ho] at hs hl
    exact ⟨s1, seg, by rw [hs.2.1], hl, hP⟩

/-- The handle of the parser `main` creates. -/
theorem v1_parser_handle (env : Env) :
    (env.sdk.cuvidCreateVideoParser
      (calls .cuvidCreateVideoParser (init_state env (State.init env)).log)).2 =
    (env.sdk.cuvidCreateVideoParser 0).2 := by
  simp [init_state, State.init, calls_cons, calls_nil, Event.api]

/-- The three ways a run of v1 goes: the first phase exits, the second phase exits, or the
packet is given to the parser. -/
theorem v1_main_cases (env : Env) :
    (¬init_ok env (State.init env) ∧
      ∃ s1, main env = .exit EXIT_FAILURE s1 ∧ ∀ e ∈ s1.log, initP e = true) ∨
    (init_ok env (State.init env) ∧ ¬load_ok env (init_state env (State.init env)) ∧
      ∃ s1 seg, main env = .exit EXIT_FAILURE s1 ∧
        s1.log = (init_state env (State.init env)).log ++ seg ∧ ∀ e ∈ seg, loadP e = true) ∨
    (init_ok env (State.init env) ∧ load_ok env (init_state env (State.init env)) ∧
      main env = main_run env (env.sdk.cuvidCreateVideoParser 0).2 (packet env)
        (load_state env (init_state env (State.init env)))) := by
  by_cases hi : init_ok env (State.init env)
  · by_cases hl : load_ok env (init_state env (State.init env))
    · refine Or.inr (Or.inr ⟨hi, hl, ?_⟩)
      rw [v1_main_eq, v1_main_init_of_ok env _ hi, andThen_ret, v1_main_load_of_ok env _ hl,
        andThen_ret, v1_parser_handle]
    · refine Or.inr (Or.inl ⟨hi, hl, ?_⟩)
      obtain ⟨s1, seg, he, hlog, hP⟩ := v1_main_load_exits env _ hl
      exact ⟨s1, seg, by rw [v1_main_eq, v1_main_init_of_ok env _ hi, andThen_ret, he,
        andThen_exit], hlog, hP⟩
  · refine Or.inl ⟨hi, ?_⟩
    obtain ⟨s1, seg, he, hlog, hP⟩ := v1_main_init_exits env _ hi
    refine ⟨s1, by rw [v1_main_eq, he, andThen_exit], ?_⟩
    intro e hm
    rw [hlog] at hm
    simpa [State.init] using hP e (by simpa [State.init] using hm)

end V1

/-! ## Phases of v2 -/

namespace V2

set_option maxRecDepth 1000 in
set_option maxHeartbeats 1000000 in
theorem v2_main_init_spec (env : Env) (s : State) :
    Spec initP (fun _ s1 => s1 = init_state env s ∧ init_ok env s) (¬init_ok env s) s
      (main_init env s) := by
  unfold main_init
  simp -zeta only [exit_bind, pure_bind_prog]
  simp only [bind_apply, pure_apply, andThen_ret, andThen_exit, andThen_ite, exit_apply,
    emit_apply, getState_apply, modifyState, prog_ite_apply, printf, cuGetErrorString, cuInit,
    cuDeviceGetCount, cuDeviceGet, cuDeviceGetName, cuCtxCreate, Bool.not_eq_true,
    calls_append, calls_cons, calls_nil, Event.api, ne_eq, ite_not,
    reduceCtorEq, if_false, if_true, add_zero, zero_add]
  simp only [List.append_assoc, singleton_append_step, cons_append_step, nil_append_step]
  simp only [success_eq]
  repeat' refine spec_ite (fun h => ?_) (fun h => ?_)
  all_goals first
    | exact spec_exit _ rfl (by
        simp [SegOK, stopOK, fatal, failed, tolerated, Event.status, Event.api, isReport,
          isPrintf, initP, *]) (by simp_all [init_ok])
    | exact spec_ret _ rfl (by
        simp [SegOK, stopOK, fatal, failed, tolerated, Event.status, Event.api, isReport,
          isPrintf, initP, *]) (by simp_all [init_state, init_ok])

set_option maxRecDepth 1000 in
set_option maxHeartbeats 1000000 in
theorem v2_main_load_spec (env : Env) (s : State) :
    Spec loadP (fun a s1 =>
        a = ((env.sdk.cuvidCreateVideoParser (calls .cuvidCreateVideoParser s.log)).2,
             packet env) ∧
        s1 = load_state env s ∧ load_ok env s)
      (¬load_ok env s) s (main_load env s) := by
  unfold main_load
  simp -zeta only [exit_bind, pure_bind_prog]
  simp only [bind_apply, pure_apply, andThen_ret, andThen_exit, andThen_ite, exit_apply,
    emit_apply, getState_apply, prog_ite_apply, printf, cuGetErrorString,
    cuvidCreateVideoParser, calls_append, calls_cons, calls_nil, Event.api, ne_eq, ite_not,
    reduceCtorEq, if_false, if_true, add_zero, zero_add]
  simp only [List.append_assoc, singleton_append_step, cons_append_step, nil_append_step]
  simp only [success_eq]
  repeat' refine spec_ite (fun h => ?_) (fun h => ?_)
  all_goals first
    | exact spec_exit _ rfl (by
        simp [SegOK, stopOK, fatal, failed, tolerated, Event.status, Event.api, isReport,
          isPrintf, loadP, *]) (by simp_all [load_ok])
    | exact spec_ret _ rfl (by
        simp [SegOK, stopOK, fatal, failed, tolerated, Event.status, Event.api, isReport,
          isPrintf, loadP, *]) (by simp_all [load_state, load_ok, packet])

set_option maxRecDepth 1000 in
set_option maxHeartbeats 1000000 in
theorem v2_main_cleanup_spec (env : Env) (parser : Handle) (s : State) :
    Spec cleanupP (fun _ s1 => s1 = cleanup_state parser s ∧ cleanup_ok env parser s)
      (¬cleanup_ok env parser s) s (main_cleanup env parser s) := by
  unfold main_cleanup
  simp -zeta only [exit_bind, pure_bind_prog]
  simp only [bind_apply, pure_apply, andThen_ret, andThen_exit, andThen_ite, exit_apply,
    emit_apply, getState_apply, modifyState, prog_ite_apply, printf, cuGetErrorString,
    cuCtxDestroy, cuvidDestroyDecoder, cuvidDestroyVideoParser,
    calls_append, calls_cons, calls_nil, Event.api, ne_eq, ite_not,
    reduceCtorEq, if_false, if_true, add_zero, zero_add]
  simp only [List.append_assoc, singleton_append_step, cons_append_step, nil_append_step]
  simp only [success_eq]
  repeat' refine spec_ite (fun h => ?_) (fun h => ?_)
  all_goals first
    | exact spec_exit _ rfl (by
        simp [SegOK, stopOK, fatal, failed, tolerated, Event.status, Event.api, isReport,
          isPrintf, cleanupP, *]) (by simp [cleanup_ok, nullptr, *])
    | exact spec_ret _ rfl (by
        simp [SegOK, stopOK, fatal, failed, tolerated, Event.status, Event.api, isReport,
          isPrintf, cleanupP, *]) (by simp [cleanup_state, cleanup_ok, nullptr, *])

set_option maxRecDepth 1000 in
set_option maxHeartbeats 1000000 in
theorem v2_parser_sequence_callback_spec (sdk : Sdk) (fmt : CUVIDEOFORMAT) (s : State) :
    Spec (seqP fmt) (fun a s1 => a = 0 ∧ s1 = sequence_state sdk fmt s ∧ sequence_ok sdk s)
      (¬sequence_ok sdk s) s (parser_sequence_callback sdk fmt s) := by
  unfold parser_sequence_callback
  simp -zeta only [exit_bind, pure_bind_prog]
  simp only [bind_apply, pure_apply, andThen_ret, andThen_exit, andThen_ite, exit_apply,
    emit_apply, getState_apply, modifyState, prog_ite_apply, printf, cuGetErrorString,
    cuvidGetDecoderCaps, cuvidCreateDecoder, cuCtxPushCurrent, cuCtxPopCurrent,
    calls_append, calls_cons, calls_nil, Event.api, ne_eq, ite_not,
    reduceCtorEq, if_false, if_true, add_zero, zero_add]
  simp only [List.append_assoc, singleton_append_step, cons_append_step, nil_append_step]
  simp only [success_eq]
  repeat' refine spec_ite (fun h => ?_) (fun h => ?_)
  all_goals first
    | exact spec_exit _ rfl (by
        simp [SegOK, stopOK, fatal, failed, tolerated, Event.status, Event.api, isReport,
          isPrintf, seqP, *]) (by simp [sequence_ok, nullptr, *])
    | exact spec_ret _ rfl (by
        simp [SegOK, stopOK, fatal, failed, tolerated, Event.status, Event.api, isReport,
          isPrintf, seqP, *]) (by simp [sequence_state, sequence_ok, nullptr, create_info, *])

set_option maxRecDepth 1000 in
set_option maxHeartbeats 1000000 in
theorem v2_parser_decode_picture_callback_spec (sdk : Sdk) (pic : CUVIDPICPARAMS) (s : State) :
    Spec picP (fun a s1 => Rel s s1 ∧ a = 1 ∧ s.decoder ≠ nullptr) (s.decoder = nullptr) s
      (parser_decode_picture_callback sdk pic s) := by
  unfold parser_decode_picture_callback
  simp -zeta only [exit_bind, pure_bind_prog]
  simp only [bind_apply, pure_apply, andThen_ret, andThen_exit, andThen_ite, exit_apply,
    emit_apply, getState_apply, prog_ite_apply, printf, cuvidDecodePicture,
    calls_append, calls_cons, calls_nil, Event.api, ne_eq, ite_not,
    reduceCtorEq, if_false, if_true, add_zero, zero_add]
  simp only [List.append_assoc, singleton_append_step, cons_append_step, nil_append_step]
  simp only [success_eq]
  repeat' refine spec_ite (fun h => ?_) (fun h => ?_)
  all_goals first
    | exact spec_exit _ rfl (by
        simp [SegOK, stopOK, fatal, failed, tolerated, Event.status, Event.api, isReport,
          isPrintf, picP, *]) (by simp_all [nullptr])
    | exact spec_ret _ rfl (by
        simp [SegOK, stopOK, fatal, failed, tolerated, Event.status, Event.api, isReport,
          isPrintf, picP, *]) (by simp_all [Rel, Kept, nullptr])

/-- The decode callback of v2 in closed form. -/
theorem v2_parser_decode_picture_callback_eq (sdk : Sdk) (pic : CUVIDPICPARAMS) (s : State) :
    parser_decode_picture_callback sdk pic s =
      if s.decoder = nullptr then
        .exit EXIT_FAILURE { s with log := s.log ++ [.printf "decoder is nullptr. (exiting)."] }
      else
        .ret 1 { s with log := s.log ++
          (.cuvidDecodePicture s.decoder pic
              (sdk.cuvidDecodePicture (calls .cuvidDecodePicture s.log)) ::
            if sdk.cuvidDecodePicture (calls .cuvidDecodePicture s.log) = CUDA_SUCCESS then []
            else [.printf "Failed to decode the picture."]) } := by
  unfold parser_decode_picture_callback
  simp -zeta only [exit_bind, pure_bind_prog]
  simp only [bind_apply, pure_apply, andThen_ret, andThen_exit, andThen_ite, exit_apply,
    emit_apply, getState_apply, prog_ite_apply, printf, cuvidDecodePicture,
    calls_append, calls_cons, calls_nil, Event.api, ne_eq, ite_not,
    reduceCtorEq, if_false, if_true, add_zero, zero_add]
  simp only [List.append_assoc, singleton_append_step, cons_append_step, nil_append_step]
  simp only [success_eq]
  split_ifs <;> simp_all [nullptr]

/-- The first loop body repeated: the rows are appended, nothing else changes. -/
theorem v2_for_j_write (off : Int → Nat) (w : Int) : ∀ (js : List Nat) (s : State),
    for_j (fun j => ofs_write (off j) w) js s =
      .ret () { s with out_nv12 :=
        if s.ofs_is_open then s.out_nv12 ++ js.flatMap (fun j => row s.host (off j) w.toNat)
        else s.out_nv12 }
  | [], s => by
    simp only [for_j, pure_apply, List.flatMap_nil, List.append_nil, ite_self]
  | j :: js, s => by
    simp only [for_j, bind_apply, ofs_write, andThen_ret]
    rw [v2_for_j_write off w js]
    by_cases h : s.ofs_is_open = true <;> simp [h, row, List.flatMap_cons]

theorem v2_host_of_eq (sdk : Sdk) (s : State) :
    host_of sdk s = fun i =>
      if i < u64 (nbytes_of sdk s) then (sdk.cuMemcpyDtoH (calls .cuMemcpyDtoH s.log)).2 i
      else s.host i := rfl

set_option maxRecDepth 2000 in
set_option maxHeartbeats 2000000 in
theorem v2_parser_display_picture_callback_spec (sdk : Sdk) (disp : CUVIDPARSERDISPINFO)
    (s : State) :
    Spec picP (fun a s1 => Rel s s1 ∧ a = display_value sdk s ∧
        ((sdk.cuvidMapVideoFrame (calls .cuvidMapVideoFrame s.log)).1 = CUDA_SUCCESS →
          display_ok sdk s ∧ s1.out_nv12 = s.out_nv12 ++ written sdk s ∧
          s1.host = host_of sdk s ∧ s1.yuv_buffer = buffer_of sdk s ∧
          s1.yuv_nbytes_needed = nbytes_of sdk s) ∧
        ((sdk.cuvidMapVideoFrame (calls .cuvidMapVideoFrame s.log)).1 ≠ CUDA_SUCCESS →
          s1.out_nv12 = s.out_nv12 ∧ s1.host = s.host ∧ s1.yuv_buffer = s.yuv_buffer ∧
          s1.yuv_nbytes_needed = s.yuv_nbytes_needed))
      ((sdk.cuvidMapVideoFrame (calls .cuvidMapVideoFrame s.log)).1 = CUDA_SUCCESS ∧
        ¬display_ok sdk s) s (parser_display_picture_callback sdk disp s) := by
  unfold parser_display_picture_callback
  simp -zeta only [exit_bind, pure_bind_prog]
  simp only [bind_apply, pure_apply, andThen_ret, andThen_exit, andThen_ite, exit_apply,
    emit_apply, getState_apply, modifyState, prog_ite_apply, printf, cuGetErrorString,
    cuvidMapVideoFrame, cuvidUnmapVideoFrame, cuMemAllocHost, cuMemcpyDtoH, v2_for_j_write,
    calls_append, calls_cons, calls_nil, Event.api, ne_eq, ite_not,
    reduceCtorEq, if_false, if_true, add_zero, zero_add]
  simp only [List.append_assoc, singleton_append_step, cons_append_step, nil_append_step]
  simp only [success_eq, zero_eq_int]
  repeat' refine spec_ite (fun h => ?_) (fun h => ?_)
  all_goals first
    | exact spec_exit _ rfl (by
        simp [SegOK, stopOK, fatal, failed, tolerated, Event.status, Event.api, isReport,
          isPrintf, picP, *])
        (by
          simp only [display_ok, buffer_of, nbytes_of, pitch_of, nullptr, CUDA_SUCCESS] at *
          simp_all
          try tauto)
    | exact spec_ret _ rfl (by
        simp [SegOK, stopOK, fatal, failed, tolerated, Event.status, Event.api, isReport,
          isPrintf, picP, *])
        (by simp_all [Rel, Kept, display_value, written, v2_host_of_eq, nbytes_of, pitch_of,
          nullptr, row, display_ok, buffer_of])

theorem v2_seqP_le_seqAnyP (fmt : CUVIDEOFORMAT) (e : Event) (h : seqP fmt e = true) :
    seqAnyP e = true := by
  cases e <;> simp_all [seqP, seqAnyP]

theorem v2_sequence_state_kept (sdk : Sdk) (fmt : CUVIDEOFORMAT) (s : State) :
    Kept s (sequence_state sdk fmt s) := ⟨rfl, rfl⟩

/-- The callbacks of one parse call; with `seq = false` the script has no sequence callback
and no decoder is created. -/
theorem v2_callbacks_spec (sdk : Sdk) (seq : Bool) (script : List ParserCallback)
    (hseq : seq = false → ∀ fmt, ParserCallback.sequence fmt ∉ script) (s : State) :
    Spec (cbP seq) (fun _ s1 => Kept s s1) True s (run_callbacks (callbacks sdk) script s) :=
  run_callbacks_spec Kept kept_refl kept_trans (callbacks sdk) script
    (fun fmt hm s => by
      cases seq with
      | false => exact absurd hm (hseq rfl fmt)
      | true =>
        exact Spec.mono (v2_parser_sequence_callback_spec sdk fmt s)
          (fun e h => by simp [cbP, v2_seqP_le_seqAnyP fmt e h])
          (fun _ _ h => h.2.1 ▸ v2_sequence_state_kept sdk fmt s) (fun _ => trivial))
    (fun pic _ s => Spec.mono (v2_parser_decode_picture_callback_spec sdk pic s)
      (fun e h => by simp [cbP, h]) (fun _ _ h => h.1.1) (fun _ => trivial))
    (fun disp _ s => Spec.mono (v2_parser_display_picture_callback_spec sdk disp s)
      (fun e h => by simp [cbP, h]) (fun _ _ h => h.1.1) (fun _ => trivial)) s

theorem v2_cbP_le_restP (seq : Bool) (e : Event) (h : cbP seq e = true) :
    restP seq e = true := by
  simp [restP, h]

theorem v2_cleanupP_le_restP (seq : Bool) (e : Event) (h : cleanupP e = true) :
    restP seq e = true := by
  simp [restP, h]

theorem v2_restP_le_runP (seq : Bool) (pkt : CUVIDSOURCEDATAPACKET) (e : Event)
    (h : restP seq e = true) : runP seq pkt e = true := by
  simp [runP, h]

/-- The third phase of `main` of v2, seen from the entry of `cuvidParseVideoData`: when it
returns, the callbacks have run from the entry to a state `s3`, the parse call returned
success and the teardown went through from `s3`. -/
theorem v2_main_run_tail_spec (env : Env) (seq : Bool)
    (hseq : seq = false → ∀ n fmt, ParserCallback.sequence fmt ∉ (env.sdk.cuvidParseVideoData n).1)
    (parser : Handle) (pkt : CUVIDSOURCEDATAPACKET) (s : State) :
    Spec (restP seq)
      (fun a s1 => a = 0 ∧ ∃ s3 seg,
        s3.log = (s.log ++ [.cuvidParseVideoData parser pkt]) ++ seg ∧
        (∀ e ∈ seg, cbP seq e = true) ∧ Kept s s3 ∧
        s1 = cleanup_state parser
          { s3 with log := s3.log ++ [.cuvidParseVideoData_returned CUDA_SUCCESS] })
      True { s with log := s.log ++ [.cuvidParseVideoData parser pkt] }
      (main_run env parser pkt s) := by
  unfold main_run
  simp -zeta only [exit_bind, pure_bind_prog]
  simp only [bind_apply, cuvidParseVideoData, emit_apply, andThen_ret, pure_apply,
    andThen_assoc]
  refine Spec.andThen (Spec.mono (Spec.with_log
    (v2_callbacks_spec env.sdk seq _ (fun h => hseq h _) _))
    (v2_cbP_le_restP seq) (fun _ _ h => h) id) (fun _ s3 h3 => ?_)
  obtain ⟨hk, seg, hl, hP⟩ := h3
  simp only [prog_ite_apply, bind_apply, emit_apply, andThen_ret, andThen_exit, exit_apply,
    pure_apply, printf, cuGetErrorString, getState_apply, ne_eq, ite_not, andThen_ite,
    List.append_assoc, singleton_append_step, cons_append_step, nil_append_step]
  simp only [success_eq]
  refine spec_ite (fun h => ?_) (fun h => ?_)
  · refine spec_after_emit (.cuvidParseVideoData_returned
        (env.sdk.cuvidParseVideoData (calls .cuvidParseVideoData s.log)).2) _
      (by simp [SegOK, stopOK, fatal, failed, Event.status, restP, Event.api, h]) ?_
    refine Spec.andThen (Spec.mono (v2_main_cleanup_spec env parser _)
      (v2_cleanupP_le_restP seq) (fun _ _ h => h) (fun _ => trivial)) (fun _ s4 h4 => ?_)
    refine spec_ret [] (by simp) (by simp [SegOK, stopOK]) ⟨rfl, s3, seg, ?_, hP, hk, ?_⟩
    · simpa using hl
    · rw [h4.1, h]
  · exact spec_exit _ rfl (by
      simp [SegOK, stopOK, fatal, failed, tolerated, Event.status, Event.api, isReport,
        isPrintf, restP, cbP, picP, cleanupP, h]) trivial

theorem v2_main_run_spec (env : Env) (seq : Bool)
    (hseq : seq = false → ∀ n fmt, ParserCallback.sequence fmt ∉ (env.sdk.cuvidParseVideoData n).1)
    (parser : Handle) (pkt : CUVIDSOURCEDATAPACKET) (s : State) :
    Spec (runP seq pkt) (fun a _ => a = 0) True s (main_run env parser pkt s) :=
  spec_after_emit (.cuvidParseVideoData parser pkt) s
    (by simp [SegOK, stopOK, fatal, failed, Event.status, runP])
    (Spec.mono (v2_main_run_tail_spec env seq hseq parser pkt s) (v2_restP_le_runP seq pkt)
      (fun _ _ h => h.1) id)

theorem v2_main_eq (env : Env) :
    main env = ((main_init env (State.init env)).andThen fun _ s1 =>
      (main_load env s1).andThen fun a s2 => main_run env a.1 a.2 s2) := rfl

theorem v2_initP_le_mainP (seq : Bool) (env : Env) (e : Event) (h : initP e = true) :
    mainP seq env e = true := by
  simp [mainP, h]

theorem v2_loadP_le_mainP (seq : Bool) (env : Env) (e : Event) (h : loadP e = true) :
    mainP seq env e = true := by
  simp [mainP, h]

theorem v2_runP_le_mainP (seq : Bool) (env : Env) (e : Event)
    (h : runP seq (packet env) e = true) : mainP seq env e = true := by
  simp [mainP, h]

/-- The whole run of v2: its log obeys the discipline, `main` can only return 0 and only with
the input file open. -/
theorem v2_main_spec (env : Env) (seq : Bool)
    (hseq : seq = false →
      ∀ n fmt, ParserCallback.sequence fmt ∉ (env.sdk.cuvidParseVideoData n).1) :
    Spec (mainP seq env) (fun a _ => a = 0 ∧ env.ifs_is_open = true) True (State.init env)
      (main env) := by
  rw [v2_main_eq]
  refine Spec.andThen (Spec.mono (v2_main_init_spec env _) (v2_initP_le_mainP seq env)
    (fun _ _ h => h) (fun _ => trivial)) (fun _ s1 _ => ?_)
  refine Spec.andThen (Spec.mono (v2_main_load_spec env s1) (v2_loadP_le_mainP seq env)
    (fun _ _ h => h) (fun _ => trivial)) (fun a s2 h2 => ?_)
  obtain ⟨ha, -, -, hopen⟩ := h2
  subst ha
  exact Spec.mono (v2_main_run_spec env seq hseq _ _ s2) (v2_runP_le_mainP seq env)
    (fun _ _ h => ⟨h, hopen⟩) id

/-! ### The phases of v2 when every call succeeds -/

theorem v2_main_init_of_ok (env : Env) (s : State) (h : init_ok env s) :
    main_init env s = .ret () (init_state env s) := by
  obtain ⟨a, s1, he, hs, -⟩ := (v2_main_init_spec env s).ret_of_not (not_not.mpr h)
  rw [he, hs]

theorem v2_main_load_of_ok (env : Env) (s : State) (h : load_ok env s) :
    main_load env s =
      .ret ((env.sdk.cuvidCreateVideoParser (calls .cuvidCreateVideoParser s.log)).2, packet env)
        (load_state env s) := by
  obtain ⟨a, s1, he, ha, hs, -⟩ := (v2_main_load_spec env s).ret_of_not (not_not.mpr h)
  rw [he, hs, ha]

theorem v2_main_cleanup_of_ok (env : Env) (parser : Handle) (s : State)
    (h : cleanup_ok env parser s) :
    main_cleanup env parser s = .ret () (cleanup_state parser s) := by
  obtain ⟨a, s1, he, hs, -⟩ := (v2_main_cleanup_spec env parser s).ret_of_not (not_not.mpr h)
  rw [he, hs]

theorem v2_parser_sequence_callback_of_ok (sdk : Sdk) (fmt : CUVIDEOFORMAT) (s : State)
    (h : sequence_ok sdk s) :
    parser_sequence_callback sdk fmt s = .ret 0 (sequence_state sdk fmt s) := by
  obtain ⟨a, s1, he, ha, hs, -⟩ :=
    (v2_parser_sequence_callback_spec sdk fmt s).ret_of_not (not_not.mpr h)
  rw [he, hs, ha]

/-- A phase that does not go through exits: the first phase. -/
theorem v2_main_init_exits (env : Env) (s : State) (h : ¬init_ok env s) :
    ∃ s1 seg, main_init env s = .exit EXIT_FAILURE s1 ∧ s1.log = s.log ++ seg ∧
      ∀ e ∈ seg, initP e = true := by
  have hs := v2_main_init_spec env s
  obtain ⟨seg, hl, -, hP⟩ := hs.log_eq
  cases ho : main_init env s with
  | ret a s1 => rw [ho] at hs; exact absurd hs.2.2 h
  | exit c s1 =>
    rw [ho] at hs hl
    exact ⟨s1, seg, by rw [hs.2.1], hl, hP⟩

theorem v2_main_load_exits (env : Env) (s : State) (h : ¬load_ok env s) :
    ∃ s1 seg, main_load env s = .exit EXIT_FAILURE s1 ∧ s1.log = s.log ++ seg ∧
      ∀ e ∈ seg, loadP e = true := by
  have hs := v2_main_load_spec env s
  obtain ⟨seg, hl, -, hP⟩ := hs.log_eq
  cases ho : main_load env s with
  | ret a s1 => rw [ho] at hs; exact absurd hs.2.2.2 h
  | exit c s1 =>
    rw [ho] at hs hl
    exact ⟨s1, seg, by rw [hs.2.1], hl, hP⟩

/-- The handle of the parser `main` creates. -/
theorem v2_parser_handle (env : Env) :
    (env.sdk.cuvidCreateVideoParser
      (calls .cuvidCreateVideoParser (init_state env (State.init env)).log)).2 =
    (env.sdk.cuvidCreateVideoParser 0).2 := by
  simp [init_state, State.init, calls_cons, calls_nil, Event.api]

/-- The three ways a run of v2 goes: the first phase exits, the second phase exits, or the
packet is given to the parser. -/
theorem v2_main_cases (env : Env) :
    (¬init_ok env (State.init env) ∧
      ∃ s1, main env = .exit EXIT_FAILURE s1 ∧ ∀ e ∈ s1.log, initP e = true) ∨
    (init_ok env (State.init env) ∧ ¬load_ok env (init_state env (State.init env)) ∧
      ∃ s1 seg, main env = .exit EXIT_FAILURE s1 ∧
        s1.log = (init_state env (State.init env)).log ++ seg ∧ ∀ e ∈ seg, loadP e = true) ∨
    (init_ok env (State.init env) ∧ load_ok env (init_state env (State.init env)) ∧
      main env = main_run env (env.sdk.cuvidCreateVideoParser 0).2 (packet env)
        (load_state env (init_state env (State.init env)))) := by
  by_cases hi : init_ok env (State.init env)
  · by_cases hl : load_ok env (init_state env (State.init env))
    · refine Or.inr (Or.inr ⟨hi, hl, ?_⟩)
      rw [v2_main_eq, v2_main_init_of_ok env _ hi, andThen_ret, v2_main_load_of_ok env _ hl,
        andThen_ret, v2_parser_handle]
    · refine Or.inr (Or.inl ⟨hi, hl, ?_⟩)
      obtain ⟨s1, seg, he, hlog, hP⟩ := v2_main_load_exits env _ hl
      exact ⟨s1, seg, by rw [v2_main_eq, v2_main_init_of_ok env _ hi, andThen_ret, he,
        andThen_exit], hlog, hP⟩
  · refine Or.inl ⟨hi, ?_⟩
    obtain ⟨s1, seg, he, hlog, hP⟩ := v2_main_init_exits env _ hi
    refine ⟨s1, by rw [v2_main_eq, he, andThen_exit], ?_⟩
    intro e hm
    rw [hlog] at hm
    simpa [State.init] using hP e (by simpa [State.init] using hm)

theorem v2_display_frame_ite (sdk : Sdk) (disp : CUVIDPARSERDISPINFO) (s : State) {c : Prop}
    [Decidable c] {a b : Outcome Int} (ha : c → display_frame sdk disp s a)
    (hb : ¬c → display_frame sdk disp s b) :
    display_frame sdk disp s (if c then a else b) := by
  split
  · exact ha ‹_›
  · exact hb ‹_›

set_option maxRecDepth 2000 in
set_option maxHeartbeats 4000000 in
/-- The display callback of v2, whichever way it ends. -/
theorem v2_parser_display_picture_callback_frame (sdk : Sdk) (disp : CUVIDPARSERDISPINFO)
    (s : State) : display_frame sdk disp s (parser_display_picture_callback sdk disp s) := by
  unfold parser_display_picture_callback
  simp -zeta only [exit_bind, pure_bind_prog]
  simp only [bind_apply, pure_apply, andThen_ret, andThen_exit, andThen_ite, exit_apply,
    emit_apply, getState_apply, modifyState, prog_ite_apply, printf, cuGetErrorString,
    cuvidMapVideoFrame, cuvidUnmapVideoFrame, cuMemAllocHost, cuMemcpyDtoH, v2_for_j_write,
    calls_append, calls_cons, calls_nil, Event.api, ne_eq, ite_not,
    reduceCtorEq, if_false, if_true, add_zero, zero_add]
  simp only [List.append_assoc, singleton_append_step, cons_append_step, nil_append_step]
  simp only [success_eq, zero_eq_int]
  repeat' refine v2_display_frame_ite sdk disp s (fun h => ?_) (fun h => ?_)
  all_goals
    refine ⟨⟨_, rfl, ?_⟩, ?_⟩ <;>
    simp_all [Outcome.state, Outcome.exitCode, calls_cons, calls_nil, Event.api, pitch_of,
      nullptr, CUDA_SUCCESS]

end V2

/-! ## Helpers on outcomes and logs -/

theorem andThen_eq_ret {α β : Type} {o : Outcome α} {f : α → Prog β} {b : β} {s2 : State}
    (h : o.andThen f = .ret b s2) : ∃ a s1, o = .ret a s1 ∧ f a s1 = .ret b s2 := by
  cases o with
  | ret a s1 => exact ⟨a, s1, rfl, h⟩
  | exit c s1 => simp [Outcome.andThen] at h

theorem Spec.of_ret {α : Type} {P : Event → Bool} {R : α → State → Prop} {E : Prop}
    {s : State} {o : Outcome α} {a : α} {s1 : State} (h : Spec P R E s o)
    (ho : o = .ret a s1) : R a s1 := by
  subst ho
  exact h.2

theorem Spec.of_exit {α : Type} {P : Event → Bool} {R : α → State → Prop} {E : Prop}
    {s : State} {o : Outcome α} {c : Int} {s1 : State} (h : Spec P R E s o)
    (ho : o = .exit c s1) : c = EXIT_FAILURE ∧ E := by
  subst ho
  exact h.2

/-- A run that meets `Spec` from an empty log stops at its first fatal call. -/
theorem spec_fail_stop {α : Type} {P : Event → Bool} {R : α → State → Prop} {E : Prop}
    {s0 : State} {o : Outcome α} (hlog : s0.log = []) (h : Spec P R E s0 o)
    (pre : List Event) (e : Event) (post : List Event) (hp : o.state.log = pre ++ e :: post)
    (hf : fatal e = true) :
    o.exitCode = some EXIT_FAILURE ∧ (∀ x ∈ post, isReport x = true) ∧
      ∃ msg, Event.printf msg ∈ post := by
  obtain ⟨seg, hl, hs, -⟩ := h.log_eq
  rw [hlog, List.nil_append] at hl
  rw [hl] at hp
  rw [hp] at hs
  exact stopOK_spec _ pre e post hs hf

/-- A run that meets `Spec` from an empty log and returns made no fatal call, and what it
logged satisfies `P`. -/
theorem spec_clean {α : Type} {P : Event → Bool} {R : α → State → Prop} {E : Prop}
    {s0 : State} {o : Outcome α} (hlog : s0.log = []) (h : Spec P R E s0 o) :
    (o.exitCode = none → ∀ e ∈ o.state.log, fatal e = false) ∧
      ∀ e ∈ o.state.log, P e = true := by
  obtain ⟨seg, hl, hs, hP⟩ := h.log_eq
  rw [hlog, List.nil_append] at hl
  rw [hl]
  refine ⟨fun hn => ?_, hP⟩
  rw [hn] at hs
  exact stopOK_none_clean seg hs

/-- An event that is not in the first part of a log is after it. -/
theorem split_after_prefix {A B pre post : List Event} {e : Event}
    (h : A ++ B = pre ++ e :: post) (hA : e ∉ A) : ∃ pre', pre = A ++ pre' ∧ B = pre' ++ e :: post := by
  rcases List.append_eq_append_iff.mp h with ⟨a', h1, h2⟩ | ⟨c', h1, h2⟩
  · exact ⟨a', h1, h2⟩
  · cases c' with
    | nil => exact ⟨[], by simpa using h1.symm, by simpa using h2.symm⟩
    | cons x c'' =>
      simp only [List.cons_append, List.cons.injEq] at h2
      exact absurd (by rw [h1, h2.1]; simp) hA

theorem calls_pos_of_mem {k : Api} {e : Event} {l : List Event} (he : e ∈ l) (hk : e.api = k) :
    0 < calls k l := by
  simp only [calls, List.countP_pos_iff]
  exact ⟨e, he, by simp [hk]⟩

theorem not_mem_of_calls_zero {k : Api} {e : Event} {l : List Event} (h : calls k l = 0)
    (hk : e.api = k) : e ∉ l := fun he => by
  have := calls_pos_of_mem he hk
  omega

theorem fatal_of_mainChecked (b : Bool) (e : Event) (h : mainChecked b e.api = true)
    (hf : failed e = true) : fatal e = true := by
  cases e <;> simp_all [fatal, tolerated, mainChecked, Event.api]

theorem status_of_mainChecked (b : Bool) (e : Event) (h : mainChecked b e.api = true)
    (hf : fatal e = false) : e.status = some CUDA_SUCCESS := by
  cases e <;> simp_all [fatal, failed, tolerated, mainChecked, Event.api, Event.status]

theorem report_api (x : Event) (h : isReport x = true) :
    x.api = .cuGetErrorString ∨ x.api = .printf := by
  cases x <;> simp_all [isReport, Event.api]

/-- A log made of a part without parse call, one parse call and another part without has
exactly that one parse call. -/
theorem parse_once_shape {L2 seg log : List Event} {h : Handle} {pkt : CUVIDSOURCEDATAPACKET}
    (hlog : log = (L2 ++ [.cuvidParseVideoData h pkt]) ++ seg)
    (h2 : calls .cuvidParseVideoData L2 = 0) (hseg : calls .cuvidParseVideoData seg = 0) :
    calls .cuvidParseVideoData log = 1 ∧
    ∀ h1 pkt1, Event.cuvidParseVideoData h1 pkt1 ∈ log → h1 = h ∧ pkt1 = pkt := by
  subst hlog
  refine ⟨by simp [calls_append, calls_cons, calls_nil, Event.api, h2, hseg], ?_⟩
  intro h1 pkt1 hm
  simp only [List.mem_append, List.mem_singleton] at hm
  rcases hm with (hm | hm) | hm
  · exact absurd hm (not_mem_of_calls_zero h2 rfl)
  · simpa using hm
  · exact absurd hm (not_mem_of_calls_zero hseg rfl)

namespace V0

theorem v0_init_no_parse (l : List Event) (hP : ∀ e ∈ l, initP e = true) :
    calls .cuvidParseVideoData l = 0 :=
  calls_eq_zero _ _ (fun e he => by
    have := hP e he
    cases e <;> first
      | (simp only [Event.api, ne_eq, reduceCtorEq, not_false_eq_true]; done)
      | simp [initP] at this)

theorem v0_load_no_parse (l : List Event) (hP : ∀ e ∈ l, loadP e = true) :
    calls .cuvidParseVideoData l = 0 :=
  calls_eq_zero _ _ (fun e he => by
    have := hP e he
    cases e <;> first
      | (simp only [Event.api, ne_eq, reduceCtorEq, not_false_eq_true]; done)
      | simp [loadP] at this)

theorem v0_rest_no_parse (l : List Event) (hP : ∀ e ∈ l, restP e = true) :
    calls .cuvidParseVideoData l = 0 :=
  calls_eq_zero _ _ (fun e he => by
    have := hP e he
    cases e <;> first
      | (simp only [Event.api, ne_eq, reduceCtorEq, not_false_eq_true]; done)
      | simp [restP, cbP, cleanupP, Event.api] at this)

/-- A run of v0 gives at most one packet to the parser: the one `main` builds, to the parser
it created, after the second phase. -/
theorem v0_parse_once (env : Env) :
    calls .cuvidParseVideoData (main env).state.log ≤ 1 ∧
    ∀ h pkt, Event.cuvidParseVideoData h pkt ∈ (main env).state.log →
      calls .cuvidParseVideoData (main env).state.log = 1 ∧
      h = (env.sdk.cuvidCreateVideoParser 0).2 ∧ pkt = packet env ∧
      ∃ post, (main env).state.log =
        (load_state env (init_state env (State.init env))).log ++
          Event.cuvidParseVideoData h pkt :: post := by
  rcases v0_main_cases env with ⟨-, s1, hm, hP⟩ | ⟨-, -, s1, seg, hm, hl, hP⟩ | ⟨-, -, hm⟩
  · have h0 := v0_init_no_parse _ hP
    rw [hm]
    exact ⟨by simp [Outcome.state, h0], fun h pkt hmem =>
      absurd hmem (not_mem_of_calls_zero h0 rfl)⟩
  · have h0 : calls .cuvidParseVideoData s1.log = 0 := by
      rw [hl, calls_append, v0_load_no_parse _ hP]
      simp [init_state, State.init, calls_cons, calls_nil, Event.api]
    rw [hm]
    exact ⟨by simp [Outcome.state, h0], fun h pkt hmem =>
      absurd hmem (not_mem_of_calls_zero h0 rfl)⟩
  · rw [hm]
    obtain ⟨seg, hl, -, hP⟩ := (v0_main_run_tail_spec env (env.sdk.cuvidCreateVideoParser 0).2
      (packet env) (load_state env (init_state env (State.init env)))).log_eq
    have h2 : calls .cuvidParseVideoData
        (load_state env (init_state env (State.init env))).log = 0 := by
      simp [load_state, init_state, State.init, calls_cons, calls_nil, Event.api]
    obtain ⟨hc, hmem⟩ := parse_once_shape hl h2 (v0_rest_no_parse _ hP)
    refine ⟨by omega, fun h pkt hm => ?_⟩
    obtain ⟨rfl, rfl⟩ := hmem h pkt hm
    exact ⟨hc, rfl, rfl, seg, by simpa using hl⟩

/-- A run of v0 whose first two phases go through gives the packet to the parser. -/
theorem v0_parse_reached (env : Env) (hi : init_ok env (State.init env))
    (hl : load_ok env (init_state env (State.init env))) :
    Event.cuvidParseVideoData (env.sdk.cuvidCreateVideoParser 0).2 (packet env) ∈
      (main env).state.log := by
  rcases v0_main_cases env with ⟨h, -⟩ | ⟨-, h, -⟩ | ⟨-, -, hm⟩
  · exact absurd hi h
  · exact absurd hl h
  · rw [hm]
    obtain ⟨seg, hlog, -, -⟩ := (v0_main_run_tail_spec env
      (env.sdk.cuvidCreateVideoParser 0).2
      (packet env) (load_state env (init_state env (State.init env)))).log_eq
    rw [hlog]
    simp

end V0

namespace V1

theorem v1_init_no_parse (l : List Event) (hP : ∀ e ∈ l, initP e = true) :
    calls .cuvidParseVideoData l = 0 :=
  calls_eq_zero _ _ (fun e he => by
    have := hP e he
    cases e <;> first
      | (simp only [Event.api, ne_eq, reduceCtorEq, not_false_eq_true]; done)
      | simp [initP] at this)

theorem v1_load_no_parse (l : List Event) (hP : ∀ e ∈ l, loadP e = true) :
    calls .cuvidParseVideoData l = 0 :=
  calls_eq_zero _ _ (fun e he => by
    have := hP e he
    cases e <;> first
      | (simp only [Event.api, ne_eq, reduceCtorEq, not_false_eq_true]; done)
      | simp [loadP] at this)

theorem v1_rest_no_parse (l : List Event) (hP : ∀ e ∈ l, restP true e = true) :
    calls .cuvidParseVideoData l = 0 :=
  calls_eq_zero _ _ (fun e he => by
    have := hP e he
    cases e <;> first
      | (simp only [Event.api, ne_eq, reduceCtorEq, not_false_eq_true]; done)
      | simp [restP, cbP, picP, seqAnyP, cleanupP, Event.api] at this)

/-- A run of v1 gives at most one packet to the parser: the one `main` builds, to the parser
it created, after the second phase. -/
theorem v1_parse_once (env : Env) :
    calls .cuvidParseVideoData (main env).state.log ≤ 1 ∧
    ∀ h pkt, Event.cuvidParseVideoData h pkt ∈ (main env).state.log →
      calls .cuvidParseVideoData (main env).state.log = 1 ∧
      h = (env.sdk.cuvidCreateVideoParser 0).2 ∧ pkt = packet env ∧
      ∃ post, (main env).state.log =
        (load_state env (init_state env (State.init env))).log ++
          Event.cuvidParseVideoData h pkt :: post := by
  rcases v1_main_cases env with ⟨-, s1, hm, hP⟩ | ⟨-, -, s1, seg, hm, hl, hP⟩ | ⟨-, -, hm⟩
  · have h0 := v1_init_no_parse _ hP
    rw [hm]
    exact ⟨by simp [Outcome.state, h0], fun h pkt hmem =>
      absurd hmem (not_mem_of_calls_zero h0 rfl)⟩
  · have h0 : calls .cuvidParseVideoData s1.log = 0 := by
      rw [hl, calls_append, v1_load_no_parse _ hP]
      simp [init_state, State.init, calls_cons, calls_nil, Event.api]
    rw [hm]
    exact ⟨by simp [Outcome.state, h0], fun h pkt hmem =>
      absurd hmem (not_mem_of_calls_zero h0 rfl)⟩
  · rw [hm]
    obtain ⟨seg, hl, -, hP⟩ := (v1_main_run_tail_spec env true (fun h => by simp at h)
      (env.sdk.cuvidCreateVideoParser 0).2
      (packet env) (load_state env (init_state env (State.init env)))).log_eq
    have h2 : calls .cuvidParseVideoData
        (load_state env (init_state env (State.init env))).log = 0 := by
      simp [load_state, init_state, State.init, calls_cons, calls_nil, Event.api]
    obtain ⟨hc, hmem⟩ := parse_once_shape hl h2 (v1_rest_no_parse _ hP)
    refine ⟨by omega, fun h pkt hm => ?_⟩
    obtain ⟨rfl, rfl⟩ := hmem h pkt hm
    exact ⟨hc, rfl, rfl, seg, by simpa using hl⟩

/-- A run of v1 whose first two phases go through gives the packet to the parser. -/
theorem v1_parse_reached (env : Env) (hi : init_ok env (State.init env))
    (hl : load_ok env (init_state env (State.init env))) :
    Event.cuvidParseVideoData (env.sdk.cuvidCreateVideoParser 0).2 (packet env) ∈
      (main env).state.log := by
  rcases v1_main_cases env with ⟨h, -⟩ | ⟨-, h, -⟩ | ⟨-, -, hm⟩
  · exact absurd hi h
  · exact absurd hl h
  · rw [hm]
    obtain ⟨seg, hlog, -, -⟩ := (v1_main_run_tail_spec env true (fun h => by simp at h)
      (env.sdk.cuvidCreateVideoParser 0).2
      (packet env) (load_state env (init_state env (State.init env)))).log_eq
    rw [hlog]
    simp

end V1

namespace V2

theorem v2_init_no_parse (l : List Event) (hP : ∀ e ∈ l, initP e = true) :
    calls .cuvidParseVideoData l = 0 :=
  calls_eq_zero _ _ (fun e he => by
    have := hP e he
    cases e <;> first
      | (simp only [Event.api, ne_eq, reduceCtorEq, not_false_eq_true]; done)
      | simp [initP] at this)

theorem v2_load_no_parse (l : List Event) (hP : ∀ e ∈ l, loadP e = true) :
    calls .cuvidParseVideoData l = 0 :=
  calls_eq_zero _ _ (fun e he => by
    have := hP e he
    cases e <;> first
      | (simp only [Event.api, ne_eq, reduceCtorEq, not_false_eq_true]; done)
      | simp [loadP] at this)

theorem v2_rest_no_parse (l : List Event) (hP : ∀ e ∈ l, restP true e = true) :
    calls .cuvidParseVideoData l = 0 :=
  calls_eq_zero _ _ (fun e he => by
    have := hP e he
    cases e <;> first
      | (simp only [Event.api, ne_eq, reduceCtorEq, not_false_eq_true]; done)
      | simp [restP, cbP, picP, seqAnyP, cleanupP, Event.api] at this)

/-- A run of v2 gives at most one packet to the parser: the one `main` builds, to the parser
it created, after the second phase. -/
theorem v2_parse_once (env : Env) :
    calls .cuvidParseVideoData (main env).state.log ≤ 1 ∧
    ∀ h pkt, Event.cuvidParseVideoData h pkt ∈ (main env).state.log →
      calls .cuvidParseVideoData (main env).state.log = 1 ∧
      h = (env.sdk.cuvidCreateVideoParser 0).2 ∧ pkt = packet env ∧
      ∃ post, (main env).state.log =
        (load_state env (init_state env (State.init env))).log ++
          Event.cuvidParseVideoData h pkt :: post := by
  rcases v2_main_cases env with ⟨-, s1, hm, hP⟩ | ⟨-, -, s1, seg, hm, hl, hP⟩ | ⟨-, -, hm⟩
  · have h0 := v2_init_no_parse _ hP
    rw [hm]
    exact ⟨by simp [Outcome.state, h0], fun h pkt hmem =>
      absurd hmem (not_mem_of_calls_zero h0 rfl)⟩
  · have h0 : calls .cuvidParseVideoData s1.log = 0 := by
      rw [hl, calls_append, v2_load_no_parse _ hP]
      simp [init_state, State.init, calls_cons, calls_nil, Event.api]
    rw [hm]
    exact ⟨by simp [Outcome.state, h0], fun h pkt hmem =>
      absurd hmem (not_mem_of_calls_zero h0 rfl)⟩
  · rw [hm]
    obtain ⟨seg, hl, -, hP⟩ := (v2_main_run_tail_spec env true (fun h => by simp at h)
      (env.sdk.cuvidCreateVideoParser 0).2
      (packet env) (load_state env (init_state env (State.init env)))).log_eq
    have h2 : calls .cuvidParseVideoData
        (load_state env (init_state env (State.init env))).log = 0 := by
      simp [load_state, init_state, State.init, calls_cons, calls_nil, Event.api]
    obtain ⟨hc, hmem⟩ := parse_once_shape hl h2 (v2_rest_no_parse _ hP)
    refine ⟨by omega, fun h pkt hm => ?_⟩
    obtain ⟨rfl, rfl⟩ := hmem h pkt hm
    exact ⟨hc, rfl, rfl, seg, by simpa using hl⟩

/-- A run of v2 whose first two phases go through gives the packet to the parser. -/
theorem v2_parse_reached (env : Env) (hi : init_ok env (State.init env))
    (hl : load_ok env (init_state env (State.init env))) :
    Event.cuvidParseVideoData (env.sdk.cuvidCreateVideoParser 0).2 (packet env) ∈
      (main env).state.log := by
  rcases v2_main_cases env with ⟨h, -⟩ | ⟨-, h, -⟩ | ⟨-, -, hm⟩
  · exact absurd hi h
  · exact absurd hl h
  · rw [hm]
    obtain ⟨seg, hlog, -, -⟩ := (v2_main_run_tail_spec env true (fun h => by simp at h)
      (env.sdk.cuvidCreateVideoParser 0).2
      (packet env) (load_state env (init_state env (State.init env)))).log_eq
    rw [hlog]
    simp

end V2

namespace V0

theorem v0_main_upto_eq (env : Env) (k : Nat) :
    main_upto env k = ((main_init env (State.init env)).andThen fun _ s1 =>
      (main_load env s1).andThen fun a s2 =>
        run_callbacks (callbacks env.sdk)
          ((env.sdk.cuvidParseVideoData (calls .cuvidParseVideoData s2.log)).1.take k)
          { s2 with log := s2.log ++ [.cuvidParseVideoData a.1 a.2] }) := rfl

/-- In v0 the decoder is there whenever a callback has returned. -/
theorem v0_main_upto_decoder (env : Env)
    (hSdk : ∀ n, (env.sdk.cuvidCreateDecoder n).1 = CUDA_SUCCESS →
      (env.sdk.cuvidCreateDecoder n).2 ≠ nullptr)
    (k : Nat) (s : State) (h : main_upto env k = .ret () s) : s.decoder ≠ nullptr := by
  rw [v0_main_upto_eq] at h
  obtain ⟨_, s1, h1, h⟩ := andThen_eq_ret h
  obtain ⟨a, s2, h2, h⟩ := andThen_eq_ret h
  obtain ⟨hs1, hi⟩ := (v0_main_init_spec env _).of_ret h1
  obtain ⟨-, hs2, -⟩ := (v0_main_load_spec env _).of_ret h2
  have hr := (v0_callbacks_spec env.sdk _ _).of_ret h
  rw [hr.2, hs2, hs1]
  exact hSdk _ hi.2.2.2.2.2.2

end V0

namespace V1

theorem v1_main_upto_eq (env : Env) (k : Nat) :
    main_upto env k = ((main_init env (State.init env)).andThen fun _ s1 =>
      (main_load env s1).andThen fun a s2 =>
        run_callbacks (callbacks env.sdk)
          ((env.sdk.cuvidParseVideoData (calls .cuvidParseVideoData s2.log)).1.take k)
          { s2 with log := s2.log ++ [.cuvidParseVideoData a.1 a.2] }) := rfl

/-- The sequence callback of v1 leaves a decoder when it returns. -/
theorem v1_sequence_decoder (sdk : Sdk)
    (hSdk : ∀ n, (sdk.cuvidCreateDecoder n).1 = CUDA_SUCCESS →
      (sdk.cuvidCreateDecoder n).2 ≠ nullptr)
    (fmt : CUVIDEOFORMAT) (s : State) (a : Int) (s1 : State)
    (h : parser_sequence_callback sdk fmt s = .ret a s1) : s1.decoder ≠ nullptr := by
  obtain ⟨-, hs, hok⟩ := (v1_parser_sequence_callback_spec sdk fmt s).of_ret h
  rw [hs]
  exact hSdk _ hok.2.2.2

/-- One callback of v1 that returns: the registration stays, a decoder stays, and a sequence
callback leaves one. -/
theorem v1_run_callback_decoder (sdk : Sdk)
    (hSdk : ∀ n, (sdk.cuvidCreateDecoder n).1 = CUDA_SUCCESS →
      (sdk.cuvidCreateDecoder n).2 ≠ nullptr)
    (c : ParserCallback) (s s1 : State) (hreg : s.registered = some parser_params)
    (h : run_callback (callbacks sdk) c s = .ret () s1) :
    s1.registered = some parser_params ∧ (s.decoder ≠ nullptr → s1.decoder ≠ nullptr) ∧
      ((∃ fmt, c = .sequence fmt) → s1.decoder ≠ nullptr) := by
  cases c with
  | sequence fmt =>
    simp only [run_callback, hreg, parser_params, Option.bind, bind_apply, callbacks] at h
    obtain ⟨a, s2, h1, h2⟩ := andThen_eq_ret h
    simp only [pure_apply, Outcome.ret.injEq, true_and] at h2
    subst h2
    have hd := v1_sequence_decoder sdk hSdk fmt s a s2 h1
    obtain ⟨-, hs, -⟩ := (v1_parser_sequence_callback_spec sdk fmt s).of_ret h1
    exact ⟨by rw [hs]; exact hreg, fun _ => hd, fun _ => hd⟩
  | decode pic =>
    simp only [run_callback, hreg, parser_params, Option.bind, bind_apply, callbacks] at h
    obtain ⟨a, s2, h1, h2⟩ := andThen_eq_ret h
    simp only [pure_apply, Outcome.ret.injEq, true_and] at h2
    subst h2
    obtain ⟨hr, -⟩ := (v1_parser_decode_picture_callback_spec sdk pic s).of_ret h1
    exact ⟨by rw [hr.1.2]; exact hreg, fun hd => by rw [hr.2]; exact hd, fun ⟨_, hc⟩ => by
      simp at hc⟩
  | display disp =>
    simp only [run_callback, hreg, parser_params, Option.bind, bind_apply, callbacks] at h
    obtain ⟨a, s2, h1, h2⟩ := andThen_eq_ret h
    simp only [pure_apply, Outcome.ret.injEq, true_and] at h2
    subst h2
    obtain ⟨hr, -⟩ := (v1_parser_display_picture_callback_spec sdk disp s).of_ret h1
    exact ⟨by rw [hr.1.2]; exact hreg, fun hd => by rw [hr.2]; exact hd, fun ⟨_, hc⟩ => by
      simp at hc⟩

/-- The callbacks of v1 that return: a decoder stays, and is there if one of them was a
sequence callback. -/
theorem v1_run_callbacks_decoder (sdk : Sdk)
    (hSdk : ∀ n, (sdk.cuvidCreateDecoder n).1 = CUDA_SUCCESS →
      (sdk.cuvidCreateDecoder n).2 ≠ nullptr) :
    ∀ (script : List ParserCallback) (s s1 : State), s.registered = some parser_params →
      run_callbacks (callbacks sdk) script s = .ret () s1 →
      s1.registered = some parser_params ∧
        (s.decoder ≠ nullptr ∨ (∃ fmt, ParserCallback.sequence fmt ∈ script) →
          s1.decoder ≠ nullptr)
  | [], s, s1, hreg, h => by
    simp only [run_callbacks, pure_apply, Outcome.ret.injEq, true_and] at h
    subst h
    exact ⟨hreg, fun hd => by simpa using hd⟩
  | c :: cs, s, s1, hreg, h => by
    simp only [run_callbacks, bind_apply] at h
    obtain ⟨_, s2, h1, h2⟩ := andThen_eq_ret h
    obtain ⟨hreg2, hkeep, hseq⟩ := v1_run_callback_decoder sdk hSdk c s s2 hreg h1
    obtain ⟨hreg1, hd⟩ := v1_run_callbacks_decoder sdk hSdk cs s2 s1 hreg2 h2
    refine ⟨hreg1, fun hor => hd ?_⟩
    rcases hor with hor | ⟨fmt, hm⟩
    · exact Or.inl (hkeep hor)
    · rcases List.mem_cons.mp hm with rfl | hm
      · exact Or.inl (hseq ⟨fmt, rfl⟩)
      · exact Or.inr ⟨fmt, hm⟩

/-- In v1 the decoder is there whenever a sequence callback has returned. -/
theorem v1_main_upto_decoder (env : Env)
    (hSdk : ∀ n, (env.sdk.cuvidCreateDecoder n).1 = CUDA_SUCCESS →
      (env.sdk.cuvidCreateDecoder n).2 ≠ nullptr)
    (k : Nat) (fmt : CUVIDEOFORMAT)
    (hseq : ParserCallback.sequence fmt ∈ (env.sdk.cuvidParseVideoData 0).1.take k)
    (s : State) (h : main_upto env k = .ret () s) : s.decoder ≠ nullptr := by
  rw [v1_main_upto_eq] at h
  obtain ⟨_, s1, h1, h⟩ := andThen_eq_ret h
  obtain ⟨a, s2, h2, h⟩ := andThen_eq_ret h
  obtain ⟨hs1, hi⟩ := (v1_main_init_spec env _).of_ret h1
  obtain ⟨-, hs2, -⟩ := (v1_main_load_spec env _).of_ret h2
  have hcalls : calls .cuvidParseVideoData s2.log = 0 := by
    rw [hs2, hs1]
    simp [load_state, init_state, State.init, calls_cons, calls_nil, Event.api]
  rw [hcalls] at h
  refine (v1_run_callbacks_decoder env.sdk hSdk _ _ s (by rw [hs2]; rfl) h).2
    (Or.inr ⟨fmt, hseq⟩)

end V1
namespace V2

theorem v2_main_upto_eq (env : Env) (k : Nat) :
    main_upto env k = ((main_init env (State.init env)).andThen fun _ s1 =>
      (main_load env s1).andThen fun a s2 =>
        run_callbacks (callbacks env.sdk)
          ((env.sdk.cuvidParseVideoData (calls .cuvidParseVideoData s2.log)).1.take k)
          { s2 with log := s2.log ++ [.cuvidParseVideoData a.1 a.2] }) := rfl

/-- The sequence callback of v2 leaves a decoder when it returns. -/
theorem v2_sequence_decoder (sdk : Sdk)
    (hSdk : ∀ n, (sdk.cuvidCreateDecoder n).1 = CUDA_SUCCESS →
      (sdk.cuvidCreateDecoder n).2 ≠ nullptr)
    (fmt : CUVIDEOFORMAT) (s : State) (a : Int) (s1 : State)
    (h : parser_sequence_callback sdk fmt s = .ret a s1) : s1.decoder ≠ nullptr := by
  obtain ⟨-, hs, hok⟩ := (v2_parser_sequence_callback_spec sdk fmt s).of_ret h
  rw [hs]
  exact hSdk _ hok.2.2.2

/-- One callback of v2 that returns: the registration stays, a decoder stays, and a sequence
callback leaves one. -/
theorem v2_run_callback_decoder (sdk : Sdk)
    (hSdk : ∀ n, (sdk.cuvidCreateDecoder n).1 = CUDA_SUCCESS →
      (sdk.cuvidCreateDecoder n).2 ≠ nullptr)
    (c : ParserCallback) (s s1 : State) (hreg : s.registered = some parser_params)
    (h : run_callback (callbacks sdk) c s = .ret () s1) :
    s1.registered = some parser_params ∧ (s.decoder ≠ nullptr → s1.decoder ≠ nullptr) ∧
      ((∃ fmt, c = .sequence fmt) → s1.decoder ≠ nullptr) := by
  cases c with
  | sequence fmt =>
    simp only [run_callback, hreg, parser_params, Option.bind, bind_apply, callbacks] at h
    obtain ⟨a, s2, h1, h2⟩ := andThen_eq_ret h
    simp only [pure_apply, Outcome.ret.injEq, true_and] at h2
    subst h2
    have hd := v2_sequence_decoder sdk hSdk fmt s a s2 h1
    obtain ⟨-, hs, -⟩ := (v2_parser_sequence_callback_spec sdk fmt s).of_ret h1
    exact ⟨by rw [hs]; exact hreg, fun _ => hd, fun _ => hd⟩
  | decode pic =>
    simp only [run_callback, hreg, parser_params, Option.bind, bind_apply, callbacks] at h
    obtain ⟨a, s2, h1, h2⟩ := andThen_eq_ret h
    simp only [pure_apply, Outcome.ret.injEq, true_and] at h2
    subst h2
    obtain ⟨hr, -⟩ := (v2_parser_decode_picture_callback_spec sdk pic s).of_ret h1
    exact ⟨by rw [hr.1.2]; exact hreg, fun hd => by rw [hr.2]; exact hd, fun ⟨_, hc⟩ => by
      simp at hc⟩
  | display disp =>
    simp only [run_callback, hreg, parser_params, Option.bind, bind_apply, callbacks] at h
    obtain ⟨a, s2, h1, h2⟩ := andThen_eq_ret h
    simp only [pure_apply, Outcome.ret.injEq, true_and] at h2
    subst h2
    obtain ⟨hr, -⟩ := (v2_parser_display_picture_callback_spec sdk disp s).of_ret h1
    exact ⟨by rw [hr.1.2]; exact hreg, fun hd => by rw [hr.2]; exact hd, fun ⟨_, hc⟩ => by
      simp at hc⟩

/-- The callbacks of v2 that return: a decoder stays, and is there if one of them was a
sequence callback. -/
theorem v2_run_callbacks_decoder (sdk : Sdk)
    (hSdk : ∀ n, (sdk.cuvidCreateDecoder n).1 = CUDA_SUCCESS →
      (sdk.cuvidCreateDecoder n).2 ≠ nullptr) :
    ∀ (script : List ParserCallback) (s s1 : State), s.registered = some parser_params →
      run_callbacks (callbacks sdk) script s = .ret () s1 →
      s1.registered = some parser_params ∧
        (s.decoder ≠ nullptr ∨ (∃ fmt, ParserCallback.sequence fmt ∈ script) →
          s1.decoder ≠ nullptr)
  | [], s, s1, hreg, h => by
    simp only [run_callbacks, pure_apply, Outcome.ret.injEq, true_and] at h
    subst h
    exact ⟨hreg, fun hd => by simpa using hd⟩
  | c :: cs, s, s1, hreg, h => by
    simp only [run_callbacks, bind_apply] at h
    obtain ⟨_, s2, h1, h2⟩ := andThen_eq_ret h
    obtain ⟨hreg2, hkeep, hseq⟩ := v2_run_callback_decoder sdk hSdk c s s2 hreg h1
    obtain ⟨hreg1, hd⟩ := v2_run_callbacks_decoder sdk hSdk cs s2 s1 hreg2 h2
    refine ⟨hreg1, fun hor => hd ?_⟩
    rcases hor with hor | ⟨fmt, hm⟩
    · exact Or.inl (hkeep hor)
    · rcases List.mem_cons.mp hm with rfl | hm
      · exact Or.inl (hseq ⟨fmt, rfl⟩)
      · exact Or.inr ⟨fmt, hm⟩

/-- In v2 the decoder is there whenever a sequence callback has returned. -/
theorem v2_main_upto_decoder (env : Env)
    (hSdk : ∀ n, (env.sdk.cuvidCreateDecoder n).1 = CUDA_SUCCESS →
      (env.sdk.cuvidCreateDecoder n).2 ≠ nullptr)
    (k : Nat) (fmt : CUVIDEOFORMAT)
    (hseq : ParserCallback.sequence fmt ∈ (env.sdk.cuvidParseVideoData 0).1.take k)
    (s : State) (h : main_upto env k = .ret () s) : s.decoder ≠ nullptr := by
  rw [v2_main_upto_eq] at h
  obtain ⟨_, s1, h1, h⟩ := andThen_eq_ret h
  obtain ⟨a, s2, h2, h⟩ := andThen_eq_ret h
  obtain ⟨hs1, hi⟩ := (v2_main_init_spec env _).of_ret h1
  obtain ⟨-, hs2, -⟩ := (v2_main_load_spec env _).of_ret h2
  have hcalls : calls .cuvidParseVideoData s2.log = 0 := by
    rw [hs2, hs1]
    simp [load_state, init_state, State.init, calls_cons, calls_nil, Event.api]
  rw [hcalls] at h
  refine (v2_run_callbacks_decoder env.sdk hSdk _ _ s (by rw [hs2]; rfl) h).2
    (Or.inr ⟨fmt, hseq⟩)

end V2

/-! ## Arithmetic of the write loops -/

theorem u32_of_lt (n : Nat) (h : n < 4294967296) : u32 (n : Int) = n := by
  unfold u32
  omega

theorem u64_of_lt (n : Nat) (h : n < 18446744073709551616) : u64 (n : Int) = n := by
  unfold u64
  omega

theorem double_to_int_of_lt (n : Nat) (h : n < 2147483648) : double_to_int n = n := by
  unfold double_to_int
  simp [h]

/-- Halving an `int` through a `double`: truncation, which is 0 for a negative value seen as a
loop bound. -/
theorem tdiv_two_toNat (h : Int) : (Int.tdiv h 2).toNat = h.toNat / 2 := by
  cases h with
  | ofNat n => rfl
  | negSucc n =>
    show (Int.tdiv (Int.negSucc n) (Int.ofNat 2)).toNat = 0 / 2
    simp only [Int.tdiv]
    exact Int.toNat_eq_zero.mpr (Int.neg_nonpos_of_nonneg (Int.ofNat_nonneg _))

theorem length_flatMap_const (f : Nat → List Nat) (n : Nat) (hf : ∀ j, (f j).length = n) :
    ∀ l : List Nat, (l.flatMap f).length = l.length * n
  | [] => by simp
  | j :: l => by
    simp only [List.flatMap_cons, List.length_append, List.length_cons, hf,
      length_flatMap_const f n hf l]
    ring

theorem flatMap_congr_mem (f g : Nat → List Nat) :
    ∀ l : List Nat, (∀ j ∈ l, f j = g j) → l.flatMap f = l.flatMap g
  | [], _ => rfl
  | j :: l, h => by
    simp only [List.flatMap_cons]
    rw [h j (List.mem_cons_self _ _),
      flatMap_congr_mem f g l (fun i hi => h i (List.mem_cons_of_mem _ hi))]

theorem flatMap_congr_range (f g : Nat → List Nat) (n : Nat) (h : ∀ j, j < n → f j = g j) :
    (List.range n).flatMap f = (List.range n).flatMap g :=
  flatMap_congr_mem f g _ (fun j hj => h j (List.mem_range.mp hj))

namespace V2

theorem v2_row_length (host : Nat → Nat) (off n : Nat) : (row host off n).length = n := by
  simp [row]

/-- The number of bytes the two loops write. -/
theorem v2_written_length (sdk : Sdk) (s : State) :
    (written sdk s).length =
      s.coded_width.toNat * (s.coded_height.toNat + s.coded_height.toNat / 2) := by
  unfold written
  rw [List.length_append, length_flatMap_const _ _ (fun j => v2_row_length _ _ _),
    length_flatMap_const _ _ (fun j => v2_row_length _ _ _), List.length_range,
    List.length_range, tdiv_two_toNat]
  ring

theorem v2_luma_offset_eq (p : Nat) (n j : Nat) (hn : n * p < 4294967296) (hj : j < n) :
    luma_offset p (j : Int) = j * p := by
  unfold luma_offset
  have h1 : j * p ≤ n * p := Nat.mul_le_mul_right p (Nat.le_of_lt hj)
  have h2 : ((j : Int) * (p : Int)) = ((j * p : Nat) : Int) := by push_cast; ring
  rw [h2, u32_of_lt _ (by omega)]

theorem v2_chroma_offset_eq (h : Int) (p : Nat) (j : Nat) (hn : h.toNat * p < 4294967296)
    (hj : j < h.toNat / 2) : chroma_offset h p (j : Int) = h.toNat * p + j * p := by
  unfold chroma_offset
  have hpos : 0 ≤ h := by
    by_contra hneg
    have : h.toNat = 0 := by omega
    rw [this] at hj
    omega
  have h0 : h * (p : Int) = ((h.toNat * p : Nat) : Int) := by
    push_cast
    rw [Int.toNat_of_nonneg hpos]
  have h1 : j * p ≤ h.toNat * p := Nat.mul_le_mul_right p (by omega)
  have h2 : ((j : Int) * (p : Int)) = ((j * p : Nat) : Int) := by push_cast; ring
  rw [h0, h2, u32_of_lt _ hn, u32_of_lt _ (by omega)]

/-- Without wrap-around of the 32-bit offsets the two loops write a raw NV12 picture. -/
theorem v2_written_eq_nv12 (sdk : Sdk) (s : State)
    (hn : s.coded_height.toNat * pitch_of sdk s < 4294967296) :
    written sdk s =
      nv12_picture (host_of sdk s) (pitch_of sdk s) s.coded_width.toNat
        s.coded_height.toNat := by
  unfold written nv12_picture
  rw [tdiv_two_toNat]
  congr 1
  · exact flatMap_congr_range _ _ _ (fun j hj => by rw [v2_luma_offset_eq _ _ j hn hj])
  · exact flatMap_congr_range _ _ _ (fun j hj => by rw [v2_chroma_offset_eq _ _ j hn hj])

end V2

/-! ## The host buffer of v2 -/

theorem andThen_pure_state {α β : Type} (o : Outcome α) (b : β) :
    (o.andThen (fun _ => (pure b : Prog β))).state = o.state := by
  cases o <;> rfl

theorem andThen_pure_ret {α : Type} {o : Outcome α} {s1 : State}
    (h : o.andThen (fun _ => (pure () : Prog Unit)) = .ret () s1) : ∃ a, o = .ret a s1 := by
  obtain ⟨a, s2, h1, h2⟩ := andThen_eq_ret h
  simp only [pure_apply, Outcome.ret.injEq, true_and] at h2
  exact ⟨a, h2 ▸ h1⟩

namespace V2

theorem v2_seq_no_alloc (fmt : CUVIDEOFORMAT) (l : List Event)
    (hP : ∀ e ∈ l, seqP fmt e = true) : calls .cuMemAllocHost l = 0 :=
  calls_eq_zero _ _ (fun e he => by
    have := hP e he
    cases e <;> first
      | (simp only [Event.api, ne_eq, reduceCtorEq, not_false_eq_true]; done)
      | simp [seqP] at this)

/-- The sequence callback of v2 allocates nothing and, when it returns, has left the buffer
and its size alone and stored the coded size of the format. -/
theorem v2_sequence_buffer (sdk : Sdk) (fmt : CUVIDEOFORMAT) (s : State) :
    calls .cuMemAllocHost (parser_sequence_callback sdk fmt s).state.log =
      calls .cuMemAllocHost s.log ∧
    ∀ a s1, parser_sequence_callback sdk fmt s = .ret a s1 →
      s1.yuv_buffer = s.yuv_buffer ∧ s1.yuv_nbytes_needed = s.yuv_nbytes_needed ∧
      s1.coded_width = i32 fmt.coded_width ∧ s1.coded_height = i32 fmt.coded_height := by
  have hs := v2_parser_sequence_callback_spec sdk fmt s
  obtain ⟨seg, hl, -, hP⟩ := hs.log_eq
  refine ⟨by rw [hl, calls_append, v2_seq_no_alloc fmt seg hP, Nat.add_zero], ?_⟩
  intro a s1 h
  obtain ⟨-, h1, -⟩ := hs.of_ret h
  rw [h1]
  exact ⟨rfl, rfl, rfl, rfl⟩

/-- The decode callback of v2 allocates nothing and leaves the buffer and its size alone. -/
theorem v2_decode_buffer (sdk : Sdk) (pic : CUVIDPICPARAMS) (s : State) :
    calls .cuMemAllocHost (parser_decode_picture_callback sdk pic s).state.log =
      calls .cuMemAllocHost s.log ∧
    (parser_decode_picture_callback sdk pic s).state.yuv_buffer = s.yuv_buffer ∧
    (parser_decode_picture_callback sdk pic s).state.yuv_nbytes_needed =
      s.yuv_nbytes_needed := by
  rw [v2_parser_decode_picture_callback_eq]
  split_ifs <;> simp [Outcome.state, calls_append, calls_cons, calls_nil, Event.api]

/-- The display callback of v2 called with a buffer allocates nothing and leaves the buffer
and its size alone, whichever way it ends. -/
theorem v2_display_buffer (sdk : Sdk) (disp : CUVIDPARSERDISPINFO) (s : State)
    (hb : s.yuv_buffer ≠ nullptr) :
    calls .cuMemAllocHost (parser_display_picture_callback sdk disp s).state.log =
      calls .cuMemAllocHost s.log ∧
    (parser_display_picture_callback sdk disp s).state.yuv_buffer = s.yuv_buffer ∧
    (parser_display_picture_callback sdk disp s).state.yuv_nbytes_needed =
      s.yuv_nbytes_needed := by
  obtain ⟨⟨tail, hl, -, ha, -⟩, -, hk, -⟩ := v2_parser_display_picture_callback_frame sdk disp s
  refine ⟨?_, hk hb⟩
  rw [hl, calls_append, calls_cons, ha]
  simp [Event.api, hb]

/-- One callback of v2 made when there is a buffer. -/
theorem v2_run_callback_buffer (sdk : Sdk) (c : ParserCallback) (s : State)
    (hb : s.yuv_buffer ≠ nullptr) :
    calls .cuMemAllocHost (run_callback (callbacks sdk) c s).state.log =
      calls .cuMemAllocHost s.log ∧
    ∀ s1, run_callback (callbacks sdk) c s = .ret () s1 →
      s1.yuv_buffer = s.yuv_buffer ∧ s1.yuv_nbytes_needed = s.yuv_nbytes_needed := by
  cases c with
  | sequence fmt =>
    simp only [run_callback, callbacks, bind_apply]
    split
    · rw [andThen_pure_state]
      refine ⟨(v2_sequence_buffer sdk fmt s).1, fun s1 h => ?_⟩
      obtain ⟨a, ha⟩ := andThen_pure_ret h
      obtain ⟨h1, h2, -⟩ := (v2_sequence_buffer sdk fmt s).2 a s1 ha
      exact ⟨h1, h2⟩
    · exact ⟨rfl, fun s1 h => by cases h; exact ⟨rfl, rfl⟩⟩
  | decode pic =>
    simp only [run_callback, callbacks, bind_apply]
    split
    · rw [andThen_pure_state]
      refine ⟨(v2_decode_buffer sdk pic s).1, fun s1 h => ?_⟩
      obtain ⟨a, ha⟩ := andThen_pure_ret h
      have := (v2_decode_buffer sdk pic s).2
      rw [ha] at this
      exact this
    · exact ⟨rfl, fun s1 h => by cases h; exact ⟨rfl, rfl⟩⟩
  | display disp =>
    simp only [run_callback, callbacks, bind_apply]
    split
    · rw [andThen_pure_state]
      refine ⟨(v2_display_buffer sdk disp s hb).1, fun s1 h => ?_⟩
      obtain ⟨a, ha⟩ := andThen_pure_ret h
      have := (v2_display_buffer sdk disp s hb).2
      rw [ha] at this
      exact this
    · exact ⟨rfl, fun s1 h => by cases h; exact ⟨rfl, rfl⟩⟩

/-- The callbacks of v2 made when there is a buffer: none allocates, and the buffer and its
size are the same when they have returned. -/
theorem v2_run_callbacks_buffer (sdk : Sdk) :
    ∀ (script : List ParserCallback) (s : State), s.yuv_buffer ≠ nullptr →
      calls .cuMemAllocHost (run_callbacks (callbacks sdk) script s).state.log =
        calls .cuMemAllocHost s.log ∧
      ∀ s1, run_callbacks (callbacks sdk) script s = .ret () s1 →
        s1.yuv_buffer = s.yuv_buffer ∧ s1.yuv_nbytes_needed = s.yuv_nbytes_needed
  | [], s, _ => ⟨rfl, fun s1 h => by cases h; exact ⟨rfl, rfl⟩⟩
  | c :: cs, s, hb => by
    simp only [run_callbacks, bind_apply]
    obtain ⟨hc, hr⟩ := v2_run_callback_buffer sdk c s hb
    cases h1 : run_callback (callbacks sdk) c s with
    | exit code s2 =>
      rw [h1] at hc
      exact ⟨hc, fun s1 h => by simp [Outcome.andThen] at h⟩
    | ret u s2 =>
      rw [h1] at hc
      obtain ⟨hb2, hn2⟩ := hr s2 (by rw [h1])
      obtain ⟨hc2, hr2⟩ := v2_run_callbacks_buffer sdk cs s2 (by rw [hb2]; exact hb)
      simp only [andThen_ret]
      refine ⟨by rw [hc2]; exact hc, fun s1 h => ?_⟩
      obtain ⟨h3, h4⟩ := hr2 s1 h
      exact ⟨h3.trans hb2, h4.trans hn2⟩

end V2

namespace V2

theorem v2_allocInv_of_buffer {s s1 : State} (hI : AllocInv s) (hb : s.yuv_buffer ≠ nullptr)
    (hc : calls .cuMemAllocHost s1.log = calls .cuMemAllocHost s.log)
    (hb1 : s1.yuv_buffer = s.yuv_buffer) : AllocInv s1 :=
  ⟨by rw [hc]; exact hI.1, fun _ => by rw [hb1]; exact hb⟩

theorem v2_allocInv_of_zero {s1 : State} (hc : calls .cuMemAllocHost s1.log = 0) :
    AllocInv s1 :=
  ⟨by omega, fun h => by omega⟩

/-- The display callback of v2 keeps the allocation invariant. -/
theorem v2_display_alloc (sdk : Sdk) (disp : CUVIDPARSERDISPINFO) (s : State)
    (hI : AllocInv s) :
    calls .cuMemAllocHost (parser_display_picture_callback sdk disp s).state.log ≤ 1 ∧
    ∀ a s1, parser_display_picture_callback sdk disp s = .ret a s1 → AllocInv s1 := by
  by_cases hb : s.yuv_buffer = nullptr
  · have h0 : calls .cuMemAllocHost s.log = 0 := by
      have h1 := hI.1
      have h2 := hI.2
      by_contra hne
      exact h2 (by omega) hb
    obtain ⟨⟨tail, hl, -, ha, -⟩, -, -, -⟩ := v2_parser_display_picture_callback_frame sdk disp s
    have hcount : calls .cuMemAllocHost (parser_display_picture_callback sdk disp s).state.log
        = if (sdk.cuvidMapVideoFrame (calls .cuvidMapVideoFrame s.log)).1 = CUDA_SUCCESS
          then 1 else 0 := by
      rw [hl, calls_append, calls_cons, ha, h0]
      simp [Event.api, hb]
    refine ⟨by rw [hcount]; split <;> omega, fun a s1 h => ?_⟩
    rw [h] at hcount
    by_cases hmap : (sdk.cuvidMapVideoFrame (calls .cuvidMapVideoFrame s.log)).1 = CUDA_SUCCESS
    · obtain ⟨-, -, hw, -⟩ := (v2_parser_display_picture_callback_spec sdk disp s).of_ret h
      obtain ⟨hok, -, -, hbuf, -⟩ := hw hmap
      refine ⟨by rw [show calls .cuMemAllocHost s1.log = _ from hcount]; split <;> omega,
        fun _ => ?_⟩
      rw [hbuf]
      exact hok.2.1
    · exact v2_allocInv_of_zero (by
        rw [show calls .cuMemAllocHost s1.log = _ from hcount, if_neg hmap])
  · obtain ⟨hc, hb1, -⟩ := v2_display_buffer sdk disp s hb
    refine ⟨by rw [hc]; exact hI.1, fun a s1 h => ?_⟩
    rw [h] at hc hb1
    exact v2_allocInv_of_buffer hI hb hc hb1

/-- One callback of v2 keeps the allocation invariant. -/
theorem v2_run_callback_alloc (sdk : Sdk) (c : ParserCallback) (s : State) (hI : AllocInv s) :
    calls .cuMemAllocHost (run_callback (callbacks sdk) c s).state.log ≤ 1 ∧
    ∀ s1, run_callback (callbacks sdk) c s = .ret () s1 → AllocInv s1 := by
  cases c with
  | sequence fmt =>
    simp only [run_callback, callbacks, bind_apply]
    split
    · rw [andThen_pure_state]
      obtain ⟨hc, hr⟩ := v2_sequence_buffer sdk fmt s
      refine ⟨by rw [hc]; exact hI.1, fun s1 h => ?_⟩
      obtain ⟨a, ha⟩ := andThen_pure_ret h
      obtain ⟨h1, -⟩ := hr a s1 ha
      rw [ha] at hc
      exact ⟨by rw [show calls .cuMemAllocHost s1.log = _ from hc]; exact hI.1,
        fun h1' => by
          rw [h1]
          exact hI.2 (by rw [← show calls .cuMemAllocHost s1.log = _ from hc]; exact h1')⟩
    · exact ⟨hI.1, fun s1 h => by cases h; exact hI⟩
  | decode pic =>
    simp only [run_callback, callbacks, bind_apply]
    split
    · rw [andThen_pure_state]
      obtain ⟨hc, hb1, -⟩ := v2_decode_buffer sdk pic s
      refine ⟨by rw [hc]; exact hI.1, fun s1 h => ?_⟩
      obtain ⟨a, ha⟩ := andThen_pure_ret h
      rw [ha] at hc hb1
      exact ⟨by rw [show calls .cuMemAllocHost s1.log = _ from hc]; exact hI.1,
        fun h1' => by
          rw [show s1.yuv_buffer = _ from hb1]
          exact hI.2 (by rw [← show calls .cuMemAllocHost s1.log = _ from hc]; exact h1')⟩
    · exact ⟨hI.1, fun s1 h => by cases h; exact hI⟩
  | display disp =>
    simp only [run_callback, callbacks, bind_apply]
    split
    · rw [andThen_pure_state]
      obtain ⟨hc, hr⟩ := v2_display_alloc sdk disp s hI
      refine ⟨hc, fun s1 h => ?_⟩
      obtain ⟨a, ha⟩ := andThen_pure_ret h
      exact hr a s1 ha
    · exact ⟨hI.1, fun s1 h => by cases h; exact hI⟩

/-- The callbacks of v2 keep the allocation invariant. -/
theorem v2_run_callbacks_alloc (sdk : Sdk) :
    ∀ (script : List ParserCallback) (s : State), AllocInv s →
      calls .cuMemAllocHost (run_callbacks (callbacks sdk) script s).state.log ≤ 1 ∧
      ∀ s1, run_callbacks (callbacks sdk) script s = .ret () s1 → AllocInv s1
  | [], s, hI => ⟨hI.1, fun s1 h => by cases h; exact hI⟩
  | c :: cs, s, hI => by
    simp only [run_callbacks, bind_apply]
    obtain ⟨hc, hr⟩ := v2_run_callback_alloc sdk c s hI
    cases h1 : run_callback (callbacks sdk) c s with
    | exit code s2 =>
      rw [h1] at hc
      exact ⟨hc, fun s1 h => by simp [Outcome.andThen] at h⟩
    | ret u s2 =>
      simp only [andThen_ret]
      exact v2_run_callbacks_alloc sdk cs s2 (hr s2 (by rw [h1]))

theorem v2_cleanup_no_alloc (l : List Event) (hP : ∀ e ∈ l, cleanupP e = true) :
    calls .cuMemAllocHost l = 0 :=
  calls_eq_zero _ _ (fun e he => by
    have := hP e he
    cases e <;> first
      | (simp only [Event.api, ne_eq, reduceCtorEq, not_false_eq_true]; done)
      | simp [cleanupP] at this)

theorem v2_init_no_alloc (l : List Event) (hP : ∀ e ∈ l, initP e = true) :
    calls .cuMemAllocHost l = 0 :=
  calls_eq_zero _ _ (fun e he => by
    have := hP e he
    cases e <;> first
      | (simp only [Event.api, ne_eq, reduceCtorEq, not_false_eq_true]; done)
      | simp [initP] at this)

theorem v2_load_no_alloc (l : List Event) (hP : ∀ e ∈ l, loadP e = true) :
    calls .cuMemAllocHost l = 0 :=
  calls_eq_zero _ _ (fun e he => by
    have := hP e he
    cases e <;> first
      | (simp only [Event.api, ne_eq, reduceCtorEq, not_false_eq_true]; done)
      | simp [loadP] at this)

set_option maxRecDepth 1000 in
/-- The third phase of `main` of v2 makes at most one allocation. -/
theorem v2_main_run_alloc (env : Env) (parser : Handle) (pkt : CUVIDSOURCEDATAPACKET)
    (s : State) (hI : AllocInv s) :
    calls .cuMemAllocHost (main_run env parser pkt s).state.log ≤ 1 := by
  unfold main_run
  simp -zeta only [exit_bind, pure_bind_prog]
  simp only [bind_apply, cuvidParseVideoData, emit_apply, andThen_ret, pure_apply,
    andThen_assoc]
  have hI2 : AllocInv { s with log := s.log ++ [.cuvidParseVideoData parser pkt] } := by
    have e : calls .cuMemAllocHost (s.log ++ [Event.cuvidParseVideoData parser pkt]) =
        calls .cuMemAllocHost s.log := by
      simp [calls_append, calls_cons, calls_nil, Event.api]
    exact ⟨by rw [show calls .cuMemAllocHost _ = _ from e]; exact hI.1,
      fun h => hI.2 (by rw [← e]; exact h)⟩
  obtain ⟨hc, hr⟩ := v2_run_callbacks_alloc env.sdk
    (env.sdk.cuvidParseVideoData (calls .cuvidParseVideoData s.log)).1 _ hI2
  cases h1 : run_callbacks (callbacks env.sdk)
      (env.sdk.cuvidParseVideoData (calls .cuvidParseVideoData s.log)).1
      { s with log := s.log ++ [.cuvidParseVideoData parser pkt] } with
  | exit code s2 =>
    rw [h1] at hc
    simpa [Outcome.andThen] using hc
  | ret u s3 =>
    have hI3 := hr s3 (by rw [h1])
    simp only [andThen_ret, prog_ite_apply, bind_apply, emit_apply, andThen_exit, exit_apply,
      pure_apply, printf, cuGetErrorString, ne_eq, ite_not, andThen_ite]
    split
    · obtain ⟨seg, hl, -, hP⟩ := (v2_main_cleanup_spec env parser
        { s3 with log := s3.log ++ [.cuvidParseVideoData_returned
          (env.sdk.cuvidParseVideoData (calls .cuvidParseVideoData s.log)).2] }).log_eq
      rw [andThen_pure_state, hl, calls_append, v2_cleanup_no_alloc seg hP]
      simpa [calls_append, calls_cons, calls_nil, Event.api] using hI3.1
    · simpa [Outcome.state, calls_append, calls_cons, calls_nil, Event.api] using hI3.1

/-- A run of v2 makes at most one allocation of the host buffer. -/
theorem v2_main_alloc (env : Env) : calls .cuMemAllocHost (main env).state.log ≤ 1 := by
  rcases v2_main_cases env with ⟨-, s1, hm, hP⟩ | ⟨-, -, s1, seg, hm, hl, hP⟩ | ⟨-, -, hm⟩
  · rw [hm]
    simp [Outcome.state, v2_init_no_alloc _ hP]
  · rw [hm]
    have : calls .cuMemAllocHost s1.log = 0 := by
      rw [hl, calls_append, v2_load_no_alloc _ hP]
      simp [init_state, State.init, calls_cons, calls_nil, Event.api]
    simp [Outcome.state, this]
  · rw [hm]
    exact v2_main_run_alloc env _ _ _ (v2_allocInv_of_zero (by
      simp [load_state, init_state, State.init, calls_cons, calls_nil, Event.api]))

end V2

/-! ## Teardown -/

namespace V0

end V0

namespace V1

end V1

namespace V2

end V2

/-! ## The claims -/

/-- C1 (counterexample): a run of v1 in which `cuvidDecodePicture` returns the status 1, not
`CUDA_SUCCESS`, and yet the process does not exit: `main` returns 0. -/
theorem C1_counterexample :
    (V1.main env_decode_fails).value = some 0 ∧
    Event.cuvidDecodePicture 7 pic_demo 1 ∈ (V1.main env_decode_fails).state.log := by
  rcases V1.v1_main_cases env_decode_fails with h | h | ⟨hi, hl, hm⟩
  · exact absurd (by simp [V1.init_ok, env_decode_fails, sdk_decode_fails, sdk_success]) h.1
  · exact absurd (by simp [V1.load_ok, env_decode_fails, sdk_decode_fails, sdk_success,
      env_success]) h.2.1
  · rw [hm]
    unfold V1.main_run
    simp -zeta only [exit_bind, pure_bind_prog]
    simp only [bind_apply, cuvidParseVideoData, emit_apply, andThen_ret, pure_apply,
      andThen_assoc]
    simp [env_decode_fails, sdk_decode_fails, sdk_success, env_success, run_callbacks,
      run_callback, V1.callbacks, V1.load_state, V1.init_state, State.init, V1.parser_params,
      bind_apply, pure_apply, andThen_ret, andThen_exit,
      V1.v1_parser_decode_picture_callback_eq, V1.v1_parser_sequence_callback_of_ok,
      V1.v1_main_cleanup_of_ok, V1.sequence_ok, V1.sequence_state, V1.cleanup_ok,
      V1.cleanup_state, calls_append, calls_cons, calls_nil, Event.api, nullptr,
      prog_ite_apply, exit_apply, getState_apply, printf, cuGetErrorString,
      Outcome.value, Outcome.state]

/-- C1 (amended): in each of the three programs, whenever an SDK call whose status the program
reads, other than `cuvidDecodePicture`, `cuvidMapVideoFrame` and `cuvidUnmapVideoFrame`,
returns a status other than `CUDA_SUCCESS`, the program prints a message and terminates the
process with `exit(EXIT_FAILURE)`, calling nothing but `cuGetErrorString` and `printf` after
the failed call.  A failed `cuvidDecodePicture` is only reported and the decode callback
returns 1; after a failed `cuvidMapVideoFrame` or `cuvidUnmapVideoFrame` the display callback,
when it returns, returns 0. -/
theorem C1_fail_stop_except_tolerated :
    (∀ (env : Env) (o : Outcome Int), o = V0.main env ∨ o = V1.main env ∨ o = V2.main env →
      ∀ pre e post, o.state.log = pre ++ e :: post →
        failed e = true → tolerated e.api = false →
        o.exitCode = some EXIT_FAILURE ∧ (∀ x ∈ post, isReport x = true) ∧
          ∃ msg, Event.printf msg ∈ post) ∧
    (∀ cb : Sdk → CUVIDPICPARAMS → Prog Int,
      cb = V0.parser_decode_picture_callback ∨ cb = V1.parser_decode_picture_callback ∨
        cb = V2.parser_decode_picture_callback →
      ∀ sdk pic s, s.decoder ≠ nullptr →
        sdk.cuvidDecodePicture (calls .cuvidDecodePicture s.log) ≠ CUDA_SUCCESS →
        cb sdk pic s = .ret 1 { s with log := s.log ++
          [.cuvidDecodePicture s.decoder pic
             (sdk.cuvidDecodePicture (calls .cuvidDecodePicture s.log)),
           .printf "Failed to decode the picture."] }) ∧
    (∀ cb : Sdk → CUVIDPARSERDISPINFO → Prog Int,
      cb = V0.parser_display_picture_callback ∨ cb = V1.parser_display_picture_callback ∨
        cb = V2.parser_display_picture_callback →
      ∀ sdk disp s a s1, cb sdk disp s = .ret a s1 →
        (sdk.cuvidMapVideoFrame (calls .cuvidMapVideoFrame s.log)).1 ≠ CUDA_SUCCESS ∨
          sdk.cuvidUnmapVideoFrame (calls .cuvidUnmapVideoFrame s.log) ≠ CUDA_SUCCESS →
        a = 0) := by
  refine ⟨?_, ?_, ?_⟩
  · intro env o ho pre e post hp hf ht
    have hfat : fatal e = true := by simp [fatal, hf, ht]
    rcases ho with rfl | rfl | rfl
    · exact spec_fail_stop rfl (V0.v0_main_spec env) pre e post hp hfat
    · exact spec_fail_stop rfl (V1.v1_main_spec env true (fun h => by simp at h)) pre e post hp
        hfat
    · exact spec_fail_stop rfl (V2.v2_main_spec env true (fun h => by simp at h)) pre e post hp
        hfat
  · intro cb hcb sdk pic s hd hr
    rcases hcb with rfl | rfl | rfl
    · rw [V0.v0_parser_decode_picture_callback_eq]; simp_all [nullptr]
    · rw [V1.v1_parser_decode_picture_callback_eq]; simp_all [nullptr]
    · rw [V2.v2_parser_decode_picture_callback_eq]; simp_all [nullptr]
  · intro cb hcb sdk disp s a s1 ho hfail
    have hv : a = display_value sdk s := by
      rcases hcb with rfl | rfl | rfl
      · exact ((V0.v0_parser_display_picture_callback_spec sdk disp s).of_ret ho).2
      · exact ((V1.v1_parser_display_picture_callback_spec sdk disp s).of_ret ho).2
      · exact ((V2.v2_parser_display_picture_callback_spec sdk disp s).of_ret ho).2.1
    rw [hv, display_value]
    rcases hfail with h | h <;> simp [h]

/-- C1 (witness): with an SDK whose `cuInit` fails, v0 prints and exits with `EXIT_FAILURE`. -/
theorem C1_fail_stop_except_tolerated_witness :
    (V0.main env_init_fails).state.log =
      [.printf "\n\nNvDecoder Test v0.\n\n"] ++ Event.cuInit 0 1 ::
        [.cuGetErrorString 1, .printf "Failed to initialize cuda: %s. (exiting).\n"] ∧
    (V0.main env_init_fails).exitCode = some EXIT_FAILURE := by
  have hl : (V0.main env_init_fails).state.log =
      [.printf "\n\nNvDecoder Test v0.\n\n"] ++ Event.cuInit 0 1 ::
        [.cuGetErrorString 1, .printf "Failed to initialize cuda: %s. (exiting).\n"] := by
    rw [V0.v0_main_eq]
    unfold V0.main_init
    simp -zeta only [exit_bind, pure_bind_prog]
    simp [bind_apply, pure_apply, andThen_ret, andThen_exit, exit_apply, emit_apply, printf,
      cuGetErrorString, cuInit, prog_ite_apply, env_init_fails, sdk_init_fails, sdk_success,
      env_success, State.init, calls_nil, calls_cons, Event.api, Outcome.state]
  exact ⟨hl, (C1_fail_stop_except_tolerated.1 env_init_fails _ (Or.inl rfl) _ _ _ hl rfl rfl).1⟩

/-- C2 (counterexample): with the coded size 2 by 3 and the pitch 4 the display callback of v2
returns 1 having appended 8 bytes to `out.nv12`, not 2 × 3 × 1.5 = 9. -/
theorem C2_counterexample :
    ∃ s1 bytes, V2.parser_display_picture_callback (sdk_success []) disp_demo state_odd_height
        = .ret 1 s1 ∧
      s1.out_nv12 = state_odd_height.out_nv12 ++ bytes ∧ bytes.length = 8 ∧
      (bytes.length : ℚ) ≠
        (state_odd_height.coded_width : ℚ) * (state_odd_height.coded_height : ℚ) * 1.5 := by
  obtain ⟨a, s1, h, -, ha, hw, -⟩ := (V2.v2_parser_display_picture_callback_spec
    (sdk_success []) disp_demo state_odd_height).ret_of_not (by
      simp [V2.display_ok, V2.buffer_of, V2.nbytes_of, V2.pitch_of, V2.yuv_nbytes,
        state_odd_height, state_ready, State.init, sdk_success, nullptr, u32, double_to_int])
  have hv : display_value (sdk_success []) state_odd_height = 1 := by
    simp [display_value, sdk_success]
  rw [hv] at ha
  subst ha
  have hlen : (V2.written (sdk_success []) state_odd_height).length = 8 := by
    rw [V2.v2_written_length]
    rfl
  refine ⟨s1, _, h, (hw rfl).2.1, hlen, ?_⟩
  rw [hlen]
  norm_num [state_odd_height]

/-- C2 (amended): for every coded width `w` and coded height `h` recorded by v2's sequence
callback and for every pitch reported by the SDK, each call of v2's
`parser_display_picture_callback` that returns 1 appends exactly `w × (h + floor(h / 2))` bytes
to `out.nv12` (a negative `w` or `h` counting as 0), which is `w × h × 1.5` when `w` and `h`
are not negative and `h` is even. -/
theorem C2_bytes_per_frame (sdk : Sdk) (disp : CUVIDPARSERDISPINFO) (s s1 : State)
    (h : V2.parser_display_picture_callback sdk disp s = .ret 1 s1) :
    ∃ bytes, s1.out_nv12 = s.out_nv12 ++ bytes ∧
      bytes.length =
        s.coded_width.toNat * (s.coded_height.toNat + s.coded_height.toNat / 2) ∧
      (0 ≤ s.coded_width → 0 ≤ s.coded_height → 2 ∣ s.coded_height →
        (bytes.length : ℚ) = (s.coded_width : ℚ) * (s.coded_height : ℚ) * 1.5) := by
  obtain ⟨-, ha, hw, -⟩ := (V2.v2_parser_display_picture_callback_spec sdk disp s).of_ret h
  have hmap : (sdk.cuvidMapVideoFrame (calls .cuvidMapVideoFrame s.log)).1 = CUDA_SUCCESS := by
    by_contra hne
    simp [display_value, hne] at ha
  refine ⟨_, (hw hmap).2.1, V2.v2_written_length sdk s, fun h0 h1 h2 => ?_⟩
  rw [V2.v2_written_length]
  obtain ⟨k, hk⟩ := h2
  have hk0 : 0 ≤ k := by omega
  have e1 : s.coded_height.toNat = 2 * k.toNat := by omega
  have e2 : (s.coded_height : ℚ) = 2 * (k.toNat : ℚ) := by
    rw [hk]
    push_cast
    rw [← Int.cast_natCast (R := ℚ), Int.toNat_of_nonneg hk0]
  have e3 : (s.coded_width : ℚ) = (s.coded_width.toNat : ℚ) := by
    rw [← Int.cast_natCast (R := ℚ), Int.toNat_of_nonneg h0]
  rw [e2, e3, e1]
  have e4 : 2 * k.toNat / 2 = k.toNat := by omega
  rw [e4]
  push_cast
  ring

/-- C2 (witness): with the coded size 4 by 2 the call appends 12 = 4 × 2 × 1.5 bytes. -/
theorem C2_bytes_per_frame_witness :
    ∃ s1 bytes, V2.parser_display_picture_callback (sdk_success []) disp_demo state_ready
        = .ret 1 s1 ∧
      s1.out_nv12 = state_ready.out_nv12 ++ bytes ∧ bytes.length = 12 := by
  obtain ⟨a, s1, h, -, ha, -⟩ := (V2.v2_parser_display_picture_callback_spec
    (sdk_success []) disp_demo state_ready).ret_of_not (by
      simp [V2.display_ok, V2.buffer_of, V2.nbytes_of, V2.pitch_of, V2.yuv_nbytes,
        state_ready, State.init, sdk_success, nullptr, u32, double_to_int])
  have hv : display_value (sdk_success []) state_ready = 1 := by
    simp [display_value, sdk_success]
  rw [hv] at ha
  subst ha
  obtain ⟨bytes, h1, h2, -⟩ := C2_bytes_per_frame (sdk_success []) disp_demo state_ready s1 h
  exact ⟨s1, bytes, h, h1, h2⟩

theorem u32_lt (z : Int) : u32 z < 4294967296 := by
  unfold u32
  omega

/-- A row offset can only wrap around after a row was read outside the buffer: if the rows
have at least one byte, the buffer has fewer than `2^31` bytes (its size is an `int`) and every
luma row the first loop reads lies inside the buffer, at the offset the program computes,
then `h · p` is below `2^32`. -/
theorem v2_no_wrap_of_reads_in_buffer (p h w n : Nat) (hp : p < 4294967296)
    (hn : n < 2147483648) (hw : 0 < w)
    (hin : ∀ j : Nat, j < h → V2.luma_offset p (j : Int) + w ≤ n) : h * p < 4294967296 := by
  by_contra hge
  have hge : 4294967296 ≤ h * p := Nat.le_of_not_lt hge
  have key : ∀ j : Nat, j < h → j * p < 4294967296 → j * p < 2147483648 := by
    intro j hj hlt
    have h1 := hin j hj
    unfold V2.luma_offset at h1
    have h2 : ((j : Int) * (p : Int)) = ((j * p : Nat) : Int) := by push_cast; ring
    rw [h2, u32_of_lt _ hlt] at h1
    omega
  by_cases hbig : 2147483648 ≤ p
  · have h2 : 1 < h := by
      by_contra hh
      have : h * p ≤ 1 * p := Nat.mul_le_mul_right p (by omega)
      omega
    have := key 1 h2 (by omega)
    omega
  · have hp0 : 0 < p := by
      by_contra h0
      have : p = 0 := by omega
      rw [this] at hge
      omega
    have hd := Nat.div_mul_le_self (2147483648 + p - 1) p
    have hm := Nat.lt_div_mul_add (a := 2147483648 + p - 1) hp0
    have hj : (2147483648 + p - 1) / p < h := by
      apply Nat.lt_of_mul_lt_mul_right (a := p)
      omega
    have := key _ hj (by omega)
    omega

/-- With rows of no byte the two loops write nothing, as the picture has nothing. -/
theorem v2_written_eq_nv12_of_no_width (sdk : Sdk) (s : State) (hw : s.coded_width.toNat = 0) :
    V2.written sdk s =
      V2.nv12_picture (V2.host_of sdk s) (V2.pitch_of sdk s) s.coded_width.toNat
        s.coded_height.toNat := by
  have h1 : V2.written sdk s = [] := by
    apply List.eq_nil_of_length_eq_zero
    rw [V2.v2_written_length, hw, Nat.zero_mul]
  rw [h1, hw]
  simp [V2.nv12_picture, V2.row]

/-- What the two loops write when no offset wraps: for every frame that v2's
`parser_display_picture_callback` writes with `coded_height · pitch` below `2^32`, the bytes
appended to `out.nv12` are a raw NV12 picture of size `coded_width × coded_height` taken from
the copied surface: first, for `j = 0 .. coded_height-1`, the `coded_width` bytes starting at
offset `j·pitch` of the host buffer, then, for `j = 0 .. floor(coded_height/2)-1`, the
`coded_width` bytes starting at offset `coded_height·pitch + j·pitch`, in that order and with
nothing else in between. -/
theorem v2_nv12_layout_without_wrap (sdk : Sdk) (disp : CUVIDPARSERDISPINFO) (s : State)
    (a : Int) (s1 : State) (h : V2.parser_display_picture_callback sdk disp s = .ret a s1)
    (hmap : (sdk.cuvidMapVideoFrame (calls .cuvidMapVideoFrame s.log)).1 = CUDA_SUCCESS)
    (hn : s.coded_height.toNat * V2.pitch_of sdk s < 4294967296) :
    s1.out_nv12 = s.out_nv12 ++
      V2.nv12_picture s1.host (V2.pitch_of sdk s) s.coded_width.toNat s.coded_height.toNat ∧
    V2.nv12_picture s1.host (V2.pitch_of sdk s) s.coded_width.toNat s.coded_height.toNat =
      (List.range s.coded_height.toNat).flatMap (fun j =>
        (List.range s.coded_width.toNat).map (fun i => s1.host (j * V2.pitch_of sdk s + i))) ++
      (List.range (s.coded_height.toNat / 2)).flatMap (fun j =>
        (List.range s.coded_width.toNat).map (fun i =>
          s1.host (s.coded_height.toNat * V2.pitch_of sdk s + j * V2.pitch_of sdk s + i))) := by
  obtain ⟨-, -, hw, -⟩ := (V2.v2_parser_display_picture_callback_spec sdk disp s).of_ret h
  obtain ⟨-, hout, hhost, -⟩ := hw hmap
  refine ⟨?_, rfl⟩
  rw [hout, hhost, V2.v2_written_eq_nv12 sdk s hn]

/-- With the coded size 4 by 2 and the pitch 4 the frame written is the two luma rows and the
chroma row of the surface copied, which holds the byte `i` at offset `i`. -/
theorem v2_nv12_layout_without_wrap_example :
    ∃ s1, V2.parser_display_picture_callback (sdk_success []) disp_demo state_ready
        = .ret 1 s1 ∧
      s1.out_nv12 = state_ready.out_nv12 ++
        V2.nv12_picture s1.host (V2.pitch_of (sdk_success []) state_ready)
          state_ready.coded_width.toNat state_ready.coded_height.toNat := by
  obtain ⟨a, s1, h, -, ha, -⟩ := (V2.v2_parser_display_picture_callback_spec
    (sdk_success []) disp_demo state_ready).ret_of_not (by
      simp [V2.display_ok, V2.buffer_of, V2.nbytes_of, V2.pitch_of, V2.yuv_nbytes,
        state_ready, State.init, sdk_success, nullptr, u32, double_to_int])
  have hv : display_value (sdk_success []) state_ready = 1 := by
    simp [display_value, sdk_success]
  rw [hv] at ha
  subst ha
  exact ⟨s1, h, (v2_nv12_layout_without_wrap (sdk_success []) disp_demo state_ready 1 s1 h rfl
    (by simp [V2.pitch_of, state_ready, sdk_success, u32])).1⟩

/-- What the two loops write when they read inside the buffer: for every frame that v2's
`parser_display_picture_callback` writes, if the size of the buffer is below `2^31` (it is an
`int`) and every luma row the first loop reads lies inside the buffer, then the bytes appended
to `out.nv12` are the raw NV12 picture of size `coded_width × coded_height` of the copied
surface, the row `j` at offset `j·pitch` and the chroma row `j` at
`coded_height·pitch + j·pitch`. -/
theorem v2_nv12_layout_of_reads_in_buffer (sdk : Sdk) (disp : CUVIDPARSERDISPINFO) (s : State)
    (a : Int) (s1 : State) (h : V2.parser_display_picture_callback sdk disp s = .ret a s1)
    (hmap : (sdk.cuvidMapVideoFrame (calls .cuvidMapVideoFrame s.log)).1 = CUDA_SUCCESS)
    (hsize : V2.nbytes_of sdk s < 2147483648)
    (hin : ∀ j : Nat, j < s.coded_height.toNat →
      V2.luma_offset (V2.pitch_of sdk s) (j : Int) + s.coded_width.toNat ≤
        (V2.nbytes_of sdk s).toNat) :
    s1.out_nv12 = s.out_nv12 ++
      V2.nv12_picture s1.host (V2.pitch_of sdk s) s.coded_width.toNat s.coded_height.toNat := by
  obtain ⟨-, -, hw, -⟩ := (V2.v2_parser_display_picture_callback_spec sdk disp s).of_ret h
  obtain ⟨-, hout, hhost, -⟩ := hw hmap
  rw [hout, hhost]
  congr 1
  by_cases h0 : s.coded_width.toNat = 0
  · exact v2_written_eq_nv12_of_no_width sdk s h0
  · exact V2.v2_written_eq_nv12 sdk s (v2_no_wrap_of_reads_in_buffer (V2.pitch_of sdk s)
      s.coded_height.toNat s.coded_width.toNat (V2.nbytes_of sdk s).toNat (u32_lt _)
      (by omega) (by omega) hin)

/-- With the coded size 4 by 2 and the pitch 4 the buffer has 12 bytes and the two luma rows
are read at the offsets 0 and 4, inside it. -/
theorem v2_nv12_layout_of_reads_in_buffer_example :
    ∃ s1, V2.parser_display_picture_callback (sdk_success []) disp_demo state_ready
        = .ret 1 s1 ∧
      s1.out_nv12 = state_ready.out_nv12 ++
        V2.nv12_picture s1.host (V2.pitch_of (sdk_success []) state_ready)
          state_ready.coded_width.toNat state_ready.coded_height.toNat := by
  have hp : V2.pitch_of (sdk_success []) state_ready = 4 := by
    simp [V2.pitch_of, sdk_success, u32]
  have hs : V2.nbytes_of (sdk_success []) state_ready = 12 := by
    unfold V2.nbytes_of
    rw [if_pos (show state_ready.yuv_buffer = nullptr from rfl), hp]
    simp [V2.yuv_nbytes, state_ready, u32, double_to_int]
  obtain ⟨a, s1, h, -, ha, -⟩ := (V2.v2_parser_display_picture_callback_spec
    (sdk_success []) disp_demo state_ready).ret_of_not (by
      simp [V2.display_ok, V2.buffer_of, V2.nbytes_of, V2.pitch_of, V2.yuv_nbytes,
        state_ready, State.init, sdk_success, nullptr, u32, double_to_int])
  have hv : display_value (sdk_success []) state_ready = 1 := by
    simp [display_value, sdk_success]
  rw [hv] at ha
  subst ha
  refine ⟨s1, h, v2_nv12_layout_of_reads_in_buffer (sdk_success []) disp_demo state_ready 1 s1
    h rfl (by rw [hs]; decide) ?_⟩
  intro j hj
  rw [hp, hs]
  have hj2 : j < 2 := hj
  have e : state_ready.coded_width.toNat = 4 := rfl
  rw [e]
  interval_cases j <;> simp [V2.luma_offset, u32]

/-- C4: in every version, whenever `parser_sequence_callback` has run and returned, the global
decoder handle is non-null, assuming that a `cuvidCreateDecoder` call that returns
`CUDA_SUCCESS` stores a non-null handle.  In v1 and v2 the callback itself leaves a decoder
when it returns; and in the three versions, in the state of the run right after the first `k`
callbacks of the parse call, one of which was a sequence callback (the one of index `j`), the
decoder is non-null. -/
theorem C4_decoder_non_null_after_sequence (env : Env)
    (hSdk : ∀ n, (env.sdk.cuvidCreateDecoder n).1 = CUDA_SUCCESS →
      (env.sdk.cuvidCreateDecoder n).2 ≠ nullptr) :
    (∀ cb : Sdk → CUVIDEOFORMAT → Prog Int,
      cb = V1.parser_sequence_callback ∨ cb = V2.parser_sequence_callback →
      ∀ fmt s a s1, cb env.sdk fmt s = .ret a s1 → s1.decoder ≠ nullptr) ∧
    (∀ upto : Env → Nat → Outcome Unit,
      upto = V0.main_upto ∨ upto = V1.main_upto ∨ upto = V2.main_upto →
      ∀ j k fmt s, (env.sdk.cuvidParseVideoData 0).1[j]? = some (.sequence fmt) → j < k →
        upto env k = .ret () s → s.decoder ≠ nullptr) := by
  refine ⟨?_, ?_⟩
  · intro cb hcb fmt s a s1 h
    rcases hcb with rfl | rfl
    · exact V1.v1_sequence_decoder env.sdk hSdk fmt s a s1 h
    · exact V2.v2_sequence_decoder env.sdk hSdk fmt s a s1 h
  · intro upto hu j k fmt s hj hjk h
    have hmem : ParserCallback.sequence fmt ∈ (env.sdk.cuvidParseVideoData 0).1.take k := by
      have hj2 : ((env.sdk.cuvidParseVideoData 0).1.take k)[j]? =
          some (ParserCallback.sequence fmt) := by
        rw [List.getElem?_take_of_lt hjk]
        exact hj
      exact List.getElem?_mem hj2
    rcases hu with rfl | rfl | rfl
    · exact V0.v0_main_upto_decoder env hSdk k s h
    · exact V1.v1_main_upto_decoder env hSdk k fmt hmem s h
    · exact V2.v2_main_upto_decoder env hSdk k fmt hmem s h

/-- C4 (witness): the run of v1 in which every call succeeds, cut right after the sequence
callback the parser makes first, has a decoder. -/
theorem C4_decoder_non_null_after_sequence_witness :
    ∃ s, V1.main_upto (env_success [.sequence fmt_demo, .decode pic_demo]) 1 = .ret () s ∧
      s.decoder ≠ nullptr := by
  have h : ∃ s, V1.main_upto (env_success [.sequence fmt_demo, .decode pic_demo]) 1 =
      .ret () s := by
    rw [V1.v1_main_upto_eq, V1.v1_main_init_of_ok _ _ (by
      simp [V1.init_ok, env_success, sdk_success]), andThen_ret, V1.v1_main_load_of_ok _ _ (by
      simp [V1.load_ok, env_success, sdk_success]), andThen_ret]
    simp [env_success, sdk_success, run_callbacks, run_callback, V1.callbacks, V1.load_state,
      V1.init_state, State.init, V1.parser_params, bind_apply, pure_apply, andThen_ret,
      V1.v1_parser_sequence_callback_of_ok, V1.sequence_ok, calls_append, calls_cons,
      calls_nil, Event.api, nullptr]
  obtain ⟨s, hs⟩ := h
  exact ⟨s, hs, (C4_decoder_non_null_after_sequence
    (env_success [.sequence fmt_demo, .decode pic_demo])
    (fun n _ => by simp [env_success, sdk_success, nullptr])).2 V1.main_upto
    (Or.inr (Or.inl rfl)) 0 1 fmt_demo s rfl (by decide) hs⟩

/-- C5: v0 creates the decode session upfront with hardcoded dimensions.  On every run every
`cuvidCreateDecoder` call is made with `create_info`, whose `ulWidth` and `ulTargetWidth` are
512 and whose `ulHeight` and `ulTargetHeight` are 384, whatever the stream holds; the call is
made as soon as the six calls before it succeeded; every `cuvidCreateVideoParser` call and
every `cuvidParseVideoData` call of the run comes after it; and the sequence callback of v0,
whatever format it is given, returns 0 having printed only: the decoder is the same and no
SDK call was made. -/
theorem C5_v0_decoder_upfront (env : Env) :
    (V0.create_info.ulWidth = 512 ∧ V0.create_info.ulTargetWidth = 512 ∧
      V0.create_info.ulHeight = 384 ∧ V0.create_info.ulTargetHeight = 384) ∧
    (∀ info r dec, Event.cuvidCreateDecoder info r dec ∈ (V0.main env).state.log →
      info = V0.create_info) ∧
    (env.sdk.cuInit 0 = CUDA_SUCCESS → (env.sdk.cuDeviceGetCount 0).1 = CUDA_SUCCESS →
      (env.sdk.cuDeviceGet 0).1 = CUDA_SUCCESS → env.sdk.cuDeviceGetName 0 = CUDA_SUCCESS →
      (env.sdk.cuCtxCreate 0).1 = CUDA_SUCCESS →
      (env.sdk.cuvidGetDecoderCaps 0).1 = CUDA_SUCCESS →
      Event.cuvidCreateDecoder V0.create_info (env.sdk.cuvidCreateDecoder 0).1
        (env.sdk.cuvidCreateDecoder 0).2 ∈ (V0.main env).state.log) ∧
    (∀ pre e post, (V0.main env).state.log = pre ++ e :: post →
      e.api = .cuvidCreateVideoParser ∨ e.api = .cuvidParseVideoData →
      Event.cuvidCreateDecoder V0.create_info CUDA_SUCCESS (env.sdk.cuvidCreateDecoder 0).2
        ∈ pre) ∧
    (∀ fmt s, ∃ s1 seg, V0.parser_sequence_callback fmt s = .ret 0 s1 ∧
      s1.decoder = s.decoder ∧ s1.log = s.log ++ seg ∧ ∀ x ∈ seg, isPrintf x = true) := by
  refine ⟨⟨rfl, rfl, rfl, rfl⟩, ?_, ?_, ?_, ?_⟩
  · intro info r dec hm
    have h := (spec_clean rfl (V0.v0_main_spec env)).2 _ hm
    simpa [V0.mainP, V0.initP, V0.loadP, V0.runP, V0.restP, V0.cbP, V0.cleanupP, Event.api]
      using h
  · intro h1 h2 h3 h4 h5 h6
    by_cases h7 : (env.sdk.cuvidCreateDecoder 0).1 = CUDA_SUCCESS
    · have hi : V0.init_ok env (State.init env) := by
        simp [V0.init_ok, State.init, calls_nil, h1, h2, h3, h4, h5, h6, h7]
      rcases V0.v0_main_cases env with ⟨h, -⟩ | ⟨-, -, s1, seg, hm, hl, -⟩ | ⟨-, -, hm⟩
      · exact absurd hi h
      · rw [hm]
        simp [Outcome.state, hl, V0.init_state, State.init, calls_nil, h7]
      · rw [hm]
        obtain ⟨seg, hlog, -, -⟩ := (V0.v0_main_run_spec env (env.sdk.cuvidCreateVideoParser 0).2
          (V0.packet env) (V0.load_state env (V0.init_state env (State.init env)))).log_eq
        rw [hlog]
        simp [V0.load_state, V0.init_state, State.init, calls_nil, h7]
    · have h8 : ¬CUDA_SUCCESS = (env.sdk.cuvidCreateDecoder 0).1 := fun h => h7 h.symm
      rw [V0.v0_main_eq]
      unfold V0.main_init
      simp -zeta only [exit_bind, pure_bind_prog]
      simp [bind_apply, pure_apply, andThen_ret, andThen_exit, exit_apply, emit_apply, printf,
        cuGetErrorString, cuInit, cuDeviceGetCount, cuDeviceGet, cuDeviceGetName, cuCtxCreate,
        cuvidGetDecoderCaps, cuvidCreateDecoder, getState_apply, prog_ite_apply, State.init,
        calls_nil, calls_cons, calls_append, Event.api, Outcome.state, h1, h2, h3, h4, h5, h6,
        h8]
  · intro pre e post hp he
    have hne : ∀ x, V0.initP x = true → x ≠ e := by
      intro x hx hxe
      subst hxe
      rcases he with he | he <;> cases x <;> simp_all [V0.initP, Event.api]
    rcases V0.v0_main_cases env with ⟨-, s1, hm, hP⟩ | ⟨-, -, s1, seg, hm, hl, -⟩ | ⟨-, -, hm⟩
    · rw [hm] at hp
      have : e ∈ s1.log := by simp [show s1.log = pre ++ e :: post from hp]
      exact absurd rfl (hne e (hP e this))
    · rw [hm] at hp
      have hsplit : (V0.init_state env (State.init env)).log ++ seg = pre ++ e :: post := by
        rw [← hl]; exact hp
      obtain ⟨q, rfl, -⟩ := split_after_prefix hsplit (fun hmem => by
        have : V0.initP e = true := by
          simp only [V0.init_state, State.init, List.nil_append] at hmem
          simp only [List.mem_cons, List.mem_singleton, List.not_mem_nil, or_false] at hmem
          rcases hmem with rfl | rfl | rfl | rfl | rfl | rfl | rfl | rfl | rfl | rfl <;> rfl
        exact hne e this rfl)
      simp [V0.init_state, State.init, calls_nil]
    · rw [hm] at hp
      obtain ⟨seg, hlog, -, -⟩ := (V0.v0_main_run_spec env (env.sdk.cuvidCreateVideoParser 0).2
        (V0.packet env) (V0.load_state env (V0.init_state env (State.init env)))).log_eq
      have hsplit : (V0.init_state env (State.init env)).log ++
          ([.cuvidCreateVideoParser V0.parser_params CUDA_SUCCESS
              (env.sdk.cuvidCreateVideoParser (calls .cuvidCreateVideoParser
                (V0.init_state env (State.init env)).log)).2,
            .printf "Loaded %s which holds %zu bytes.\n"] ++ seg) = pre ++ e :: post := by
        rw [← hp, hlog]
        simp [V0.load_state]
      obtain ⟨q, rfl, -⟩ := split_after_prefix hsplit (fun hmem => by
        have : V0.initP e = true := by
          simp only [V0.init_state, State.init, List.nil_append] at hmem
          simp only [List.mem_cons, List.mem_singleton, List.not_mem_nil, or_false] at hmem
          rcases hmem with rfl | rfl | rfl | rfl | rfl | rfl | rfl | rfl | rfl | rfl <;> rfl
        exact hne e this rfl)
      simp [V0.init_state, State.init, calls_nil]
  · intro fmt s
    exact ⟨_, _, V0.v0_parser_sequence_callback_eq fmt s, rfl, rfl, by simp [isPrintf]⟩

/-- C5 (witness): when every call succeeds, v0 creates the decoder 7 with `create_info`, and
the sequence callback it is then given makes no difference to that. -/
theorem C5_v0_decoder_upfront_witness :
    Event.cuvidCreateDecoder V0.create_info CUDA_SUCCESS 7 ∈
      (V0.main (env_success [.sequence fmt_demo])).state.log :=
  (C5_v0_decoder_upfront (env_success [.sequence fmt_demo])).2.2.1 rfl rfl rfl rfl rfl rfl

/-- C6: in v1 and v2 the decode session is created lazily with the negotiated dimensions.
`main` never calls `cuvidCreateDecoder` itself: on a run in which the parser makes no sequence
callback there is no such call at all.  And for every format `fmt` given to the sequence
callback, every `cuvidCreateDecoder` call the callback makes is with `create_info fmt`, a call
it has made whenever it returns, where `ulWidth` and `ulTargetWidth` are `fmt.coded_width`,
`ulHeight` and `ulTargetHeight` are `fmt.coded_height`, and the codec, the chroma format and
the bit depth are those of `fmt`. -/
theorem C6_decoder_created_lazily :
    (∀ (env : Env) (o : Outcome Int), o = V1.main env ∨ o = V2.main env →
      (∀ n fmt, ParserCallback.sequence fmt ∉ (env.sdk.cuvidParseVideoData n).1) →
      ∀ e ∈ o.state.log, e.api ≠ .cuvidCreateDecoder) ∧
    (∀ (cb : Sdk → CUVIDEOFORMAT → Prog Int) (create : CUVIDEOFORMAT → CUVIDDECODECREATEINFO),
      (cb = V1.parser_sequence_callback ∧ create = V1.create_info) ∨
        (cb = V2.parser_sequence_callback ∧ create = V2.create_info) →
      ∀ sdk fmt s,
        (∀ seg, (cb sdk fmt s).state.log = s.log ++ seg →
          ∀ info r dec, Event.cuvidCreateDecoder info r dec ∈ seg → info = create fmt) ∧
        (∀ a s1, cb sdk fmt s = .ret a s1 →
          ∃ seg, s1.log = s.log ++ seg ∧
            Event.cuvidCreateDecoder (create fmt) CUDA_SUCCESS s1.decoder ∈ seg) ∧
        (create fmt).ulWidth = fmt.coded_width ∧ (create fmt).ulTargetWidth = fmt.coded_width ∧
        (create fmt).ulHeight = fmt.coded_height ∧
        (create fmt).ulTargetHeight = fmt.coded_height ∧
        (create fmt).CodecType = fmt.codec ∧ (create fmt).ChromaFormat = fmt.chroma_format ∧
        (create fmt).bitDepthMinus8 = fmt.bit_depth_luma_minus8) := by
  refine ⟨?_, ?_⟩
  · intro env o ho hseq e he
    have hP : (V1.mainP false env e = true) ∨ (V2.mainP false env e = true) := by
      rcases ho with rfl | rfl
      · exact Or.inl ((spec_clean rfl (V1.v1_main_spec env false (fun _ => hseq))).2 e he)
      · exact Or.inr ((spec_clean rfl (V2.v2_main_spec env false (fun _ => hseq))).2 e he)
    rcases hP with hP | hP <;> cases e <;> first
      | (simp only [Event.api, ne_eq, reduceCtorEq, not_false_eq_true]; done)
      | simp [V1.mainP, V1.initP, V1.loadP, V1.runP, V1.restP, V1.cbP, V1.picP, V1.cleanupP,
          V2.mainP, V2.initP, V2.loadP, V2.runP, V2.restP, V2.cbP, V2.picP, V2.cleanupP,
          Event.api] at hP
  · intro cb create hcb sdk fmt s
    rcases hcb with ⟨rfl, rfl⟩ | ⟨rfl, rfl⟩
    · refine ⟨?_, ?_, rfl, rfl, rfl, rfl, rfl, rfl, rfl⟩
      · intro seg hseg info r dec hm
        obtain ⟨seg1, hl, -, hP⟩ := (V1.v1_parser_sequence_callback_spec sdk fmt s).log_eq
        rw [hseg] at hl
        have := hP _ ((List.append_cancel_left hl) ▸ hm)
        simpa [V1.seqP] using this
      · intro a s1 ho
        obtain ⟨-, hs, -⟩ := (V1.v1_parser_sequence_callback_spec sdk fmt s).of_ret ho
        rw [hs]
        exact ⟨_, rfl, by simp [V1.sequence_state]⟩
    · refine ⟨?_, ?_, rfl, rfl, rfl, rfl, rfl, rfl, rfl⟩
      · intro seg hseg info r dec hm
        obtain ⟨seg1, hl, -, hP⟩ := (V2.v2_parser_sequence_callback_spec sdk fmt s).log_eq
        rw [hseg] at hl
        have := hP _ ((List.append_cancel_left hl) ▸ hm)
        simpa [V2.seqP] using this
      · intro a s1 ho
        obtain ⟨-, hs, -⟩ := (V2.v2_parser_sequence_callback_spec sdk fmt s).of_ret ho
        rw [hs]
        exact ⟨_, rfl, by simp [V2.sequence_state]⟩

/-- C6 (witness): given the 4 by 2 format, the sequence callback of v1 creates the decoder
with `create_info` of that format. -/
theorem C6_decoder_created_lazily_witness :
    ∃ seg, (V1.sequence_state (sdk_success []) fmt_demo state_ready).log =
        state_ready.log ++ seg ∧
      Event.cuvidCreateDecoder (V1.create_info fmt_demo) CUDA_SUCCESS
        (V1.sequence_state (sdk_success []) fmt_demo state_ready).decoder ∈ seg :=
  (C6_decoder_created_lazily.2 _ _ (Or.inl ⟨rfl, rfl⟩) (sdk_success []) fmt_demo
    state_ready).2.1 20 _ (V1.v1_parser_sequence_callback_of_ok _ _ _ (by
      simp [V1.sequence_ok, state_ready, sdk_success, nullptr]))

/-- C7 (the code leaks a decoder): on the run of v1 in which every call succeeds and the
parser makes two sequence callbacks, `main` returns 0, the decoders 7 and 8 were created and
only the decoder 8 was destroyed: the second callback overwrote the handle of the first. -/
theorem C7_v1_leaks_first_decoder :
    (V1.main (env_success [.sequence fmt_demo, .sequence fmt_demo])).value = some 0 ∧
    created_decoders (V1.main (env_success [.sequence fmt_demo, .sequence fmt_demo])).state.log
      = [7, 8] ∧
    destroyed_decoders (V1.main (env_success [.sequence fmt_demo, .sequence fmt_demo])).state.log
      = [8] := by
  rcases V1.v1_main_cases (env_success [.sequence fmt_demo, .sequence fmt_demo]) with
    h | h | ⟨hi, hl, hm⟩
  · exact absurd (by simp [V1.init_ok, env_success, sdk_success]) h.1
  · exact absurd (by simp [V1.load_ok, env_success, sdk_success]) h.2.1
  · rw [hm]
    unfold V1.main_run
    simp -zeta only [exit_bind, pure_bind_prog]
    simp only [bind_apply, cuvidParseVideoData, emit_apply, andThen_ret, pure_apply,
      andThen_assoc]
    refine ⟨?_, ?_, ?_⟩ <;>
      simp [sdk_success, env_success, run_callbacks,
        run_callback, V1.callbacks, V1.load_state, V1.init_state, State.init,
        V1.parser_params, bind_apply, pure_apply, andThen_ret, andThen_exit,
        V1.v1_parser_sequence_callback_of_ok,
        V1.v1_main_cleanup_of_ok, V1.sequence_ok, V1.sequence_state, V1.cleanup_ok,
        V1.cleanup_state, calls_append, calls_cons, calls_nil, Event.api, nullptr,
        prog_ite_apply, exit_apply, getState_apply, printf, cuGetErrorString,
        Outcome.value, Outcome.state] <;>
      rfl

/-- C7 (the same in v2): on the run of v2 in which every call succeeds and the
parser makes two sequence callbacks, `main` returns 0, the decoders 7 and 8 were created and
only the decoder 8 was destroyed: the second callback overwrote the handle of the first. -/
theorem C7_v2_leaks_first_decoder :
    (V2.main (env_success [.sequence fmt_demo, .sequence fmt_demo])).value = some 0 ∧
    created_decoders (V2.main (env_success [.sequence fmt_demo, .sequence fmt_demo])).state.log
      = [7, 8] ∧
    destroyed_decoders (V2.main (env_success [.sequence fmt_demo, .sequence fmt_demo])).state.log
      = [8] := by
  rcases V2.v2_main_cases (env_success [.sequence fmt_demo, .sequence fmt_demo]) with
    h | h | ⟨hi, hl, hm⟩
  · exact absurd (by simp [V2.init_ok, env_success, sdk_success]) h.1
  · exact absurd (by simp [V2.load_ok, env_success, sdk_success]) h.2.1
  · rw [hm]
    unfold V2.main_run
    simp -zeta only [exit_bind, pure_bind_prog]
    simp only [bind_apply, cuvidParseVideoData, emit_apply, andThen_ret, pure_apply,
      andThen_assoc]
    refine ⟨?_, ?_, ?_⟩ <;>
      simp [sdk_success, env_success, run_callbacks,
        run_callback, V2.callbacks, V2.load_state, V2.init_state, State.init,
        V2.parser_params, bind_apply, pure_apply, andThen_ret, andThen_exit,
        V2.v2_parser_sequence_callback_of_ok,
        V2.v2_main_cleanup_of_ok, V2.sequence_ok, V2.sequence_state, V2.cleanup_ok,
        V2.cleanup_state, calls_append, calls_cons, calls_nil, Event.api, nullptr,
        prog_ite_apply, exit_apply, getState_apply, printf, cuGetErrorString,
        Outcome.value, Outcome.state] <;>
      rfl

/-- C8: in each of the three programs the parser parameters `params` that `main` builds
register the three callbacks, and on every run `main` calls `cuvidParseVideoData` at most
once; when it does (the run reaches the parsing step) it is exactly once, after
`cuvidCreateVideoParser` succeeded with `params` and returned the parser the packet is given
to, and the packet has `payload_size` the size of the input file, `flags` 0 and `timestamp`
0. -/
theorem C8_single_packet (env : Env) (o : Outcome Int) (params : CUVIDPARSERPARAMS)
    (ho : (o = V0.main env ∧ params = V0.parser_params) ∨
      (o = V1.main env ∧ params = V1.parser_params) ∨
      (o = V2.main env ∧ params = V2.parser_params)) :
    (params.pfnSequenceCallback = some .parser_sequence_callback ∧
      params.pfnDecodePicture = some .parser_decode_picture_callback ∧
      params.pfnDisplayPicture = some .parser_display_picture_callback) ∧
    calls .cuvidParseVideoData o.state.log ≤ 1 ∧
    ∀ h pkt, Event.cuvidParseVideoData h pkt ∈ o.state.log →
      calls .cuvidParseVideoData o.state.log = 1 ∧
      pkt.payload_size = env.ifs_size ∧ pkt.flags = 0 ∧ pkt.timestamp = 0 ∧
      ∃ pre post, o.state.log = pre ++ Event.cuvidParseVideoData h pkt :: post ∧
        Event.cuvidCreateVideoParser params CUDA_SUCCESS h ∈ pre := by
  rcases ho with ⟨rfl, rfl⟩ | ⟨rfl, rfl⟩ | ⟨rfl, rfl⟩
  · refine ⟨⟨rfl, rfl, rfl⟩, (V0.v0_parse_once env).1, fun h pkt hm => ?_⟩
    obtain ⟨hc, rfl, rfl, post, hl⟩ := (V0.v0_parse_once env).2 h pkt hm
    exact ⟨hc, rfl, rfl, rfl, _, post, hl, by
      simp [V0.load_state, V0.init_state, State.init, calls_cons, calls_nil, Event.api]⟩
  · refine ⟨⟨rfl, rfl, rfl⟩, (V1.v1_parse_once env).1, fun h pkt hm => ?_⟩
    obtain ⟨hc, rfl, rfl, post, hl⟩ := (V1.v1_parse_once env).2 h pkt hm
    exact ⟨hc, rfl, rfl, rfl, _, post, hl, by
      simp [V1.load_state, V1.init_state, State.init, calls_cons, calls_nil, Event.api]⟩
  · refine ⟨⟨rfl, rfl, rfl⟩, (V2.v2_parse_once env).1, fun h pkt hm => ?_⟩
    obtain ⟨hc, rfl, rfl, post, hl⟩ := (V2.v2_parse_once env).2 h pkt hm
    exact ⟨hc, rfl, rfl, rfl, _, post, hl, by
      simp [V2.load_state, V2.init_state, State.init, calls_cons, calls_nil, Event.api]⟩

/-- C8 (witness): a run of v1 in which every call succeeds gives one packet of 1000 bytes, the
size of the input file, to the parser 9. -/
theorem C8_single_packet_witness :
    calls .cuvidParseVideoData (V1.main (env_success [.sequence fmt_demo])).state.log = 1 ∧
    (V1.packet (env_success [.sequence fmt_demo])).payload_size = 1000 :=
  have h := (C8_single_packet (env_success [.sequence fmt_demo]) _ V1.parser_params
    (Or.inr (Or.inl ⟨rfl, rfl⟩))).2.2 _ _
      (V1.v1_parse_reached (env_success [.sequence fmt_demo])
        (by simp [V1.init_ok, env_success, sdk_success])
        (by simp [V1.load_ok, env_success, sdk_success]))
  ⟨h.1, h.2.1⟩

/-- C9: in each of the three programs, `main` returns 0 only if the input file was opened and
every SDK call that `main` makes and checks returned `CUDA_SUCCESS` (`cuInit`,
`cuDeviceGetCount`, `cuDeviceGet`, `cuDeviceGetName`, `cuCtxCreate`, `cuvidCreateVideoParser`,
`cuvidParseVideoData` and the destroy calls; in v0, where `b` is `true`, also
`cuvidGetDecoderCaps` and `cuvidCreateDecoder`); and when such a call fails the process exits
with `EXIT_FAILURE`, calling nothing after it but `cuGetErrorString` and `printf`. -/
theorem C9_main_returns_zero_only_after_success (env : Env) (o : Outcome Int) (b : Bool)
    (ho : (o = V0.main env ∧ b = true) ∨ (o = V1.main env ∧ b = false) ∨
      (o = V2.main env ∧ b = false)) :
    (o.value = some 0 →
      env.ifs_is_open = true ∧
      ∀ e ∈ o.state.log, mainChecked b e.api = true → e.status = some CUDA_SUCCESS) ∧
    (∀ pre e post, o.state.log = pre ++ e :: post → mainChecked b e.api = true →
      failed e = true →
      o.exitCode = some EXIT_FAILURE ∧
        ∀ x ∈ post, x.api = .cuGetErrorString ∨ x.api = .printf) := by
  have key : ∀ {P : Event → Bool} {R : Int → State → Prop},
      Spec P (fun a s1 => R a s1 ∧ env.ifs_is_open = true) True (State.init env) o →
      (o.value = some 0 →
        env.ifs_is_open = true ∧
        ∀ e ∈ o.state.log, mainChecked b e.api = true → e.status = some CUDA_SUCCESS) ∧
      (∀ pre e post, o.state.log = pre ++ e :: post → mainChecked b e.api = true →
        failed e = true →
        o.exitCode = some EXIT_FAILURE ∧
          ∀ x ∈ post, x.api = .cuGetErrorString ∨ x.api = .printf) := by
    intro P R hs
    refine ⟨fun hv => ?_, fun pre e post hp hc hf => ?_⟩
    · cases hoo : o with
      | exit c s1 => rw [hoo] at hv; simp [Outcome.value] at hv
      | ret a s1 =>
        refine ⟨(hs.of_ret hoo).2, fun e he hc => ?_⟩
        rw [hoo] at hs
        exact status_of_mainChecked b e hc ((spec_clean rfl hs).1 rfl e he)
    · obtain ⟨h1, h2, -⟩ := spec_fail_stop rfl hs pre e post hp (fatal_of_mainChecked b e hc hf)
      exact ⟨h1, fun x hx => report_api x (h2 x hx)⟩
  rcases ho with ⟨rfl, rfl⟩ | ⟨rfl, rfl⟩ | ⟨rfl, rfl⟩
  · exact key (V0.v0_main_spec env)
  · exact key (V1.v1_main_spec env true (fun h => by simp at h))
  · exact key (V2.v2_main_spec env true (fun h => by simp at h))

/-- C9 (witness): with an SDK whose `cuvidCreateVideoParser` fails, v1 exits with
`EXIT_FAILURE` right after reporting it. -/
theorem C9_main_returns_zero_only_after_success_witness :
    (V1.main env_parser_fails).exitCode = some EXIT_FAILURE ∧
    ∀ x ∈ [Event.cuGetErrorString 2,
           Event.printf "Failed to create a video parser: %s (exiting).\n"],
      x.api = .cuGetErrorString ∨ x.api = .printf := by
  have hl : (V1.main env_parser_fails).state.log =
      (V1.init_state env_parser_fails (State.init env_parser_fails)).log ++
        Event.cuvidCreateVideoParser V1.parser_params 2 0 ::
        [.cuGetErrorString 2, .printf "Failed to create a video parser: %s (exiting).\n"] := by
    rw [V1.v1_main_eq, V1.v1_main_init_of_ok _ _ (by
      simp [V1.init_ok, env_parser_fails, sdk_parser_fails, sdk_success]), andThen_ret]
    unfold V1.main_load
    simp -zeta only [exit_bind, pure_bind_prog]
    simp [bind_apply, pure_apply, andThen_ret, andThen_exit, exit_apply, emit_apply, printf,
      cuGetErrorString, cuvidCreateVideoParser, prog_ite_apply, env_parser_fails,
      sdk_parser_fails, sdk_success, env_success, State.init, V1.init_state, calls_nil,
      calls_cons, Event.api, Outcome.state]
  exact C9_main_returns_zero_only_after_success env_parser_fails _ false
    (Or.inr (Or.inl ⟨rfl, rfl⟩)) |>.2 _ _ _ hl rfl rfl

/-- C10 (counterexample): v1 and v2 do not pass the same parameters and do not return the same
values.  The parser parameters differ, the decoder creation parameters differ for the 4 by 2
format, the post-processing parameters differ for a progressive picture, and in a state where
both sequence callbacks go through the one of v1 returns 20 and the one of v2 returns 0. -/
theorem C10_counterexample :
    V1.parser_params ≠ V2.parser_params ∧
    V1.create_info fmt_demo ≠ V2.create_info fmt_demo ∧
    V1.vpp disp_demo ≠ V2.vpp disp_demo ∧
    (V1.parser_sequence_callback (sdk_success []) fmt_demo state_ready).value = some 20 ∧
    (V2.parser_sequence_callback (sdk_success []) fmt_demo state_ready).value = some 0 := by
  refine ⟨by decide, by decide, ?_, ?_, ?_⟩
  · simp [V1.vpp, V2.vpp, disp_demo, i32]
  · rw [V1.v1_parser_sequence_callback_of_ok _ _ _ (by
      simp [V1.sequence_ok, state_ready, sdk_success, nullptr])]
    rfl
  · rw [V2.v2_parser_sequence_callback_of_ok _ _ _ (by
      simp [V2.sequence_ok, state_ready, sdk_success, nullptr])]
    rfl

/-- C10 (amended): v1 and v2 differ in that v2 writes the decoded frames to disk and in four
values.  The parser parameters are the same but for `ulMaxNumDecodeSurfaces` (1 in v1, 4 in
v2) and `ulMaxDisplayDelay` (0 in v1, 1 in v2); the decoder creation parameters are the same
for every format but for `ulNumOutputSurfaces` (2 in v1, 1 in v2); the post-processing
parameters are the same for every picture but for `second_field` (`repeat_first_field + 1` in
v1, 0 in v2); the sequence callbacks return under the same condition, 20 in v1 and 0 in v2;
the decode-picture callbacks end the same way in the same state; and the display-picture
callbacks, when both return, return the same value. -/
theorem C10_v1_v2_differences :
    ({ V1.parser_params with ulMaxNumDecodeSurfaces := 4, ulMaxDisplayDelay := 1 } =
      V2.parser_params) ∧
    (∀ fmt, { V1.create_info fmt with ulNumOutputSurfaces := 1 } = V2.create_info fmt) ∧
    (∀ disp, { V1.vpp disp with second_field := 0 } = V2.vpp disp) ∧
    (∀ sdk fmt s,
      ((V1.parser_sequence_callback sdk fmt s).exitCode = none ↔
        (V2.parser_sequence_callback sdk fmt s).exitCode = none) ∧
      (∀ a s1, V1.parser_sequence_callback sdk fmt s = .ret a s1 → a = 20) ∧
      (∀ a s1, V2.parser_sequence_callback sdk fmt s = .ret a s1 → a = 0)) ∧
    (∀ sdk pic s,
      V1.parser_decode_picture_callback sdk pic s =
        V2.parser_decode_picture_callback sdk pic s) ∧
    (∀ sdk disp s a1 s1 a2 s2,
      V1.parser_display_picture_callback sdk disp s = .ret a1 s1 →
      V2.parser_display_picture_callback sdk disp s = .ret a2 s2 → a1 = a2) := by
  refine ⟨rfl, fun _ => rfl, fun _ => rfl, ?_, ?_, ?_⟩
  · intro sdk fmt s
    have h1 := V1.v1_parser_sequence_callback_spec sdk fmt s
    have h2 := V2.v2_parser_sequence_callback_spec sdk fmt s
    refine ⟨?_, fun a s1 h => (h1.of_ret h).1, fun a s1 h => (h2.of_ret h).1⟩
    have e1 : (V1.parser_sequence_callback sdk fmt s).exitCode = none ↔ V1.sequence_ok sdk s := by
      cases h : V1.parser_sequence_callback sdk fmt s with
      | ret a s1 => simpa [Outcome.exitCode] using (h1.of_ret h).2.2
      | exit c s1 => simpa [Outcome.exitCode] using (h1.of_exit h).2
    have e2 : (V2.parser_sequence_callback sdk fmt s).exitCode = none ↔ V2.sequence_ok sdk s := by
      cases h : V2.parser_sequence_callback sdk fmt s with
      | ret a s1 => simpa [Outcome.exitCode] using (h2.of_ret h).2.2
      | exit c s1 => simpa [Outcome.exitCode] using (h2.of_exit h).2
    rw [e1, e2]
    exact Iff.rfl
  · intro sdk pic s
    rw [V1.v1_parser_decode_picture_callback_eq, V2.v2_parser_decode_picture_callback_eq]
  · intro sdk disp s a1 s1 a2 s2 h1 h2
    rw [((V1.v1_parser_display_picture_callback_spec sdk disp s).of_ret h1).2,
      ((V2.v2_parser_display_picture_callback_spec sdk disp s).of_ret h2).2.1]

/-- C10 (witness): a picture both display callbacks go through: both return 1. -/
theorem C10_v1_v2_differences_witness :
    ∃ s1 s2, V1.parser_display_picture_callback (sdk_success []) disp_demo state_ready =
        .ret 1 s1 ∧
      V2.parser_display_picture_callback (sdk_success []) disp_demo state_ready = .ret 1 s2 := by
  have h1 := V1.v1_parser_display_picture_callback_eq (sdk_success []) disp_demo state_ready
  obtain ⟨a2, s2, h2, -⟩ := (V2.v2_parser_display_picture_callback_spec (sdk_success [])
    disp_demo state_ready).ret_of_not (by
      simp [V2.display_ok, V2.buffer_of, V2.nbytes_of, V2.pitch_of, V2.yuv_nbytes, state_ready,
        State.init, sdk_success, nullptr, u32, double_to_int])
  have hv : display_value (sdk_success []) state_ready = 1 := by
    simp [display_value, sdk_success]
  rw [hv] at h1
  have := C10_v1_v2_differences.2.2.2.2.2 _ _ _ _ _ _ _ h1 h2
  exact ⟨_, s2, h1, this ▸ h2⟩

/-- C11: in v2's display callback, for every pitch `p`, coded width `w` and coded height `h`
with `0 ≤ w ≤ p`, `h ≥ 0` and `3·p·h/2 < 2^31`, the size computed for the buffer is
`yuv_nbytes_needed = floor(3·p·h/2)`, which is also the number of bytes allocated and copied;
the offsets the two loops compute are `j·p` and `h·p + j·p`; and every byte range handed to
`ofs.write`, `[j·p, j·p + w)` for `j < h` and `[h·p + j·p, h·p + j·p + w)` for
`j < floor(h/2)`, lies inside `[0, yuv_nbytes_needed)`. -/
theorem C11_writes_stay_in_buffer (p : Nat) (w h : Int) (hw0 : 0 ≤ w) (hwp : w ≤ p)
    (hh : 0 ≤ h) (hb : 3 * p * h.toNat / 2 < 2147483648) :
    V2.yuv_nbytes p h = ((3 * p * h.toNat / 2 : Nat) : Int) ∧
    u64 (V2.yuv_nbytes p h) = 3 * p * h.toNat / 2 ∧
    (∀ j : Nat, j < h.toNat →
      V2.luma_offset p j = j * p ∧
      V2.luma_offset p j + w.toNat ≤ (V2.yuv_nbytes p h).toNat) ∧
    (∀ j : Nat, j < (Int.tdiv h 2).toNat →
      V2.chroma_offset h p j = h.toNat * p + j * p ∧
      V2.chroma_offset h p j + w.toNat ≤ (V2.yuv_nbytes p h).toNat) := by
  have hm : h.toNat * p < 4294967296 := by
    have : 3 * p * h.toNat = 3 * (h.toNat * p) := by ring
    omega
  have hy : V2.yuv_nbytes p h = ((3 * p * h.toNat / 2 : Nat) : Int) := by
    unfold V2.yuv_nbytes
    have e : (p : Int) * h = ((h.toNat * p : Nat) : Int) := by
      push_cast
      rw [Int.toNat_of_nonneg hh]
      ring
    rw [e, u32_of_lt _ hm, double_to_int_of_lt]
    · congr 2
      ring
    · have : 3 * (h.toNat * p) = 3 * p * h.toNat := by ring
      omega
  have hy2 : (V2.yuv_nbytes p h).toNat = 3 * p * h.toNat / 2 := by
    rw [hy]
    exact Int.toNat_natCast _
  have hwn : w.toNat ≤ p := by omega
  refine ⟨hy, ?_, fun j hj => ?_, fun j hj => ?_⟩
  · rw [hy, u64_of_lt _ (by omega)]
  · have ho := V2.v2_luma_offset_eq p h.toNat j hm hj
    refine ⟨ho, ?_⟩
    rw [ho, hy2]
    have h1 : (j + 1) * p ≤ h.toNat * p := Nat.mul_le_mul_right p hj
    have h2 : (j + 1) * p = j * p + p := by ring
    have h3 : 3 * p * h.toNat = 3 * (h.toNat * p) := by ring
    omega
  · rw [tdiv_two_toNat] at hj
    have ho := V2.v2_chroma_offset_eq h p j hm hj
    refine ⟨ho, ?_⟩
    rw [ho, hy2]
    have h1 : (j + 1) * p ≤ (h.toNat / 2) * p := Nat.mul_le_mul_right p hj
    have h2 : (j + 1) * p = j * p + p := by ring
    have h3 : 3 * p * h.toNat = 3 * (h.toNat * p) := by ring
    have h4 : 2 * ((h.toNat / 2) * p) ≤ h.toNat * p := by
      have : 2 * (h.toNat / 2) ≤ h.toNat := by omega
      calc 2 * ((h.toNat / 2) * p) = (2 * (h.toNat / 2)) * p := by ring
        _ ≤ h.toNat * p := Nat.mul_le_mul_right p this
    omega

/-- C11 (witness): with the pitch 4 and the coded size 4 by 2 the buffer has 12 bytes and the
last chroma row written, `[8, 12)`, ends with it. -/
theorem C11_writes_stay_in_buffer_witness :
    V2.yuv_nbytes 4 2 = 12 ∧ V2.chroma_offset 2 4 (0 : Nat) + (4 : Int).toNat ≤ 12 := by
  have h := C11_writes_stay_in_buffer 4 4 2 (by decide) (by decide) (by decide) (by decide)
  refine ⟨h.1, ?_⟩
  have h2 := (h.2.2.2 0 (by decide)).2
  rw [h.1] at h2
  exact h2

/-- C12: in v2 the host frame buffer is allocated at most once per run.  A run makes at most
one `cuMemAllocHost` call; and once `yuv_buffer` is non-null, no call of the display callback
(whichever way it ends), of the sequence callback or of a sequence of callbacks allocates
again, and `yuv_buffer` and `yuv_nbytes_needed` stay as they are, whatever pitch a later frame
is mapped with and although a later sequence callback stores the coded size of its format. -/
theorem C12_buffer_allocated_once :
    (∀ env, calls .cuMemAllocHost (V2.main env).state.log ≤ 1) ∧
    (∀ sdk disp s, s.yuv_buffer ≠ nullptr →
      calls .cuMemAllocHost (V2.parser_display_picture_callback sdk disp s).state.log =
        calls .cuMemAllocHost s.log ∧
      (V2.parser_display_picture_callback sdk disp s).state.yuv_buffer = s.yuv_buffer ∧
      (V2.parser_display_picture_callback sdk disp s).state.yuv_nbytes_needed =
        s.yuv_nbytes_needed) ∧
    (∀ sdk fmt s,
      calls .cuMemAllocHost (V2.parser_sequence_callback sdk fmt s).state.log =
        calls .cuMemAllocHost s.log ∧
      ∀ a s1, V2.parser_sequence_callback sdk fmt s = .ret a s1 →
        s1.yuv_buffer = s.yuv_buffer ∧ s1.yuv_nbytes_needed = s.yuv_nbytes_needed ∧
        s1.coded_width = i32 fmt.coded_width ∧ s1.coded_height = i32 fmt.coded_height) ∧
    (∀ sdk script s, s.yuv_buffer ≠ nullptr →
      calls .cuMemAllocHost (run_callbacks (V2.callbacks sdk) script s).state.log =
        calls .cuMemAllocHost s.log ∧
      ∀ s1, run_callbacks (V2.callbacks sdk) script s = .ret () s1 →
        s1.yuv_buffer = s.yuv_buffer ∧ s1.yuv_nbytes_needed = s.yuv_nbytes_needed) :=
  ⟨V2.v2_main_alloc, V2.v2_display_buffer, V2.v2_sequence_buffer, V2.v2_run_callbacks_buffer⟩

/-- C12 (witness): with the buffer 11 of 12 bytes allocated, a frame displayed for the coded
size 2 by 3, which would need 18 bytes, leaves the buffer and its size as they are. -/
theorem C12_buffer_allocated_once_witness :
    (V2.parser_display_picture_callback (sdk_success []) disp_demo
      { state_buffered with coded_width := 2, coded_height := 3 }).state.yuv_buffer = 11 ∧
    (V2.parser_display_picture_callback (sdk_success []) disp_demo
      { state_buffered with coded_width := 2, coded_height := 3 }).state.yuv_nbytes_needed
        = 12 ∧
    V2.yuv_nbytes 4 3 = 18 :=
  have h := C12_buffer_allocated_once.2.1 (sdk_success []) disp_demo
    { state_buffered with coded_width := 2, coded_height := 3 } (by decide)
  ⟨h.2.1, h.2.2, by simp [V2.yuv_nbytes, u32, double_to_int]⟩

/-- C13: in every version, `parser_display_picture_callback` first maps the picture with
index `info->picture_index`, with the global decoder, and maps nothing else; whenever it
returns, it returns 0 if `cuvidMapVideoFrame` failed or `cuvidUnmapVideoFrame` failed and 1
otherwise, and it has called `cuvidUnmapVideoFrame` exactly once if `cuvidMapVideoFrame`
succeeded and not at all if it failed.  What it unmaps is, with the global decoder, the device
pointer `ptr d` for the pointer `d` the mapping returned: `d` itself in v1 and v2, and in v0
`d` as read back from the global `device`, an `int`. -/
theorem C13_display_callback (cb : Sdk → CUVIDPARSERDISPINFO → Prog Int) (ptr : Nat → Nat)
    (hcb : (cb = V0.parser_display_picture_callback ∧ ptr = fun (d : Nat) => u64 (i32 (d : Int))) ∨
      (cb = V1.parser_display_picture_callback ∧ ptr = fun d => d) ∨
      (cb = V2.parser_display_picture_callback ∧ ptr = fun d => d))
    (sdk : Sdk) (disp : CUVIDPARSERDISPINFO) (s : State) :
    ∃ vpp tail, (cb sdk disp s).state.log =
        s.log ++ Event.cuvidMapVideoFrame s.decoder disp.picture_index vpp
          (sdk.cuvidMapVideoFrame (calls .cuvidMapVideoFrame s.log)).1
          (sdk.cuvidMapVideoFrame (calls .cuvidMapVideoFrame s.log)).2.1
          (u32 (sdk.cuvidMapVideoFrame (calls .cuvidMapVideoFrame s.log)).2.2) :: tail ∧
      calls .cuvidMapVideoFrame tail = 0 ∧
      (∀ dec p r, Event.cuvidUnmapVideoFrame dec p r ∈ tail →
        dec = s.decoder ∧
        p = ptr (sdk.cuvidMapVideoFrame (calls .cuvidMapVideoFrame s.log)).2.1) ∧
      ∀ a s1, cb sdk disp s = .ret a s1 →
        a = (if (sdk.cuvidMapVideoFrame (calls .cuvidMapVideoFrame s.log)).1 = CUDA_SUCCESS ∧
              sdk.cuvidUnmapVideoFrame (calls .cuvidUnmapVideoFrame s.log) = CUDA_SUCCESS
            then 1 else 0) ∧
        calls .cuvidUnmapVideoFrame tail =
          (if (sdk.cuvidMapVideoFrame (calls .cuvidMapVideoFrame s.log)).1 = CUDA_SUCCESS
            then 1 else 0) := by
  rcases hcb with ⟨rfl, rfl⟩ | ⟨rfl, rfl⟩ | ⟨rfl, rfl⟩
  · rw [V0.v0_parser_display_picture_callback_eq]
    refine ⟨_, _, rfl, ?_, ?_, ?_⟩
    · split_ifs <;> simp [calls_cons, calls_nil, Event.api]
    · intro dec p r hm
      split_ifs at hm <;> simp at hm
      all_goals exact ⟨hm.1, hm.2.1⟩
    · intro a s1 h
      simp only [Outcome.ret.injEq] at h
      refine ⟨h.1.symm ▸ rfl, ?_⟩
      split_ifs <;> simp [calls_cons, calls_nil, Event.api]
  · rw [V1.v1_parser_display_picture_callback_eq]
    refine ⟨_, _, rfl, ?_, ?_, ?_⟩
    · split_ifs <;> simp [calls_cons, calls_nil, Event.api]
    · intro dec p r hm
      split_ifs at hm <;> simp at hm
      all_goals exact ⟨hm.1, hm.2.1⟩
    · intro a s1 h
      simp only [Outcome.ret.injEq] at h
      refine ⟨h.1.symm ▸ rfl, ?_⟩
      split_ifs <;> simp [calls_cons, calls_nil, Event.api]
  · obtain ⟨⟨tail, hl, hmap, -, hun, hptr⟩, -, -, -⟩ :=
      V2.v2_parser_display_picture_callback_frame sdk disp s
    refine ⟨_, tail, hl, hmap, hptr, fun a s1 h => ?_⟩
    refine ⟨((V2.v2_parser_display_picture_callback_spec sdk disp s).of_ret h).2.1, ?_⟩
    rw [hun, h]
    simp [Outcome.exitCode]

/-- C13 (witness): in the state `state_ready` the display callback of v1 maps the picture 3,
unmaps it and returns 1. -/
theorem C13_display_callback_witness :
    ∃ s1, V1.parser_display_picture_callback (sdk_success []) disp_demo state_ready =
        .ret 1 s1 ∧
      calls .cuvidUnmapVideoFrame s1.log = 1 := by
  obtain ⟨vpp, tail, hl, -, -, h⟩ := C13_display_callback V1.parser_display_picture_callback
    (fun d => d) (Or.inr (Or.inl ⟨rfl, rfl⟩)) (sdk_success []) disp_demo state_ready
  have he := V1.v1_parser_display_picture_callback_eq (sdk_success []) disp_demo state_ready
  have hv : display_value (sdk_success []) state_ready = 1 := by
    simp [display_value, sdk_success]
  rw [hv] at he
  obtain ⟨-, hc⟩ := h 1 _ he
  refine ⟨_, he, ?_⟩
  rw [he] at hl
  rw [show ∀ x : State, (Outcome.ret (1 : Int) x).state = x from fun _ => rfl] at hl
  rw [hl, calls_append, calls_cons, hc]
  simp [state_ready, State.init, calls_nil, Event.api, sdk_success]

/-- C14: in every version, `parser_decode_picture_callback` terminates the process exactly
when the global decoder handle is null, in which case `cuvidDecodePicture` is not called (the
callback only prints); otherwise it calls `cuvidDecodePicture` once, with the decoder and the
given picture parameters, prints at most, and returns 1 whether that call succeeded or
failed. -/
theorem C14_decode_callback (cb : Sdk → CUVIDPICPARAMS → Prog Int)
    (hcb : cb = V0.parser_decode_picture_callback ∨ cb = V1.parser_decode_picture_callback ∨
      cb = V2.parser_decode_picture_callback)
    (sdk : Sdk) (pic : CUVIDPICPARAMS) (s : State) :
    ((cb sdk pic s).exitCode ≠ none ↔ s.decoder = nullptr) ∧
    (s.decoder = nullptr →
      (cb sdk pic s).exitCode = some EXIT_FAILURE ∧
      calls .cuvidDecodePicture (cb sdk pic s).state.log = calls .cuvidDecodePicture s.log ∧
      ∃ tail, (cb sdk pic s).state.log = s.log ++ tail ∧ ∀ x ∈ tail, isPrintf x = true) ∧
    (s.decoder ≠ nullptr →
      (cb sdk pic s).value = some 1 ∧
      calls .cuvidDecodePicture (cb sdk pic s).state.log =
        calls .cuvidDecodePicture s.log + 1 ∧
      ∃ tail, (cb sdk pic s).state.log =
          s.log ++ Event.cuvidDecodePicture s.decoder pic
            (sdk.cuvidDecodePicture (calls .cuvidDecodePicture s.log)) :: tail ∧
        ∀ x ∈ tail, isPrintf x = true) := by
  have key : cb sdk pic s =
      if s.decoder = nullptr then
        .exit EXIT_FAILURE { s with log := s.log ++ [.printf "decoder is nullptr. (exiting)."] }
      else
        .ret 1 { s with log := s.log ++
          (.cuvidDecodePicture s.decoder pic
              (sdk.cuvidDecodePicture (calls .cuvidDecodePicture s.log)) ::
            if sdk.cuvidDecodePicture (calls .cuvidDecodePicture s.log) = CUDA_SUCCESS then []
            else [.printf "Failed to decode the picture."]) } := by
    rcases hcb with rfl | rfl | rfl
    · exact V0.v0_parser_decode_picture_callback_eq sdk pic s
    · exact V1.v1_parser_decode_picture_callback_eq sdk pic s
    · exact V2.v2_parser_decode_picture_callback_eq sdk pic s
  rw [key]
  by_cases hd : s.decoder = nullptr
  · simp only [hd, if_true]
    refine ⟨by simp [Outcome.exitCode], fun _ => ⟨rfl, ?_, _, rfl, ?_⟩, fun h => absurd rfl h⟩
    · simp [Outcome.state, calls_append, calls_cons, calls_nil, Event.api]
    · simp [isPrintf]
  · simp only [hd, if_false]
    refine ⟨by simp [Outcome.exitCode, hd], fun h => h.elim, fun _ => ⟨rfl, ?_, _, rfl, ?_⟩⟩
    · split_ifs <;> simp [Outcome.state, calls_append, calls_cons, calls_nil, Event.api]
    · split_ifs <;> simp [isPrintf]

/-- C14 (witness): in the state `state_ready`, where the decoder is 7, the decode callback of
v0 calls `cuvidDecodePicture` and returns 1 although the call fails. -/
theorem C14_decode_callback_witness :
    (V0.parser_decode_picture_callback sdk_decode_fails pic_demo state_ready).value = some 1 ∧
    calls .cuvidDecodePicture
      (V0.parser_decode_picture_callback sdk_decode_fails pic_demo state_ready).state.log = 1 :=
  have h := (C14_decode_callback V0.parser_decode_picture_callback (Or.inl rfl)
    sdk_decode_fails pic_demo state_ready).2.2 (by decide)
  ⟨h.1, h.2.1⟩

/-- C15: in v2's display callback the output file is written only for a frame that was
successfully mapped and successfully copied to the host.  If `cuvidMapVideoFrame` fails the
callback returns 0 in the state it was called in but for the log, which has the mapping and
its report only: nothing was written to `out.nv12`, no buffer was allocated, `yuv_buffer` and
`yuv_nbytes_needed` are unchanged.  Whenever the process exits in the callback, nothing of
the frame was written; and it does exit, with `EXIT_FAILURE`, if after a successful mapping
the allocation fails, or the buffer size is 0, or `cuMemcpyDtoH` fails. -/
theorem C15_written_only_after_copy (sdk : Sdk) (disp : CUVIDPARSERDISPINFO) (s : State) :
    ((sdk.cuvidMapVideoFrame (calls .cuvidMapVideoFrame s.log)).1 ≠ CUDA_SUCCESS →
      V2.parser_display_picture_callback sdk disp s =
        .ret 0 { s with log := s.log ++
          [.cuvidMapVideoFrame s.decoder disp.picture_index (V2.vpp disp)
            (sdk.cuvidMapVideoFrame (calls .cuvidMapVideoFrame s.log)).1
            (sdk.cuvidMapVideoFrame (calls .cuvidMapVideoFrame s.log)).2.1
            (V2.pitch_of sdk s),
           .cuGetErrorString (sdk.cuvidMapVideoFrame (calls .cuvidMapVideoFrame s.log)).1,
           .printf "- mapping: %u failed: %s\n"] }) ∧
    (∀ c s1, V2.parser_display_picture_callback sdk disp s = .exit c s1 →
      c = EXIT_FAILURE ∧ s1.out_nv12 = s.out_nv12) ∧
    ((sdk.cuvidMapVideoFrame (calls .cuvidMapVideoFrame s.log)).1 = CUDA_SUCCESS →
      (s.yuv_buffer = nullptr ∧
          (sdk.cuMemAllocHost (calls .cuMemAllocHost s.log)).1 ≠ CUDA_SUCCESS) ∨
        V2.nbytes_of sdk s = 0 ∨
        (sdk.cuMemcpyDtoH (calls .cuMemcpyDtoH s.log)).1 ≠ CUDA_SUCCESS →
      ∃ s1, V2.parser_display_picture_callback sdk disp s = .exit EXIT_FAILURE s1 ∧
        s1.out_nv12 = s.out_nv12) ∧
    ((V2.parser_display_picture_callback sdk disp s).state.out_nv12 ≠ s.out_nv12 →
      (sdk.cuvidMapVideoFrame (calls .cuvidMapVideoFrame s.log)).1 = CUDA_SUCCESS ∧
      (sdk.cuMemcpyDtoH (calls .cuMemcpyDtoH s.log)).1 = CUDA_SUCCESS) := by
  obtain ⟨-, hexit, -, hfail⟩ := V2.v2_parser_display_picture_callback_frame sdk disp s
  have hs := V2.v2_parser_display_picture_callback_spec sdk disp s
  refine ⟨hfail, fun c s1 h => ?_, fun hmap hbad => ?_, fun hne => ?_⟩
  · rw [h] at hexit
    exact ⟨(hs.of_exit h).1, hexit (by simp [Outcome.exitCode])⟩
  · cases h : V2.parser_display_picture_callback sdk disp s with
    | ret a s1 =>
      obtain ⟨hok, -⟩ := (hs.of_ret h).2.2.1 hmap
      rcases hbad with ⟨h1, h2⟩ | h1 | h1
      · exact absurd (hok.1 h1) h2
      · exact absurd h1 hok.2.2.1
      · exact absurd hok.2.2.2.1 h1
    | exit c s1 =>
      rw [h] at hexit
      obtain ⟨hc, -⟩ := hs.of_exit h
      subst hc
      exact ⟨s1, rfl, hexit (by simp [Outcome.exitCode])⟩
  · cases h : V2.parser_display_picture_callback sdk disp s with
    | ret a s1 =>
      rw [h] at hne
      by_cases hmap : (sdk.cuvidMapVideoFrame (calls .cuvidMapVideoFrame s.log)).1 = CUDA_SUCCESS
      · exact ⟨hmap, ((hs.of_ret h).2.2.1 hmap).1.2.2.2.1⟩
      · exact absurd ((hs.of_ret h).2.2.2 hmap).1 hne
    | exit c s1 =>
      rw [h] at hexit hne
      exact absurd (hexit (by simp [Outcome.exitCode])) hne

/-- C15 (witness): with an SDK whose `cuvidMapVideoFrame` fails, the display callback of v2
called in the state `state_ready` returns 0 and the output file is as it was. -/
theorem C15_written_only_after_copy_witness :
    (V2.parser_display_picture_callback sdk_map_fails disp_demo state_ready).value = some 0 ∧
    (V2.parser_display_picture_callback sdk_map_fails disp_demo state_ready).state.out_nv12 =
      state_ready.out_nv12 := by
  have h := (C15_written_only_after_copy sdk_map_fails disp_demo state_ready).1 (by decide)
  rw [h]
  exact ⟨rfl, rfl⟩

end NvDecode
